import Mathlib

/-!
Role-assignment service of cluster-api-provider-azure

A shallow embedding of `azure/services/roleassignments/roleassignments.go`.

* Remote clients (`client.Create`, `virtualMachinesGetter.Get`,
  `virtualMachineScaleSetClient.Get`) are fields of `Service`: functions that
  read and update an abstract remote world `σ`.
* Every client invocation is appended to a call log, so that "which remote
  calls were issued, in which order, with which arguments" is observable.
* A Go `error` is `Option GoError` (`none` is `nil`); a nil-pointer dereference
  is the outcome `panicked`.
* Telemetry (`tele.StartSpanWithLogger`, `log.V(2).Info`) has no influence on
  results or remote calls and is left out.
-/

namespace Go

/-- A Go error value as built by `github.com/pkg/errors`: either an error that
carries only a message (what `errors.Errorf` builds, and what a client may return),
or an error wrapped with a context message by `errors.Wrap`. -/
inductive GoError where
  | base (msg : String)
  | wrapped (cause : GoError) (msg : String)
deriving DecidableEq, Repr

namespace GoError

/-- The method `Error()`: a wrapped error prints its context, a colon, and its cause. -/
def Error : GoError → String
  | base msg => msg
  | wrapped cause msg => msg ++ ": " ++ cause.Error

/-- The errors reached by repeated `Unwrap()`, the error itself first: what
`errors.Is` searches. The stack record that `errors.Wrap` puts on top of the message
record carries no message and no cause of its own and is not listed apart. -/
def chain : GoError → List GoError
  | base msg => [base msg]
  | wrapped cause msg => wrapped cause msg :: cause.chain

/-- The function `errors.Cause`: follows the chain of causes down to its root. -/
def Cause : GoError → GoError
  | base msg => base msg
  | wrapped cause _ => cause.Cause

end GoError

/-- The function `errors.Errorf`, applied to an already formatted message. -/
def Errorf (formatted : String) : GoError := GoError.base formatted

/-- The function `errors.Wrap` on a non-nil error (every call site in the service
is guarded by `err != nil`). -/
def Wrap (err : GoError) (message : String) : GoError := GoError.wrapped err message

/-- Substring test, as `strings.Contains`. -/
def Contains (s substr : String) : Prop := substr.data <:+: s.data

instance (s substr : String) : Decidable (Contains s substr) :=
  inferInstanceAs (Decidable (substr.data <:+: s.data))

/-- The table `lowerhex` of package strconv. -/
def lowerhex (n : Nat) : Char := "0123456789abcdef".data.getD (n % 16) '0'

/-- The function `strconv.IsPrint`. Up to U+00FF the Go source decides by explicit
ranges; above, it consults Unicode tables, which are the parameter `wide`. -/
def IsPrint (wide : Char → Bool) (r : Char) : Bool :=
  if r.toNat ≤ 0xFF then
    if 0x20 ≤ r.toNat ∧ r.toNat ≤ 0x7E then true
    else if 0xA1 ≤ r.toNat ∧ r.toNat ≤ 0xFF then decide (r.toNat ≠ 0xAD)
    else false
  else wide r

/-- The double quote character. -/
def dquote : Char := Char.ofNat 34

/-- The backslash character. -/
def backslash : Char := Char.ofNat 92

/-- The function `appendEscapedRune` of package strconv with quote character `"`,
`ASCIIonly = false` and `graphicOnly = false`, as used by `strconv.Quote`. A Lean
`Char` is always a valid rune, so the branch for invalid runes does not arise. -/
def escapedRune (wide : Char → Bool) (r : Char) : List Char :=
  if r = dquote ∨ r = backslash then [backslash, r]
  else if IsPrint wide r then [r]
  else if r.toNat = 7 then [backslash, 'a']
  else if r.toNat = 8 then [backslash, 'b']
  else if r.toNat = 12 then [backslash, 'f']
  else if r.toNat = 10 then [backslash, 'n']
  else if r.toNat = 13 then [backslash, 'r']
  else if r.toNat = 9 then [backslash, 't']
  else if r.toNat = 11 then [backslash, 'v']
  else if r.toNat < 0x20 ∨ r.toNat = 0x7F then
    [backslash, 'x', lowerhex (r.toNat / 16), lowerhex r.toNat]
  else if r.toNat < 0x10000 then
    [backslash, 'u', lowerhex (r.toNat / 4096), lowerhex (r.toNat / 256),
      lowerhex (r.toNat / 16), lowerhex r.toNat]
  else
    [backslash, 'U', lowerhex (r.toNat / 268435456), lowerhex (r.toNat / 16777216),
      lowerhex (r.toNat / 1048576), lowerhex (r.toNat / 65536),
      lowerhex (r.toNat / 4096), lowerhex (r.toNat / 256),
      lowerhex (r.toNat / 16), lowerhex r.toNat]

/-- The function `strconv.Quote`, which is what the verb `%q` of package fmt prints
for a string operand: the operand between double quotes, each rune escaped. -/
def Quote (wide : Char → Bool) (s : String) : String :=
  String.mk (dquote :: (s.data.flatMap (escapedRune wide) ++ [dquote]))

end Go

namespace azure

/-- Modelled from the spec: the constant `azure.VirtualMachine` is declared outside
the available sources; the data model names the resource kind `VirtualMachine`. -/
def VirtualMachine : String := "VirtualMachine"

/-- Modelled from the spec: the constant `azure.VirtualMachineScaleSet` is declared
outside the available sources; the data model names the resource kind
`VirtualMachineScaleSet`. -/
def VirtualMachineScaleSet : String := "VirtualMachineScaleSet"

/-- The struct `azure.RoleAssignmentSpec`, with the three fields the service reads. -/
structure RoleAssignmentSpec where
  MachineName : String
  Name : String
  ResourceType : String
deriving DecidableEq, Repr

end azure

namespace virtualmachines

/-- The struct `virtualmachines.VMSpec`; `reconcileVM` sets `Name` and `ResourceGroup`
and leaves every other field at its zero value. -/
structure VMSpec where
  Name : String
  ResourceGroup : String
deriving DecidableEq, Repr

end virtualmachines

namespace compute

/-- The struct `compute.VirtualMachineIdentity`: `PrincipalID` is a `*string`. -/
structure VirtualMachineIdentity where
  PrincipalID : Option String
deriving DecidableEq, Repr

/-- The struct `compute.VirtualMachine`: `Identity` is a pointer, possibly nil. -/
structure VirtualMachine where
  Identity : Option VirtualMachineIdentity
deriving DecidableEq, Repr

/-- The struct `compute.VirtualMachineScaleSetIdentity`. -/
structure VirtualMachineScaleSetIdentity where
  PrincipalID : Option String
deriving DecidableEq, Repr

/-- The struct `compute.VirtualMachineScaleSet`: `Identity` is a pointer, possibly nil. -/
structure VirtualMachineScaleSet where
  Identity : Option VirtualMachineScaleSetIdentity
deriving DecidableEq, Repr

end compute

namespace authorization

/-- The struct `authorization.RoleAssignmentProperties`; both fields are `*string`. -/
structure RoleAssignmentProperties where
  RoleDefinitionID : Option String
  PrincipalID : Option String
deriving DecidableEq, Repr

/-- The struct `authorization.RoleAssignmentCreateParameters`. -/
structure RoleAssignmentCreateParameters where
  Properties : Option RoleAssignmentProperties
deriving DecidableEq, Repr

end authorization

namespace roleassignments

open Go

/-- The constant `azureBuiltInContributorID`. -/
def azureBuiltInContributorID : String := "b24988ac-6180-42a0-ab88-20f7382dd24c"

/-- The `interface{}` value returned by `async.Getter.Get`: a `compute.VirtualMachine`,
or a value of any other dynamic type, of which only the name printed by `%T` matters
(`<nil>` for the nil interface). -/
inductive GetterValue where
  | virtualMachine (vm : compute.VirtualMachine)
  | other (typeName : String)
deriving DecidableEq, Repr

/-- One invocation of a remote client, with its arguments. -/
inductive RemoteCall where
  | vmGet (spec : virtualmachines.VMSpec)
  | vmssGet (resourceGroupName vmssName : String)
  | roleCreate (scope roleAssignmentName : String)
      (params : authorization.RoleAssignmentCreateParameters)
deriving DecidableEq, Repr

namespace RemoteCall

/-- Calls of `virtualMachinesGetter.Get`. -/
def isVMGet : RemoteCall → Bool
  | vmGet _ => true
  | _ => false

/-- Calls of `virtualMachineScaleSetClient.Get`. -/
def isVMSSGet : RemoteCall → Bool
  | vmssGet _ _ => true
  | _ => false

/-- Calls of `client.Create`. -/
def isCreate : RemoteCall → Bool
  | roleCreate _ _ _ => true
  | _ => false

/-- Calls that fetch a resource, of either kind. -/
def isFetch (c : RemoteCall) : Bool := c.isVMGet || c.isVMSSGet

end RemoteCall

/-- The interface `RoleAssignmentScope`, by the three methods the service calls. -/
structure RoleAssignmentScope where
  SubscriptionID : String
  ResourceGroup : String
  RoleAssignmentSpecs : List azure.RoleAssignmentSpec
deriving DecidableEq, Repr

/-- The struct `Service`. Each client is a function of the remote world `σ` and of
its arguments that yields the client's answer and the world afterwards. The
`authorization.RoleAssignment` that `Create` returns next to its error is discarded
by the only caller and is not represented. -/
structure Service (σ : Type) where
  Scope : RoleAssignmentScope
  client : σ → String → String → authorization.RoleAssignmentCreateParameters →
    Option GoError × σ
  virtualMachinesGetter : σ → virtualmachines.VMSpec → Except GoError GetterValue × σ
  virtualMachineScaleSetClient : σ → String → String →
    Except GoError compute.VirtualMachineScaleSet × σ

/-- The state threaded through a run: the remote world and the log of the remote
calls issued so far, oldest first. -/
structure Exec (σ : Type) where
  world : σ
  calls : List RemoteCall
deriving DecidableEq, Repr

/-- A run that starts in world `w` with nothing issued yet. -/
def Exec.start {σ : Type} (w : σ) : Exec σ := { world := w, calls := [] }

/-- How a method that returns `error` ends: it returns (`nil` is `none`), or the
goroutine panics on a nil-pointer dereference. -/
inductive Outcome where
  | returned (err : Option GoError)
  | panicked
deriving DecidableEq, Repr

namespace Service

variable {σ : Type}

/-- The call `s.client.Create(ctx, scope, roleAssignmentName, params)`, logged. -/
def callCreate (s : Service σ) (scope roleAssignmentName : String)
    (params : authorization.RoleAssignmentCreateParameters) (st : Exec σ) :
    Option GoError × Exec σ :=
  ((s.client st.world scope roleAssignmentName params).1,
    { world := (s.client st.world scope roleAssignmentName params).2,
      calls := st.calls ++ [RemoteCall.roleCreate scope roleAssignmentName params] })

/-- The call `s.virtualMachinesGetter.Get(ctx, spec)`, logged. -/
def callVMGet (s : Service σ) (spec : virtualmachines.VMSpec) (st : Exec σ) :
    Except GoError GetterValue × Exec σ :=
  ((s.virtualMachinesGetter st.world spec).1,
    { world := (s.virtualMachinesGetter st.world spec).2,
      calls := st.calls ++ [RemoteCall.vmGet spec] })

/-- The call `s.virtualMachineScaleSetClient.Get(ctx, resourceGroup, name)`, logged. -/
def callVMSSGet (s : Service σ) (resourceGroupName vmssName : String) (st : Exec σ) :
    Except GoError compute.VirtualMachineScaleSet × Exec σ :=
  ((s.virtualMachineScaleSetClient st.world resourceGroupName vmssName).1,
    { world := (s.virtualMachineScaleSetClient st.world resourceGroupName vmssName).2,
      calls := st.calls ++ [RemoteCall.vmssGet resourceGroupName vmssName] })

/-- The method `Service.assignRole`. -/
def assignRole (s : Service σ) (roleAssignmentName : String) (principalID : Option String)
    (st : Exec σ) : Option GoError × Exec σ :=
  let scope := "/subscriptions/" ++ s.Scope.SubscriptionID ++ "/"
  let contributorRoleDefinitionID :=
    "/subscriptions/" ++ s.Scope.SubscriptionID ++
      "/providers/Microsoft.Authorization/roleDefinitions/" ++ azureBuiltInContributorID
  let params : authorization.RoleAssignmentCreateParameters :=
    { Properties := some
        { RoleDefinitionID := some contributorRoleDefinitionID
          PrincipalID := principalID } }
  s.callCreate scope roleAssignmentName params st

/-- The method `Service.reconcileVM`. Reading `resultVM.Identity.PrincipalID` through
a nil `Identity` panics. -/
def reconcileVM (s : Service σ) (roleSpec : azure.RoleAssignmentSpec) (st : Exec σ) :
    Outcome × Exec σ :=
  let spec : virtualmachines.VMSpec :=
    { Name := roleSpec.MachineName, ResourceGroup := s.Scope.ResourceGroup }
  match s.callVMGet spec st with
  | (Except.error err, st1) =>
    (Outcome.returned
      (some (Wrap err "cannot get VM to assign role to system assigned identity")), st1)
  | (Except.ok (GetterValue.other typeName), st1) =>
    (Outcome.returned (some (Errorf (typeName ++ " is not a compute.VirtualMachine"))), st1)
  | (Except.ok (GetterValue.virtualMachine resultVM), st1) =>
    match resultVM.Identity with
    | none => (Outcome.panicked, st1)
    | some identity =>
      match s.assignRole roleSpec.Name identity.PrincipalID st1 with
      | (some err, st2) =>
        (Outcome.returned
          (some (Wrap err "cannot assign role to VM system assigned identity")), st2)
      | (none, st2) => (Outcome.returned none, st2)

/-- The method `Service.reconcileVMSS`. Reading `resultVMSS.Identity.PrincipalID`
through a nil `Identity` panics. -/
def reconcileVMSS (s : Service σ) (roleSpec : azure.RoleAssignmentSpec) (st : Exec σ) :
    Outcome × Exec σ :=
  match s.callVMSSGet s.Scope.ResourceGroup roleSpec.MachineName st with
  | (Except.error err, st1) =>
    (Outcome.returned
      (some (Wrap err "cannot get VMSS to assign role to system assigned identity")), st1)
  | (Except.ok resultVMSS, st1) =>
    match resultVMSS.Identity with
    | none => (Outcome.panicked, st1)
    | some identity =>
      match s.assignRole roleSpec.Name identity.PrincipalID st1 with
      | (some err, st2) =>
        (Outcome.returned
          (some (Wrap err "cannot assign role to VMSS system assigned identity")), st2)
      | (none, st2) => (Outcome.returned none, st2)

/-- The message of the error for an unexpected resource type:
`"unexpected resource type %q. Expected one of [%s, %s]"` formatted with the spec's
resource type and the two kind constants. -/
def unexpectedResourceType (wide : Char → Bool) (resourceType : String) : String :=
  "unexpected resource type " ++ Quote wide resourceType ++ ". Expected one of [" ++
    azure.VirtualMachine ++ ", " ++ azure.VirtualMachineScaleSet ++ "]"

/-- The loop of `Service.Reconcile` over the declared specs: every arm of the
switch in the loop body returns, and falling out of the loop returns nil. -/
def reconcileRange (wide : Char → Bool) (s : Service σ) :
    List azure.RoleAssignmentSpec → Exec σ → Outcome × Exec σ
  | [], st => (Outcome.returned none, st)
  | roleSpec :: _, st =>
    if roleSpec.ResourceType = azure.VirtualMachine then
      s.reconcileVM roleSpec st
    else if roleSpec.ResourceType = azure.VirtualMachineScaleSet then
      s.reconcileVMSS roleSpec st
    else
      (Outcome.returned (some (Errorf (unexpectedResourceType wide roleSpec.ResourceType))), st)

/-- The method `Service.Reconcile`. The parameter `wide` is the Unicode table
behind `%q` (see `Go.IsPrint`). -/
def Reconcile (wide : Char → Bool) (s : Service σ) (st : Exec σ) : Outcome × Exec σ :=
  reconcileRange wide s s.Scope.RoleAssignmentSpecs st

/-- The method `Service.Delete`: it returns nil and touches no client. -/
def Delete (_s : Service σ) (st : Exec σ) : Outcome × Exec σ :=
  (Outcome.returned none, st)

/-- The log entry of the Create request that `assignRole` builds for an assignment
name and a principal pointer. -/
def createEntry (s : Service σ) (roleAssignmentName : String) (principalID : Option String) :
    RemoteCall :=
  RemoteCall.roleCreate ("/subscriptions/" ++ s.Scope.SubscriptionID ++ "/") roleAssignmentName
    { Properties := some
        { RoleDefinitionID := some ("/subscriptions/" ++ s.Scope.SubscriptionID ++
            "/providers/Microsoft.Authorization/roleDefinitions/" ++
            "b24988ac-6180-42a0-ab88-20f7382dd24c")
          PrincipalID := principalID } }

/-- The same service with another list of declared specs. -/
def withSpecs (s : Service σ) (specs : List azure.RoleAssignmentSpec) : Service σ :=
  { s with Scope := { s.Scope with RoleAssignmentSpecs := specs } }

end Service

/-- A service for concrete runs: subscription `sub1`, resource group `rg1`, the given
declared specs, and clients that give the same fixed answer to every request; the
world counts the requests served. -/
def fixedService (specs : List azure.RoleAssignmentSpec)
    (vm : Except GoError GetterValue) (vmss : Except GoError compute.VirtualMachineScaleSet)
    (createErr : Option GoError) : Service Nat :=
  { Scope := { SubscriptionID := "sub1", ResourceGroup := "rg1", RoleAssignmentSpecs := specs }
    client := fun w _ _ _ => (createErr, w + 1)
    virtualMachinesGetter := fun w _ => (vm, w + 1)
    virtualMachineScaleSetClient := fun w _ _ => (vmss, w + 1) }

/-- A virtual machine whose identity record carries the given principal pointer. -/
def vmWithPrincipal (principal : Option String) : compute.VirtualMachine :=
  { Identity := some { PrincipalID := principal } }

/-- A scale set whose identity record carries the given principal pointer. -/
def vmssWithPrincipal (principal : Option String) : compute.VirtualMachineScaleSet :=
  { Identity := some { PrincipalID := principal } }

/-- A declared spec of kind VirtualMachine: machine `m1`, assignment name `ra1`. -/
def exampleVMSpec : azure.RoleAssignmentSpec :=
  { MachineName := "m1", Name := "ra1", ResourceType := "VirtualMachine" }

/-- A declared spec of kind VirtualMachineScaleSet: scale set `s1`, assignment name `ra2`. -/
def exampleVMSSSpec : azure.RoleAssignmentSpec :=
  { MachineName := "s1", Name := "ra2", ResourceType := "VirtualMachineScaleSet" }

/-- A fixed-answer service in which every fetch finds a resource with a principal
(`p1` for the virtual machine, `p2` for the scale set) and Create answers `createErr`. -/
def foundService (specs : List azure.RoleAssignmentSpec) (createErr : Option GoError) :
    Service Nat :=
  fixedService specs (Except.ok (GetterValue.virtualMachine (vmWithPrincipal (some "p1"))))
    (Except.ok (vmssWithPrincipal (some "p2"))) createErr

end roleassignments

namespace roleassignments

open Go

/-- A remote world that keeps the role assignments created so far, each with its
scope, its name and its parameters. -/
abbrev AssignmentStore : Type :=
  List (String × String × authorization.RoleAssignmentCreateParameters)

/-- A Create client over an `AssignmentStore`, where an assignment is identified by
scope and name: a request under a free key is stored and accepted, a request identical
to the stored one is accepted again, and a request that differs from the stored one is
refused with a conflict error. -/
def keyedCreate (w : AssignmentStore) (scope roleAssignmentName : String)
    (params : authorization.RoleAssignmentCreateParameters) :
    Option GoError × AssignmentStore :=
  match w.find? (fun a => a.1 == scope && a.2.1 == roleAssignmentName) with
  | none => (none, (scope, roleAssignmentName, params) :: w)
  | some a =>
    if a.2.2 = params then (none, w)
    else (some (GoError.base "RoleAssignmentExists"), w)

/-- A service for concrete runs over an `AssignmentStore`: subscription `sub1`, resource
group `rg1`, getters with fixed answers, and `keyedCreate` as the Create client. -/
def keyedService (specs : List azure.RoleAssignmentSpec)
    (vm : Except GoError GetterValue) (vmss : Except GoError compute.VirtualMachineScaleSet) :
    Service AssignmentStore :=
  { Scope := { SubscriptionID := "sub1", ResourceGroup := "rg1", RoleAssignmentSpecs := specs }
    client := keyedCreate
    virtualMachinesGetter := fun w _ => (vm, w)
    virtualMachineScaleSetClient := fun w _ _ => (vmss, w) }

end roleassignments

/-!
The long-running-operation tracker, and the helpers of the e2e suite

The tracker of the specification has no source among the files of the repository at
hand and is modelled from the specification. The helpers `validateStableReleaseString`,
`parseImageSkuNames` and `getLatestSkuForMinor` of `test/e2e/e2e_suite_test.go` are
embedded over models of the library functions they call: matching with package
`regexp`, `strconv.ParseUint`, and package `semver`. A text is a sequence of Unicode
characters; a helper that does not return ends in an `Abort`.
-/

namespace async

open Go

/-- Modelled from the spec: the long-running-operation tracker is not among the
available sources (the service only holds a field of type `async.Getter`). The spec
describes an operation as pending, succeeded with a result, or errored. -/
inductive OperationState (ρ : Type) where
  | pending
  | succeeded (result : ρ)
  | errored (cause : GoError)
deriving DecidableEq, Repr

/-- Modelled from the spec: the operation token is an opaque string. -/
abbrev OperationToken : Type := String

/-- Modelled from the spec: the tracker keeps no state in memory; the operations are a
persisted table keyed by token. A token that was never issued, or whose entry has
expired and was removed, has no entry. -/
abbrev OperationTable (ρ : Type) : Type := List (OperationToken × OperationState ρ)

/-- Modelled from the spec: the two tracking failures of the error taxonomy. -/
inductive TrackerError where
  | OperationNotFound
  | OperationFailed (cause : GoError)
deriving DecidableEq, Repr

/-- Modelled from the spec: the contract of `Poll` returns pending, succeeded with the
result, or failed with an error. -/
inductive PollResult (ρ : Type) where
  | Pending
  | Succeeded (result : ρ)
  | Failed (err : TrackerError)
deriving DecidableEq, Repr

/-- Modelled from the spec: `Poll` makes one status check for the token and returns at
once; it is a function of the token and the table alone. An unknown or expired token
is the error `OperationNotFound`; an operation that errored is the error
`OperationFailed`. -/
def Poll {ρ : Type} (table : OperationTable ρ) (token : OperationToken) : PollResult ρ :=
  match table.lookup token with
  | none => PollResult.Failed TrackerError.OperationNotFound
  | some OperationState.pending => PollResult.Pending
  | some (OperationState.succeeded result) => PollResult.Succeeded result
  | some (OperationState.errored cause) =>
    PollResult.Failed (TrackerError.OperationFailed cause)

end async

namespace regexp

/-- The syntax of the regular expressions used by the e2e helpers, as package
`regexp/syntax` parses them without flags: `^` and `$` stand for the begin and the end
of the text, and `.` for any character but the line feed. -/
inductive Regex where
  | empty
  | char (c : Char)
  | range (lo hi : Char)
  | anyNotNL
  | beginText
  | endText
  | seq (a b : Regex)
  | alt (a b : Regex)
  | star (a : Regex)
  | group (index : Nat) (a : Regex)
deriving DecidableEq, Repr

/-- The literal text `cs` as a regular expression. -/
def Regex.literal (cs : List Char) : Regex :=
  cs.foldr (fun c r => Regex.seq (Regex.char c) r) Regex.empty

/-- A way of matching a prefix of the text: the number of characters consumed from the
start of the text, the text that remains, and the submatches of the groups closed so
far, the latest first. -/
structure Thread where
  pos : Nat
  rest : List Char
  caps : List (Nat × List Char)
deriving DecidableEq, Repr

/-- Greedy iteration of `body`: the ways with one more round come before the way that
stops here; a round that consumes nothing is not repeated. -/
def iterate (body : Thread → List Thread) : Nat → Thread → List Thread
  | 0, t => [t]
  | fuel + 1, t =>
    ((body t).filter (fun u => u.rest.length < t.rest.length)).flatMap (iterate body fuel) ++ [t]

/-- All the ways in which the expression matches at a thread, in the order of
preference of package `regexp` (leftmost-first: the first alternative before the
second, more rounds of a star before fewer). `fuel` bounds the rounds of a star; the
length of the text is enough. -/
def step (fuel : Nat) : Regex → Thread → List Thread
  | Regex.empty, t => [t]
  | Regex.char c, t =>
    match t.rest with
    | x :: xs => if x = c then [{ pos := t.pos + 1, rest := xs, caps := t.caps }] else []
    | [] => []
  | Regex.range lo hi, t =>
    match t.rest with
    | x :: xs =>
      if lo.toNat ≤ x.toNat ∧ x.toNat ≤ hi.toNat then
        [{ pos := t.pos + 1, rest := xs, caps := t.caps }]
      else []
    | [] => []
  | Regex.anyNotNL, t =>
    match t.rest with
    | x :: xs => if x.toNat = 10 then [] else [{ pos := t.pos + 1, rest := xs, caps := t.caps }]
    | [] => []
  | Regex.beginText, t => if t.pos = 0 then [t] else []
  | Regex.endText, t => if t.rest = [] then [t] else []
  | Regex.seq a b, t => (step fuel a t).flatMap (step fuel b)
  | Regex.alt a b, t => step fuel a t ++ step fuel b t
  | Regex.star a, t => iterate (step fuel a) fuel t
  | Regex.group index a, t =>
    (step fuel a t).map (fun u =>
      { u with caps := (index, t.rest.take (t.rest.length - u.rest.length)) :: u.caps })

/-- A compiled expression: the syntax and the number of capturing groups. -/
structure Regexp where
  prog : Regex
  numSubexp : Nat
deriving DecidableEq, Repr

/-- The slice that `FindStringSubmatch` returns for the preferred match that starts
where the thread `start` stands, if the expression matches there: the whole match,
then the submatch of each group (the empty string for a group that took no part). -/
def submatchAt (re : Regexp) (fuel : Nat) (start : Thread) : Option (List String) :=
  match step fuel re.prog start with
  | [] => none
  | u :: _ =>
    some (String.mk (start.rest.take (start.rest.length - u.rest.length)) ::
      (List.range re.numSubexp).map (fun i => String.mk ((u.caps.lookup (i + 1)).getD [])))

/-- The search of `FindStringSubmatch` for the leftmost match: the start positions are
tried from `pos` on, `text` being the text from there. -/
def findFrom (re : Regexp) (fuel : Nat) : Nat → List Char → Option (List String)
  | pos, [] => submatchAt re fuel { pos := pos, rest := [], caps := [] }
  | pos, c :: cs =>
    match submatchAt re fuel { pos := pos, rest := c :: cs, caps := [] } with
    | some m => some m
    | none => findFrom re fuel (pos + 1) cs

/-- The method `Regexp.FindStringSubmatch`: the leftmost match and its submatches, or
nil (the empty slice) when there is no match. -/
def Regexp.FindStringSubmatch (re : Regexp) (s : String) : List String :=
  (findFrom re s.length 0 s.data).getD []

end regexp

namespace strconv

/-- The decimal digits `0` to `9`. -/
def isDigit (c : Char) : Bool := decide (48 ≤ c.toNat ∧ c.toNat ≤ 57)

/-- The value of a string of decimal digits, read from the left onto `acc`. -/
def decimalValue (acc : Nat) : List Char → Nat
  | [] => acc
  | c :: cs => decimalValue (acc * 10 + (c.toNat - 48)) cs

/-- The function `strconv.ParseUint(s, 10, 64)`: the value of a non-empty string of
decimal digits that fits in 64 bits; an error (`none`) for any other string. -/
def ParseUint (s : String) : Option Nat :=
  if s.data ≠ [] ∧ s.data.all isDigit = true ∧ decimalValue 0 s.data < 2 ^ 64 then
    some (decimalValue 0 s.data)
  else none

end strconv

namespace semver

/-- The struct `semver.PRVersion`: one dot-separated part of a pre-release, numeric or
alphanumeric. `VersionNum` is a `uint64`. -/
structure PRVersion where
  VersionStr : String
  VersionNum : Nat
  IsNum : Bool
deriving DecidableEq, Repr

/-- The struct `semver.Version`. `Major`, `Minor` and `Patch` are `uint64`; the
functions below only compare and print them, so no arithmetic can overflow. -/
structure Version where
  Major : Nat
  Minor : Nat
  Patch : Nat
  Pre : List PRVersion
  Build : List String
deriving DecidableEq, Repr

/-- The method `PRVersion.Compare`: numeric parts rank below alphanumeric ones. -/
def PRVersion.Compare (v o : PRVersion) : Int :=
  if v.IsNum = true ∧ o.IsNum = false then -1
  else if v.IsNum = false ∧ o.IsNum = true then 1
  else if v.IsNum = true ∧ o.IsNum = true then
    if v.VersionNum = o.VersionNum then 0
    else if v.VersionNum > o.VersionNum then 1
    else -1
  else
    if v.VersionStr = o.VersionStr then 0
    else if v.VersionStr > o.VersionStr then 1
    else -1

/-- The loop of `Version.Compare` over the pre-release parts and the test after it:
the first differing pair decides; otherwise the version with parts left is greater. -/
def comparePre : List PRVersion → List PRVersion → Int
  | [], [] => 0
  | [], _ :: _ => -1
  | _ :: _, [] => 1
  | a :: as, b :: bs =>
    if a.Compare b = 0 then comparePre as bs
    else if a.Compare b = 1 then 1
    else -1

/-- The method `Version.Compare`: semver precedence; build metadata has no part in it. -/
def Version.Compare (v o : Version) : Int :=
  if v.Major ≠ o.Major then (if v.Major > o.Major then 1 else -1)
  else if v.Minor ≠ o.Minor then (if v.Minor > o.Minor then 1 else -1)
  else if v.Patch ≠ o.Patch then (if v.Patch > o.Patch then 1 else -1)
  else if v.Pre.length = 0 ∧ o.Pre.length = 0 then 0
  else if v.Pre.length = 0 ∧ o.Pre.length > 0 then 1
  else if v.Pre.length > 0 ∧ o.Pre.length = 0 then -1
  else comparePre v.Pre o.Pre

/-- The method `Version.LT`. -/
def Version.LT (v o : Version) : Prop := v.Compare o = -1

instance (v o : Version) : Decidable (v.LT o) :=
  inferInstanceAs (Decidable (v.Compare o = -1))

/-- The method `PRVersion.String`. -/
def PRVersion.String (v : PRVersion) : String :=
  if v.IsNum then toString v.VersionNum else v.VersionStr

/-- The method `Version.String`: `Major.Minor.Patch`, then `-` and the pre-release
parts, then `+` and the build parts, each list joined by dots, when present. -/
def Version.String (v : Version) : String :=
  toString v.Major ++ "." ++ toString v.Minor ++ "." ++ toString v.Patch ++
    (if v.Pre = [] then "" else "-" ++ ".".intercalate (v.Pre.map PRVersion.String)) ++
    (if v.Build = [] then "" else "+" ++ ".".intercalate v.Build)

/-- The text before the first occurrence of `sep`, and the text after it, if any. -/
def cut (sep : Char) : List Char → List Char × Option (List Char)
  | [] => ([], none)
  | c :: cs =>
    if c = sep then ([], some cs)
    else ((c :: (cut sep cs).1), (cut sep cs).2)

/-- The function `strings.Split(s, ".")` on a list of characters. -/
def splitDots : Nat → List Char → List (List Char)
  | 0, s => [s]
  | fuel + 1, s =>
    match cut '.' s with
    | (a, none) => [a]
    | (a, some r) => a :: splitDots fuel r

/-- The helper `containsOnly(s, numbers)`. -/
def onlyNumbers (s : List Char) : Bool := s.all strconv.isDigit

/-- The helper `containsOnly(s, alphanum)`: digits, letters and the hyphen. -/
def onlyAlphanum (s : List Char) : Bool :=
  s.all (fun c => strconv.isDigit c || decide (65 ≤ c.toNat ∧ c.toNat ≤ 90) ||
    decide (97 ≤ c.toNat ∧ c.toNat ≤ 122) || decide (c = '-'))

/-- The helper `hasLeadingZeroes`: more than one character, the first being `0`. -/
def hasLeadingZeroes (s : List Char) : Bool :=
  match s with
  | c :: _ :: _ => decide (c = '0')
  | _ => false

/-- The number part of `semver.Parse`: digits only, no leading zero, within 64 bits. -/
def parseNumber (s : List Char) : Option Nat :=
  if onlyNumbers s = false then none
  else if hasLeadingZeroes s = true then none
  else strconv.ParseUint (String.mk s)

/-- The function `semver.NewPRVersion`. -/
def NewPRVersion (s : List Char) : Option PRVersion :=
  if s = [] then none
  else if onlyNumbers s = true then
    if hasLeadingZeroes s = true then none
    else (strconv.ParseUint (String.mk s)).map
      (fun num => { VersionStr := "", VersionNum := num, IsNum := true })
  else if onlyAlphanum s = true then
    some { VersionStr := String.mk s, VersionNum := 0, IsNum := false }
  else none

/-- The build parts accepted by `semver.Parse`: non-empty and alphanumeric. -/
def parseBuild (parts : List (List Char)) : Option (List String) :=
  parts.mapM (fun p => if p ≠ [] ∧ onlyAlphanum p = true then some (String.mk p) else none)

/-- The function `semver.Parse`: `none` stands for the returned error. The text is cut
at its first two dots into major, minor and the rest; the rest is cut at the first `+`
into patch-with-pre-release and build metadata, and that at the first `-` into patch
and pre-release. -/
def Parse (s : String) : Option Version :=
  if s.data = [] then none
  else
    match cut '.' s.data with
    | (_, none) => none
    | (majorStr, some afterMajor) =>
      match cut '.' afterMajor with
      | (_, none) => none
      | (minorStr, some afterMinor) =>
        match parseNumber majorStr, parseNumber minorStr with
        | some major, some minor =>
          let buildCut := cut '+' afterMinor
          let preCut := cut '-' buildCut.1
          match parseNumber preCut.1 with
          | none => none
          | some patch =>
            match (match preCut.2 with
                | none => some []
                | some pre => (splitDots pre.length pre).mapM NewPRVersion),
              (match buildCut.2 with
                | none => some []
                | some build => parseBuild (splitDots build.length build)) with
            | some pre, some build =>
              some { Major := major, Minor := minor, Patch := patch, Pre := pre, Build := build }
            | _, _ => none
        | _, _ => none

/-- A sorting function for concrete runs: insertion sort into ascending order of
precedence. -/
def sortByInsertion (versions : List Version) : List Version :=
  versions.insertionSort (fun a b => ¬ b.LT a)

end semver

namespace e2e

open regexp

/-- Why a helper of the test suite does not return: a Gomega expectation failed, or
the goroutine panicked. -/
inductive Abort where
  | expectationFailed
  | panicked
deriving DecidableEq, Repr

/-- The expression `(0|[1-9][0-9]*)` without its group: a decimal numeral. -/
def numeral : Regex :=
  Regex.alt (Regex.char '0')
    (Regex.seq (Regex.range '1' '9') (Regex.star (Regex.range '0' '9')))

/-- The expression `^stable-(0|[1-9][0-9]*)\.(0|[1-9][0-9]*)$` of
`validateStableReleaseString`, compiled. -/
def stableReleaseFormat : Regexp :=
  { prog :=
      Regex.seq Regex.beginText
        (Regex.seq (Regex.literal "stable-".data)
          (Regex.seq (Regex.group 1 numeral)
            (Regex.seq (Regex.char '.')
              (Regex.seq (Regex.group 2 numeral) Regex.endText))))
    numSubexp := 2 }

/-- The expression
`^k8s-(0|[1-9][0-9]*)dot(0|[1-9][0-9]*)dot(0|[1-9][0-9]*)-[a-z]*.*$` of
`parseImageSkuNames`, compiled. -/
def capiSku : Regexp :=
  { prog :=
      Regex.seq Regex.beginText
        (Regex.seq (Regex.literal "k8s-".data)
          (Regex.seq (Regex.group 1 numeral)
            (Regex.seq (Regex.literal "dot".data)
              (Regex.seq (Regex.group 2 numeral)
                (Regex.seq (Regex.literal "dot".data)
                  (Regex.seq (Regex.group 3 numeral)
                    (Regex.seq (Regex.char '-')
                      (Regex.seq (Regex.star (Regex.range 'a' 'z'))
                        (Regex.seq (Regex.star Regex.anyNotNL) Regex.endText)))))))))
    numSubexp := 3 }

/-- The function `validateStableReleaseString`. -/
def validateStableReleaseString (stableVersion : String) : Bool × List String :=
  (decide ((stableReleaseFormat.FindStringSubmatch stableVersion).length > 0),
    stableReleaseFormat.FindStringSubmatch stableVersion)

/-- The function `semver.MustParse`: it panics where `semver.Parse` returns an error. -/
def MustParse (s : String) : Except Abort semver.Version :=
  match semver.Parse s with
  | some v => Except.ok v
  | none => Except.error Abort.panicked

/-- The assignment `versions[key] = v` on a Go map, kept as a list of entries with at
most one entry for a key. -/
def mapSet (versions : List (String × semver.Version)) (key : String) (v : semver.Version) :
    List (String × semver.Version) :=
  (key, v) :: versions.filter (fun entry => entry.1 ≠ key)

/-- The loop of `parseImageSkuNames` over the SKU names, from the map built so far. A
match has four entries, so the indices 1 to 3 are in range. -/
def parseImageSkuNamesFrom :
    List String → List (String × semver.Version) → Except Abort (List (String × semver.Version))
  | [], versions => Except.ok versions
  | sku :: rest, versions =>
    if (capiSku.FindStringSubmatch sku).length ≠ 0 then
      match MustParse ((capiSku.FindStringSubmatch sku).getD 1 "" ++ "." ++
          (capiSku.FindStringSubmatch sku).getD 2 "" ++ "." ++
          (capiSku.FindStringSubmatch sku).getD 3 "") with
      | Except.error abort => Except.error abort
      | Except.ok v =>
        parseImageSkuNamesFrom rest
          (mapSet versions ((capiSku.FindStringSubmatch sku).getD 1 "" ++ "." ++
            (capiSku.FindStringSubmatch sku).getD 2 "" ++ "." ++
            (capiSku.FindStringSubmatch sku).getD 3 "") v)
    else parseImageSkuNamesFrom rest versions

/-- The function `parseImageSkuNames`: the map from version string to version, or the
panic of `semver.MustParse`. -/
def parseImageSkuNames (skus : List String) : Except Abort (List (String × semver.Version)) :=
  parseImageSkuNamesFrom skus []

/-- The function `getLatestSkuForMinor`. `sort` is `semver.Sort`, whose result is the
list in ascending order of precedence (the order among versions of equal precedence is
up to the sorting algorithm); `parseTolerant` is `semver.ParseTolerant`, with `none`
for an error. The loop from the last index down to the first stops at the first
version with the major and minor asked for. A failed `Expect` ends the run. -/
def getLatestSkuForMinor (sort : List semver.Version → List semver.Version)
    (parseTolerant : String → Option semver.Version)
    (version : String) (skus : List semver.Version) : Except Abort String :=
  if (validateStableReleaseString version).1 = true then
    match strconv.ParseUint ((validateStableReleaseString version).2.getD 1 "") with
    | none => Except.error Abort.expectationFailed
    | some major =>
      match strconv.ParseUint ((validateStableReleaseString version).2.getD 2 "") with
      | none => Except.error Abort.expectationFailed
      | some minor =>
        match (sort skus).reverse.find? (fun v => decide (v.Major = major ∧ v.Minor = minor)) with
        | some v => Except.ok ("v" ++ v.String)
        | none => Except.ok version
  else
    match parseTolerant version with
    | some v =>
      if v ∈ skus then Except.ok version else Except.error Abort.expectationFailed
    | none => Except.ok version

/-- A decimal numeral without leading zero: `0`, or a non-empty string of decimal
digits that does not start with `0`. -/
def isNumeral (n : List Char) : Prop :=
  n = ['0'] ∨ (n ≠ [] ∧ (∀ c ∈ n, strconv.isDigit c = true) ∧ n.head? ≠ some '0')

instance (n : List Char) : Decidable (isNumeral n) :=
  inferInstanceAs (Decidable (_ ∨ _))

/-- The longest numeral without leading zero at the head of a text, and the text after
it: `0` alone, or a digit from `1` to `9` with all the digits that follow. -/
def takeNumeral : List Char → Option (List Char × List Char)
  | [] => none
  | c :: cs =>
    if c = '0' then some (['0'], cs)
    else if 49 ≤ c.toNat ∧ c.toNat ≤ 57 then
      some (c :: cs.takeWhile strconv.isDigit, cs.dropWhile strconv.isDigit)
    else none

end e2e

namespace e2e

/-- What `stableReleaseFormat` matches, read off the text: `stable-`, the longest
numeral, a dot, the longest numeral, and nothing more. The result is the pair of the
two numerals. -/
def scanStable (s : List Char) : Option (List Char × List Char) :=
  if "stable-".data.isPrefixOf s = true then
    match takeNumeral (s.drop 7) with
    | some (major, c :: afterDot) =>
      if c = '.' then
        match takeNumeral afterDot with
        | some (minor, []) => some (major, minor)
        | _ => none
      else none
    | _ => none
  else none

end e2e

namespace e2e

/-- What `capiSku` matches, read off the text: `k8s-`, the longest numeral, `dot`, the
longest numeral, `dot`, the longest numeral, a hyphen, and a rest without line feed.
The result is the triple of the three numerals. -/
def scanSku (s : List Char) : Option (List Char × List Char × List Char) :=
  if "k8s-".data.isPrefixOf s = true then
    match takeNumeral (s.drop 4) with
    | some (major, r1) =>
      if "dot".data.isPrefixOf r1 = true then
        match takeNumeral (r1.drop 3) with
        | some (minor, r2) =>
          if "dot".data.isPrefixOf r2 = true then
            match takeNumeral (r2.drop 3) with
            | some (patch, c :: suffix) =>
              if c = '-' then
                if ∀ x ∈ suffix, x.toNat ≠ 10 then some (major, minor, patch) else none
              else none
            | _ => none
          else none
        | none => none
      else none
    | none => none
  else none

/-- An SKU name of the form `k8s-<a>dot<b>dot<c>-<suffix>`, where `a`, `b` and `c` are
numerals without leading zero and the suffix holds no line feed. -/
def skuForm (sku : String) (a b c : List Char) : Prop :=
  isNumeral a ∧ isNumeral b ∧ isNumeral c ∧
    ∃ suffix : List Char, (∀ x ∈ suffix, x.toNat ≠ 10) ∧
      sku.data = "k8s-".data ++ (a ++ ("dot".data ++ (b ++ ("dot".data ++ (c ++ '-' :: suffix)))))

end e2e

/-! ## Theorems -/

namespace Go

theorem contains_infix (a b c : String) : Contains (a ++ b ++ c) b :=
  ⟨a.data, c.data, by simp [String.data_append]⟩

theorem GoError.mem_chain_self (e : GoError) : e ∈ e.chain := by
  cases e <;> simp [GoError.chain]

theorem contains_of_data {s b : String} (front back : List Char)
    (h : s.data = front ++ (b.data ++ back)) : Contains s b :=
  ⟨front, back, by rw [h, List.append_assoc]⟩

theorem escapedRune_plain (wide : Char → Bool) (r : Char)
    (h : r ≠ dquote ∧ r ≠ backslash ∧ IsPrint wide r = true) :
    escapedRune wide r = [r] := by
  simp [escapedRune, h.1, h.2.1, h.2.2]

theorem flatMap_escapedRune_plain (wide : Char → Bool) (l : List Char)
    (h : ∀ r ∈ l, r ≠ dquote ∧ r ≠ backslash ∧ IsPrint wide r = true) :
    l.flatMap (escapedRune wide) = l := by
  induction l with
  | nil => rfl
  | cons r l ih =>
    rw [List.flatMap_cons, escapedRune_plain wide r (h r (List.mem_cons_self r l)),
      ih (fun x hx => h x (List.mem_cons_of_mem r hx))]
    rfl

theorem quote_plain (wide : Char → Bool) (s : String)
    (h : ∀ r ∈ s.data, r ≠ dquote ∧ r ≠ backslash ∧ IsPrint wide r = true) :
    Quote wide s = String.mk [dquote] ++ s ++ String.mk [dquote] := by
  unfold Quote
  rw [flatMap_escapedRune_plain wide s.data h]
  apply String.ext
  simp [String.data_append]

end Go

namespace roleassignments

open Go

namespace Service

variable {σ : Type}

theorem reconcile_vm (wide : Char → Bool) (s : Service σ) (st : Exec σ)
    (sp : azure.RoleAssignmentSpec) (rest : List azure.RoleAssignmentSpec)
    (h : s.Scope.RoleAssignmentSpecs = sp :: rest)
    (hk : sp.ResourceType = azure.VirtualMachine) :
    s.Reconcile wide st = s.reconcileVM sp st := by
  simp [Reconcile, h, reconcileRange, hk]

theorem reconcile_vmss (wide : Char → Bool) (s : Service σ) (st : Exec σ)
    (sp : azure.RoleAssignmentSpec) (rest : List azure.RoleAssignmentSpec)
    (h : s.Scope.RoleAssignmentSpecs = sp :: rest)
    (hk : sp.ResourceType = azure.VirtualMachineScaleSet) :
    s.Reconcile wide st = s.reconcileVMSS sp st := by
  have hne : azure.VirtualMachineScaleSet ≠ azure.VirtualMachine := by decide
  simp [Reconcile, h, reconcileRange, hk, hne]

theorem reconcile_unexpected (wide : Char → Bool) (s : Service σ) (st : Exec σ)
    (sp : azure.RoleAssignmentSpec) (rest : List azure.RoleAssignmentSpec)
    (h : s.Scope.RoleAssignmentSpecs = sp :: rest)
    (hvm : sp.ResourceType ≠ azure.VirtualMachine)
    (hvmss : sp.ResourceType ≠ azure.VirtualMachineScaleSet) :
    s.Reconcile wide st =
      (Outcome.returned (some (Errorf (unexpectedResourceType wide sp.ResourceType))), st) := by
  simp [Reconcile, h, reconcileRange, hvm, hvmss]

theorem assignRole_calls (s : Service σ) (name : String) (principal : Option String)
    (st : Exec σ) :
    (s.assignRole name principal st).2.calls = st.calls ++
      [RemoteCall.roleCreate ("/subscriptions/" ++ s.Scope.SubscriptionID ++ "/") name
        { Properties := some
            { RoleDefinitionID := some ("/subscriptions/" ++ s.Scope.SubscriptionID ++
                "/providers/Microsoft.Authorization/roleDefinitions/" ++
                "b24988ac-6180-42a0-ab88-20f7382dd24c")
              PrincipalID := principal } }] := by
  simp [assignRole, callCreate, azureBuiltInContributorID]

theorem assignRole_result (s : Service σ) (name : String) (principal : Option String)
    (st : Exec σ) :
    (s.assignRole name principal st).1 =
      (s.client st.world ("/subscriptions/" ++ s.Scope.SubscriptionID ++ "/") name
        { Properties := some
            { RoleDefinitionID := some ("/subscriptions/" ++ s.Scope.SubscriptionID ++
                "/providers/Microsoft.Authorization/roleDefinitions/" ++
                "b24988ac-6180-42a0-ab88-20f7382dd24c")
              PrincipalID := principal } }).1 := by
  simp [assignRole, callCreate, azureBuiltInContributorID]

/-- What `reconcileVM` does, by the answer of the getter and of `assignRole`. -/
theorem reconcileVM_eq (s : Service σ) (sp : azure.RoleAssignmentSpec) (st : Exec σ) :
    s.reconcileVM sp st =
      match (s.virtualMachinesGetter st.world
          { Name := sp.MachineName, ResourceGroup := s.Scope.ResourceGroup }).1 with
      | Except.error err =>
        (Outcome.returned
          (some (Wrap err "cannot get VM to assign role to system assigned identity")),
          (s.callVMGet { Name := sp.MachineName, ResourceGroup := s.Scope.ResourceGroup } st).2)
      | Except.ok (GetterValue.other typeName) =>
        (Outcome.returned (some (Errorf (typeName ++ " is not a compute.VirtualMachine"))),
          (s.callVMGet { Name := sp.MachineName, ResourceGroup := s.Scope.ResourceGroup } st).2)
      | Except.ok (GetterValue.virtualMachine { Identity := none }) =>
        (Outcome.panicked,
          (s.callVMGet { Name := sp.MachineName, ResourceGroup := s.Scope.ResourceGroup } st).2)
      | Except.ok (GetterValue.virtualMachine { Identity := some identity }) =>
        ((match (s.assignRole sp.Name identity.PrincipalID
            (s.callVMGet { Name := sp.MachineName, ResourceGroup := s.Scope.ResourceGroup }
              st).2).1 with
          | some err => Outcome.returned
              (some (Wrap err "cannot assign role to VM system assigned identity"))
          | none => Outcome.returned none),
          (s.assignRole sp.Name identity.PrincipalID
            (s.callVMGet { Name := sp.MachineName, ResourceGroup := s.Scope.ResourceGroup }
              st).2).2) := by
  unfold reconcileVM callVMGet
  rcases hans : s.virtualMachinesGetter st.world
    { Name := sp.MachineName, ResourceGroup := s.Scope.ResourceGroup } with ⟨a, w1⟩
  rcases a with err | ⟨⟨_ | identity⟩⟩ | typeName
  · simp [hans]
  · simp [hans]
  · simp only [hans]
    split <;> rename_i heq <;> simp [heq]
  · simp [hans]

/-- What `reconcileVMSS` does, by the answer of the client and of `assignRole`. -/
theorem reconcileVMSS_eq (s : Service σ) (sp : azure.RoleAssignmentSpec) (st : Exec σ) :
    s.reconcileVMSS sp st =
      match (s.virtualMachineScaleSetClient st.world s.Scope.ResourceGroup sp.MachineName).1 with
      | Except.error err =>
        (Outcome.returned
          (some (Wrap err "cannot get VMSS to assign role to system assigned identity")),
          (s.callVMSSGet s.Scope.ResourceGroup sp.MachineName st).2)
      | Except.ok { Identity := none } =>
        (Outcome.panicked, (s.callVMSSGet s.Scope.ResourceGroup sp.MachineName st).2)
      | Except.ok { Identity := some identity } =>
        ((match (s.assignRole sp.Name identity.PrincipalID
            (s.callVMSSGet s.Scope.ResourceGroup sp.MachineName st).2).1 with
          | some err => Outcome.returned
              (some (Wrap err "cannot assign role to VMSS system assigned identity"))
          | none => Outcome.returned none),
          (s.assignRole sp.Name identity.PrincipalID
            (s.callVMSSGet s.Scope.ResourceGroup sp.MachineName st).2).2) := by
  unfold reconcileVMSS callVMSSGet
  rcases hans : s.virtualMachineScaleSetClient st.world s.Scope.ResourceGroup
    sp.MachineName with ⟨a, w1⟩
  rcases a with err | ⟨_ | identity⟩
  · simp [hans]
  · simp [hans]
  · simp only [hans]
    split <;> rename_i heq <;> simp [heq]

theorem assignRole_log (s : Service σ) (name : String) (principal : Option String)
    (st : Exec σ) :
    (s.assignRole name principal st).2.calls = st.calls ++ [s.createEntry name principal] := by
  simp [assignRole, callCreate, createEntry, azureBuiltInContributorID]

/-- The log of `reconcileVM`: one fetch, then at most one Create, issued only when the
getter answered with a virtual machine that has an identity record. -/
theorem reconcileVM_calls (s : Service σ) (sp : azure.RoleAssignmentSpec) (st : Exec σ) :
    (s.reconcileVM sp st).2.calls = st.calls ++
        [RemoteCall.vmGet { Name := sp.MachineName, ResourceGroup := s.Scope.ResourceGroup }] ∨
    ∃ principal,
      (s.virtualMachinesGetter st.world
        { Name := sp.MachineName, ResourceGroup := s.Scope.ResourceGroup }).1 =
          Except.ok (GetterValue.virtualMachine { Identity := some { PrincipalID := principal } }) ∧
      (s.reconcileVM sp st).2.calls = st.calls ++
        [RemoteCall.vmGet { Name := sp.MachineName, ResourceGroup := s.Scope.ResourceGroup },
          s.createEntry sp.Name principal] := by
  rw [reconcileVM_eq]
  rcases hans : (s.virtualMachinesGetter st.world
    { Name := sp.MachineName, ResourceGroup := s.Scope.ResourceGroup }).1 with
    err | ⟨⟨_ | identity⟩⟩ | typeName
  · left; simp [callVMGet]
  · left; simp [callVMGet]
  · right; exact ⟨identity.PrincipalID, rfl, by simp [assignRole_log, callVMGet]⟩
  · left; simp [callVMGet]

/-- The log of `reconcileVMSS`: one fetch, then at most one Create, issued only when
the client answered with a scale set that has an identity record. -/
theorem reconcileVMSS_calls (s : Service σ) (sp : azure.RoleAssignmentSpec) (st : Exec σ) :
    (s.reconcileVMSS sp st).2.calls = st.calls ++
        [RemoteCall.vmssGet s.Scope.ResourceGroup sp.MachineName] ∨
    ∃ principal,
      (s.virtualMachineScaleSetClient st.world s.Scope.ResourceGroup sp.MachineName).1 =
          Except.ok { Identity := some { PrincipalID := principal } } ∧
      (s.reconcileVMSS sp st).2.calls = st.calls ++
        [RemoteCall.vmssGet s.Scope.ResourceGroup sp.MachineName,
          s.createEntry sp.Name principal] := by
  rw [reconcileVMSS_eq]
  rcases hans : (s.virtualMachineScaleSetClient st.world s.Scope.ResourceGroup
    sp.MachineName).1 with err | ⟨_ | identity⟩
  · left; simp [callVMSSGet]
  · left; simp [callVMSSGet]
  · right; exact ⟨identity.PrincipalID, rfl, by simp [assignRole_log, callVMSSGet]⟩

/-- The log of `Reconcile` started with an empty log: nothing, or one fetch for the
first declared spec, or that fetch followed by one Create named after that spec. -/
theorem reconcile_calls (wide : Char → Bool) (s : Service σ) (w : σ) :
    (s.Reconcile wide (Exec.start w)).2.calls = [] ∨
    ∃ sp rest fetch, s.Scope.RoleAssignmentSpecs = sp :: rest ∧ fetch.isFetch = true ∧
      ((s.Reconcile wide (Exec.start w)).2.calls = [fetch] ∨
        ∃ principal, (s.Reconcile wide (Exec.start w)).2.calls =
          [fetch, s.createEntry sp.Name principal]) := by
  rcases hspecs : s.Scope.RoleAssignmentSpecs with _ | ⟨sp, rest⟩
  · left; simp [Reconcile, hspecs, reconcileRange, Exec.start]
  · by_cases hvm : sp.ResourceType = azure.VirtualMachine
    · right
      refine ⟨sp, rest, RemoteCall.vmGet
        { Name := sp.MachineName, ResourceGroup := s.Scope.ResourceGroup }, rfl, rfl, ?_⟩
      rw [reconcile_vm wide s _ sp rest hspecs hvm]
      rcases reconcileVM_calls s sp (Exec.start w) with h | ⟨principal, _, h⟩
      · left; simpa [Exec.start] using h
      · right; exact ⟨principal, by simpa [Exec.start] using h⟩
    · by_cases hvmss : sp.ResourceType = azure.VirtualMachineScaleSet
      · right
        refine ⟨sp, rest, RemoteCall.vmssGet s.Scope.ResourceGroup sp.MachineName, rfl, rfl, ?_⟩
        rw [reconcile_vmss wide s _ sp rest hspecs hvmss]
        rcases reconcileVMSS_calls s sp (Exec.start w) with h | ⟨principal, _, h⟩
        · left; simpa [Exec.start] using h
        · right; exact ⟨principal, by simpa [Exec.start] using h⟩
      · left
        rw [reconcile_unexpected wide s _ sp rest hspecs hvm hvmss]
        rfl

/-- The log of `reconcileVM` when the getter finds a machine with an identity record. -/
theorem reconcileVM_log_identity (s : Service σ) (sp : azure.RoleAssignmentSpec) (st : Exec σ)
    (principal : Option String)
    (hget : (s.virtualMachinesGetter st.world
      { Name := sp.MachineName, ResourceGroup := s.Scope.ResourceGroup }).1 =
        Except.ok (GetterValue.virtualMachine { Identity := some { PrincipalID := principal } })) :
    (s.reconcileVM sp st).2.calls = st.calls ++
      [RemoteCall.vmGet { Name := sp.MachineName, ResourceGroup := s.Scope.ResourceGroup },
        s.createEntry sp.Name principal] := by
  rw [reconcileVM_eq, hget]
  simp [assignRole_log, callVMGet]

/-- The log of `reconcileVMSS` when the client finds a scale set with an identity record. -/
theorem reconcileVMSS_log_identity (s : Service σ) (sp : azure.RoleAssignmentSpec)
    (st : Exec σ) (principal : Option String)
    (hget : (s.virtualMachineScaleSetClient st.world s.Scope.ResourceGroup sp.MachineName).1 =
        Except.ok { Identity := some { PrincipalID := principal } }) :
    (s.reconcileVMSS sp st).2.calls = st.calls ++
      [RemoteCall.vmssGet s.Scope.ResourceGroup sp.MachineName,
        s.createEntry sp.Name principal] := by
  rw [reconcileVMSS_eq, hget]
  simp [assignRole_log, callVMSSGet]

/-- With an identity record present, `reconcileVM` returns: it does not panic. -/
theorem reconcileVM_identity_returns (s : Service σ) (sp : azure.RoleAssignmentSpec)
    (st : Exec σ) (principal : Option String)
    (hget : (s.virtualMachinesGetter st.world
      { Name := sp.MachineName, ResourceGroup := s.Scope.ResourceGroup }).1 =
        Except.ok (GetterValue.virtualMachine { Identity := some { PrincipalID := principal } })) :
    (s.reconcileVM sp st).1 ≠ Outcome.panicked := by
  rw [reconcileVM_eq, hget]
  simp only
  split <;> simp

/-- With an identity record present, `reconcileVMSS` returns: it does not panic. -/
theorem reconcileVMSS_identity_returns (s : Service σ) (sp : azure.RoleAssignmentSpec)
    (st : Exec σ) (principal : Option String)
    (hget : (s.virtualMachineScaleSetClient st.world s.Scope.ResourceGroup sp.MachineName).1 =
        Except.ok { Identity := some { PrincipalID := principal } }) :
    (s.reconcileVMSS sp st).1 ≠ Outcome.panicked := by
  rw [reconcileVMSS_eq, hget]
  simp only
  split <;> simp

/-- The run of `reconcileVM` when the getter returns an error. -/
theorem reconcileVM_fetch_error (s : Service σ) (sp : azure.RoleAssignmentSpec) (st : Exec σ)
    (e : GoError)
    (hget : (s.virtualMachinesGetter st.world
      { Name := sp.MachineName, ResourceGroup := s.Scope.ResourceGroup }).1 = Except.error e) :
    (s.reconcileVM sp st).1 =
        Outcome.returned
          (some (Wrap e "cannot get VM to assign role to system assigned identity")) ∧
      (s.reconcileVM sp st).2.calls = st.calls ++
        [RemoteCall.vmGet { Name := sp.MachineName, ResourceGroup := s.Scope.ResourceGroup }] := by
  rw [reconcileVM_eq, hget]
  simp [callVMGet]

/-- The run of `reconcileVMSS` when the client returns an error. -/
theorem reconcileVMSS_fetch_error (s : Service σ) (sp : azure.RoleAssignmentSpec)
    (st : Exec σ) (e : GoError)
    (hget : (s.virtualMachineScaleSetClient st.world s.Scope.ResourceGroup
      sp.MachineName).1 = Except.error e) :
    (s.reconcileVMSS sp st).1 =
        Outcome.returned
          (some (Wrap e "cannot get VMSS to assign role to system assigned identity")) ∧
      (s.reconcileVMSS sp st).2.calls = st.calls ++
        [RemoteCall.vmssGet s.Scope.ResourceGroup sp.MachineName] := by
  rw [reconcileVMSS_eq, hget]
  simp [callVMSSGet]

/-- The outcome of `reconcileVM` when the getter finds a machine with an identity
record: it is decided by the answer of Create to the request of `assignRole`. -/
theorem reconcileVM_outcome_identity (s : Service σ) (sp : azure.RoleAssignmentSpec)
    (st : Exec σ) (principal : Option String) (w1 : σ)
    (hget : s.virtualMachinesGetter st.world
      { Name := sp.MachineName, ResourceGroup := s.Scope.ResourceGroup } =
        (Except.ok (GetterValue.virtualMachine { Identity := some { PrincipalID := principal } }),
          w1)) :
    (s.reconcileVM sp st).1 =
      match (s.client w1 ("/subscriptions/" ++ s.Scope.SubscriptionID ++ "/") sp.Name
        { Properties := some
            { RoleDefinitionID := some ("/subscriptions/" ++ s.Scope.SubscriptionID ++
                "/providers/Microsoft.Authorization/roleDefinitions/" ++
                "b24988ac-6180-42a0-ab88-20f7382dd24c")
              PrincipalID := principal } }).1 with
      | some err => Outcome.returned
          (some (Wrap err "cannot assign role to VM system assigned identity"))
      | none => Outcome.returned none := by
  rw [reconcileVM_eq]
  simp only [hget, assignRole_result, callVMGet]

/-- The outcome of `reconcileVMSS` when the client finds a scale set with an identity
record: it is decided by the answer of Create to the request of `assignRole`. -/
theorem reconcileVMSS_outcome_identity (s : Service σ) (sp : azure.RoleAssignmentSpec)
    (st : Exec σ) (principal : Option String) (w1 : σ)
    (hget : s.virtualMachineScaleSetClient st.world s.Scope.ResourceGroup sp.MachineName =
        (Except.ok { Identity := some { PrincipalID := principal } }, w1)) :
    (s.reconcileVMSS sp st).1 =
      match (s.client w1 ("/subscriptions/" ++ s.Scope.SubscriptionID ++ "/") sp.Name
        { Properties := some
            { RoleDefinitionID := some ("/subscriptions/" ++ s.Scope.SubscriptionID ++
                "/providers/Microsoft.Authorization/roleDefinitions/" ++
                "b24988ac-6180-42a0-ab88-20f7382dd24c")
              PrincipalID := principal } }).1 with
      | some err => Outcome.returned
          (some (Wrap err "cannot assign role to VMSS system assigned identity"))
      | none => Outcome.returned none := by
  rw [reconcileVMSS_eq]
  simp only [hget, assignRole_result, callVMSSGet]

theorem wrap_error (e : GoError) (context : String) :
    (Wrap e context).Error = context ++ ": " ++ e.Error := rfl

theorem wrap_chain (e : GoError) (context : String) : e ∈ (Wrap e context).chain :=
  List.mem_cons_of_mem _ (GoError.mem_chain_self e)

/-- C1: when the first declared spec has kind VirtualMachine, `Reconcile` returns
exactly what `reconcileVM` returns for that spec (outcome, call log and world) and no
call of the scale-set client is in its log; when the first spec has kind
VirtualMachineScaleSet, it returns exactly what `reconcileVMSS` returns for that spec
and no call of the virtual-machine getter is in its log. -/
theorem Reconcile_routes_by_kind (wide : Char → Bool) (s : Service σ) (w : σ)
    (sp : azure.RoleAssignmentSpec) (rest : List azure.RoleAssignmentSpec)
    (h : s.Scope.RoleAssignmentSpecs = sp :: rest) :
    (sp.ResourceType = azure.VirtualMachine →
      s.Reconcile wide (Exec.start w) = s.reconcileVM sp (Exec.start w) ∧
      ∀ c ∈ (s.Reconcile wide (Exec.start w)).2.calls, c.isVMSSGet = false) ∧
    (sp.ResourceType = azure.VirtualMachineScaleSet →
      s.Reconcile wide (Exec.start w) = s.reconcileVMSS sp (Exec.start w) ∧
      ∀ c ∈ (s.Reconcile wide (Exec.start w)).2.calls, c.isVMGet = false) := by
  constructor
  · intro hk
    refine ⟨reconcile_vm wide s _ sp rest h hk, ?_⟩
    rw [reconcile_vm wide s _ sp rest h hk]
    intro c hc
    rcases reconcileVM_calls s sp (Exec.start w) with hlog | ⟨principal, _, hlog⟩ <;>
      rw [hlog] at hc <;> simp [Exec.start] at hc
    · subst hc; rfl
    · rcases hc with hc | hc <;> subst hc <;> rfl
  · intro hk
    refine ⟨reconcile_vmss wide s _ sp rest h hk, ?_⟩
    rw [reconcile_vmss wide s _ sp rest h hk]
    intro c hc
    rcases reconcileVMSS_calls s sp (Exec.start w) with hlog | ⟨principal, _, hlog⟩ <;>
      rw [hlog] at hc <;> simp [Exec.start] at hc
    · subst hc; rfl
    · rcases hc with hc | hc <;> subst hc <;> rfl

/-- C1, at concrete runs: a VirtualMachine spec goes through `reconcileVM`, a
VirtualMachineScaleSet spec through `reconcileVMSS`. -/
theorem Reconcile_routes_by_kind_witness :
    ((foundService [exampleVMSpec] none).Reconcile (fun _ => true) (Exec.start 0) =
        (foundService [exampleVMSpec] none).reconcileVM exampleVMSpec (Exec.start 0) ∧
      ∀ c ∈ ((foundService [exampleVMSpec] none).Reconcile (fun _ => true)
        (Exec.start 0)).2.calls, c.isVMSSGet = false) ∧
    ((foundService [exampleVMSSSpec, exampleVMSpec] none).Reconcile (fun _ => true)
          (Exec.start 0) =
        (foundService [exampleVMSSSpec, exampleVMSpec] none).reconcileVMSS exampleVMSSSpec
          (Exec.start 0) ∧
      ∀ c ∈ ((foundService [exampleVMSSSpec, exampleVMSpec] none).Reconcile (fun _ => true)
        (Exec.start 0)).2.calls, c.isVMGet = false) :=
  ⟨(Reconcile_routes_by_kind (fun _ => true) (foundService [exampleVMSpec] none) 0
      exampleVMSpec [] rfl).1 rfl,
   (Reconcile_routes_by_kind (fun _ => true) (foundService [exampleVMSSSpec, exampleVMSpec] none)
      0 exampleVMSSSpec [exampleVMSpec] rfl).2 rfl⟩

/-- C2, as the code has it: when the first declared spec has a kind other than
VirtualMachine and VirtualMachineScaleSet, `Reconcile` returns a non-nil error and
leaves the call log and the world untouched (no fetch, no Create). The message is
`unexpected resource type `, the kind as `%q` prints it, and
`. Expected one of [VirtualMachine, VirtualMachineScaleSet]`: it contains both valid
kind names and the quoted form of the offending kind, and it contains the offending
kind verbatim whenever each of its characters is printable and is neither a double
quote nor a backslash. -/
theorem Reconcile_unexpected_kind (wide : Char → Bool) (s : Service σ) (w : σ)
    (sp : azure.RoleAssignmentSpec) (rest : List azure.RoleAssignmentSpec)
    (h : s.Scope.RoleAssignmentSpecs = sp :: rest)
    (hvm : sp.ResourceType ≠ azure.VirtualMachine)
    (hvmss : sp.ResourceType ≠ azure.VirtualMachineScaleSet) :
    s.Reconcile wide (Exec.start w) =
      (Outcome.returned (some (GoError.base (unexpectedResourceType wide sp.ResourceType))),
        Exec.start w) ∧
    unexpectedResourceType wide sp.ResourceType =
      "unexpected resource type " ++ Quote wide sp.ResourceType ++
        ". Expected one of [VirtualMachine, VirtualMachineScaleSet]" ∧
    Contains (unexpectedResourceType wide sp.ResourceType) "VirtualMachine" ∧
    Contains (unexpectedResourceType wide sp.ResourceType) "VirtualMachineScaleSet" ∧
    Contains (unexpectedResourceType wide sp.ResourceType) (Quote wide sp.ResourceType) ∧
    ((∀ r ∈ sp.ResourceType.data, r ≠ dquote ∧ r ≠ backslash ∧ IsPrint wide r = true) →
      Contains (unexpectedResourceType wide sp.ResourceType) sp.ResourceType) := by
  refine ⟨reconcile_unexpected wide s _ sp rest h hvm hvmss, ?_, ?_, ?_, ?_, ?_⟩
  · simp only [unexpectedResourceType, azure.VirtualMachine,
      azure.VirtualMachineScaleSet, String.append_assoc]
    rfl
  · exact contains_of_data ("unexpected resource type ".data ++
      ((Quote wide sp.ResourceType).data ++ ". Expected one of [".data))
      (", ".data ++ ("VirtualMachineScaleSet".data ++ "]".data))
      (by simp [unexpectedResourceType, String.data_append,
        azure.VirtualMachine, azure.VirtualMachineScaleSet])
  · exact contains_infix _ _ _
  · exact contains_of_data "unexpected resource type ".data
      (". Expected one of [".data ++ ("VirtualMachine".data ++ (", ".data ++
        ("VirtualMachineScaleSet".data ++ "]".data))))
      (by simp [unexpectedResourceType, String.data_append,
        azure.VirtualMachine, azure.VirtualMachineScaleSet])
  · intro hplain
    exact contains_of_data ("unexpected resource type ".data ++ [dquote])
      ([dquote] ++ (". Expected one of [".data ++ ("VirtualMachine".data ++ (", ".data ++
        ("VirtualMachineScaleSet".data ++ "]".data)))))
      (by simp [unexpectedResourceType, String.data_append,
        azure.VirtualMachine, azure.VirtualMachineScaleSet, quote_plain wide _ hplain])

/-- C2, at a concrete run: the kind `Disk` is refused without any remote call, and the
message names it next to both valid kinds. -/
theorem Reconcile_unexpected_kind_witness :
    (foundService [⟨"m1", "ra1", "Disk"⟩] none).Reconcile (fun _ => true) (Exec.start 0) =
      (Outcome.returned (some (GoError.base (unexpectedResourceType (fun _ => true) "Disk"))),
        Exec.start 0) ∧
    Contains (unexpectedResourceType (fun _ => true) "Disk") "VirtualMachine" ∧
    Contains (unexpectedResourceType (fun _ => true) "Disk") "VirtualMachineScaleSet" ∧
    Contains (unexpectedResourceType (fun _ => true) "Disk") "Disk" :=
  ⟨(Reconcile_unexpected_kind (fun _ => true) (foundService [⟨"m1", "ra1", "Disk"⟩] none) 0
      ⟨"m1", "ra1", "Disk"⟩ [] rfl (by decide) (by decide)).1,
   (Reconcile_unexpected_kind (fun _ => true) (foundService [⟨"m1", "ra1", "Disk"⟩] none) 0
      ⟨"m1", "ra1", "Disk"⟩ [] rfl (by decide) (by decide)).2.2.1,
   (Reconcile_unexpected_kind (fun _ => true) (foundService [⟨"m1", "ra1", "Disk"⟩] none) 0
      ⟨"m1", "ra1", "Disk"⟩ [] rfl (by decide) (by decide)).2.2.2.1,
   (Reconcile_unexpected_kind (fun _ => true) (foundService [⟨"m1", "ra1", "Disk"⟩] none) 0
      ⟨"m1", "ra1", "Disk"⟩ [] rfl (by decide) (by decide)).2.2.2.2.2 (by decide)⟩

/-- C2 fails as stated: for a kind made of the letter a, a double quote and the letter
b, the message shows the kind in quoted form, with a backslash put before the inner
double quote, so the kind itself does not occur in the message. -/
theorem unexpected_kind_message_omits_kind :
    (foundService [⟨"m1", "ra1", String.mk ['a', dquote, 'b']⟩] none).Reconcile (fun _ => true)
        (Exec.start 0) =
      (Outcome.returned (some (GoError.base ("unexpected resource type " ++
        String.mk [dquote, 'a', backslash, dquote, 'b', dquote] ++
        ". Expected one of [VirtualMachine, VirtualMachineScaleSet]"))), Exec.start 0) ∧
    ¬ Contains ("unexpected resource type " ++
        String.mk [dquote, 'a', backslash, dquote, 'b', dquote] ++
        ". Expected one of [VirtualMachine, VirtualMachineScaleSet]")
      (String.mk ['a', dquote, 'b']) := by
  constructor
  · rfl
  · set_option maxRecDepth 100000 in decide

/-- C3, as the code has it: when the resource fetched for the first declared spec has
an identity record whose PrincipalID is nil, `Reconcile` does not stop before the
Create. It issues exactly one Create call, right after the fetch, whose parameters
carry a nil PrincipalID, and it returns without panicking. This holds for a
VirtualMachine spec and for a VirtualMachineScaleSet spec. -/
theorem Reconcile_nil_principal_reaches_create (wide : Char → Bool) (s : Service σ) (w : σ)
    (sp : azure.RoleAssignmentSpec) (rest : List azure.RoleAssignmentSpec)
    (h : s.Scope.RoleAssignmentSpecs = sp :: rest) :
    (sp.ResourceType = azure.VirtualMachine →
      (s.virtualMachinesGetter w
        { Name := sp.MachineName, ResourceGroup := s.Scope.ResourceGroup }).1 =
          Except.ok (GetterValue.virtualMachine { Identity := some { PrincipalID := none } }) →
      (s.Reconcile wide (Exec.start w)).2.calls =
        [RemoteCall.vmGet { Name := sp.MachineName, ResourceGroup := s.Scope.ResourceGroup },
          RemoteCall.roleCreate ("/subscriptions/" ++ s.Scope.SubscriptionID ++ "/") sp.Name
            { Properties := some
                { RoleDefinitionID := some ("/subscriptions/" ++ s.Scope.SubscriptionID ++
                    "/providers/Microsoft.Authorization/roleDefinitions/" ++
                    "b24988ac-6180-42a0-ab88-20f7382dd24c")
                  PrincipalID := none } }] ∧
      (s.Reconcile wide (Exec.start w)).1 ≠ Outcome.panicked) ∧
    (sp.ResourceType = azure.VirtualMachineScaleSet →
      (s.virtualMachineScaleSetClient w s.Scope.ResourceGroup sp.MachineName).1 =
          Except.ok { Identity := some { PrincipalID := none } } →
      (s.Reconcile wide (Exec.start w)).2.calls =
        [RemoteCall.vmssGet s.Scope.ResourceGroup sp.MachineName,
          RemoteCall.roleCreate ("/subscriptions/" ++ s.Scope.SubscriptionID ++ "/") sp.Name
            { Properties := some
                { RoleDefinitionID := some ("/subscriptions/" ++ s.Scope.SubscriptionID ++
                    "/providers/Microsoft.Authorization/roleDefinitions/" ++
                    "b24988ac-6180-42a0-ab88-20f7382dd24c")
                  PrincipalID := none } }] ∧
      (s.Reconcile wide (Exec.start w)).1 ≠ Outcome.panicked) := by
  constructor
  · intro hk hget
    rw [reconcile_vm wide s _ sp rest h hk]
    exact ⟨by simpa [Exec.start, createEntry] using
        reconcileVM_log_identity s sp (Exec.start w) none hget,
      reconcileVM_identity_returns s sp (Exec.start w) none hget⟩
  · intro hk hget
    rw [reconcile_vmss wide s _ sp rest h hk]
    exact ⟨by simpa [Exec.start, createEntry] using
        reconcileVMSS_log_identity s sp (Exec.start w) none hget,
      reconcileVMSS_identity_returns s sp (Exec.start w) none hget⟩

/-- C3, at concrete runs: a machine and a scale set whose identity has a nil principal. -/
theorem Reconcile_nil_principal_reaches_create_witness :
    ((fixedService [exampleVMSpec]
        (Except.ok (GetterValue.virtualMachine (vmWithPrincipal none)))
        (Except.ok (vmssWithPrincipal none)) none).Reconcile (fun _ => true)
        (Exec.start 0)).2.calls =
      [RemoteCall.vmGet { Name := "m1", ResourceGroup := "rg1" },
        RemoteCall.roleCreate ("/subscriptions/" ++ "sub1" ++ "/") "ra1"
          { Properties := some
              { RoleDefinitionID := some ("/subscriptions/" ++ "sub1" ++
                  "/providers/Microsoft.Authorization/roleDefinitions/" ++
                  "b24988ac-6180-42a0-ab88-20f7382dd24c")
                PrincipalID := none } }] ∧
    ((fixedService [exampleVMSSSpec]
        (Except.ok (GetterValue.virtualMachine (vmWithPrincipal none)))
        (Except.ok (vmssWithPrincipal none)) none).Reconcile (fun _ => true)
        (Exec.start 0)).2.calls =
      [RemoteCall.vmssGet "rg1" "s1",
        RemoteCall.roleCreate ("/subscriptions/" ++ "sub1" ++ "/") "ra2"
          { Properties := some
              { RoleDefinitionID := some ("/subscriptions/" ++ "sub1" ++
                  "/providers/Microsoft.Authorization/roleDefinitions/" ++
                  "b24988ac-6180-42a0-ab88-20f7382dd24c")
                PrincipalID := none } }] :=
  ⟨((Reconcile_nil_principal_reaches_create (fun _ => true)
      (fixedService [exampleVMSpec]
        (Except.ok (GetterValue.virtualMachine (vmWithPrincipal none)))
        (Except.ok (vmssWithPrincipal none)) none) 0 exampleVMSpec [] rfl).1 rfl rfl).1,
   ((Reconcile_nil_principal_reaches_create (fun _ => true)
      (fixedService [exampleVMSSSpec]
        (Except.ok (GetterValue.virtualMachine (vmWithPrincipal none)))
        (Except.ok (vmssWithPrincipal none)) none) 0 exampleVMSSSpec [] rfl).2 rfl rfl).1⟩

/-- C3 fails as stated: the fetched machine has an identity record with a nil
PrincipalID, yet `Reconcile` issues the Create call (with a nil PrincipalID) and,
Create having answered without error, returns nil. -/
theorem Reconcile_nil_principal_creates :
    (fixedService [exampleVMSpec]
        (Except.ok (GetterValue.virtualMachine { Identity := some { PrincipalID := none } }))
        (Except.error (GoError.base "not asked")) none).Reconcile (fun _ => true)
        (Exec.start 0) =
      (Outcome.returned none,
        { world := 2
          calls :=
            [RemoteCall.vmGet { Name := "m1", ResourceGroup := "rg1" },
              RemoteCall.roleCreate "/subscriptions/sub1/" "ra1"
                { Properties := some
                    { RoleDefinitionID := some ("/subscriptions/sub1/providers/" ++
                        "Microsoft.Authorization/roleDefinitions/" ++
                        "b24988ac-6180-42a0-ab88-20f7382dd24c")
                      PrincipalID := none } }] }) := by
  rfl

/-- C4: when the resource fetched for the first declared spec has PrincipalID `p`, the
log of `Reconcile` holds exactly one Create call; its scope argument is
`/subscriptions/`, the subscription ID, `/`, and its parameters carry PrincipalID `p`.
This holds for a VirtualMachine spec and for a VirtualMachineScaleSet spec. -/
theorem Reconcile_create_principal_and_scope (wide : Char → Bool) (s : Service σ) (w : σ)
    (sp : azure.RoleAssignmentSpec) (rest : List azure.RoleAssignmentSpec) (p : String)
    (h : s.Scope.RoleAssignmentSpecs = sp :: rest) :
    (sp.ResourceType = azure.VirtualMachine →
      (s.virtualMachinesGetter w
        { Name := sp.MachineName, ResourceGroup := s.Scope.ResourceGroup }).1 =
          Except.ok (GetterValue.virtualMachine { Identity := some { PrincipalID := some p } }) →
      ∃ name roleDefinitionID,
        (s.Reconcile wide (Exec.start w)).2.calls.filter RemoteCall.isCreate =
          [RemoteCall.roleCreate ("/subscriptions/" ++ s.Scope.SubscriptionID ++ "/") name
            { Properties := some
                { RoleDefinitionID := roleDefinitionID, PrincipalID := some p } }]) ∧
    (sp.ResourceType = azure.VirtualMachineScaleSet →
      (s.virtualMachineScaleSetClient w s.Scope.ResourceGroup sp.MachineName).1 =
          Except.ok { Identity := some { PrincipalID := some p } } →
      ∃ name roleDefinitionID,
        (s.Reconcile wide (Exec.start w)).2.calls.filter RemoteCall.isCreate =
          [RemoteCall.roleCreate ("/subscriptions/" ++ s.Scope.SubscriptionID ++ "/") name
            { Properties := some
                { RoleDefinitionID := roleDefinitionID, PrincipalID := some p } }]) := by
  constructor
  · intro hk hget
    refine ⟨sp.Name, some ("/subscriptions/" ++ s.Scope.SubscriptionID ++
      "/providers/Microsoft.Authorization/roleDefinitions/" ++
      "b24988ac-6180-42a0-ab88-20f7382dd24c"), ?_⟩
    rw [reconcile_vm wide s _ sp rest h hk,
      reconcileVM_log_identity s sp (Exec.start w) (some p) hget]
    simp [Exec.start, createEntry, RemoteCall.isCreate]
  · intro hk hget
    refine ⟨sp.Name, some ("/subscriptions/" ++ s.Scope.SubscriptionID ++
      "/providers/Microsoft.Authorization/roleDefinitions/" ++
      "b24988ac-6180-42a0-ab88-20f7382dd24c"), ?_⟩
    rw [reconcile_vmss wide s _ sp rest h hk,
      reconcileVMSS_log_identity s sp (Exec.start w) (some p) hget]
    simp [Exec.start, createEntry, RemoteCall.isCreate]

/-- C4, at concrete runs: principal `p1` of a machine and `p2` of a scale set reach the
Create call, whose scope is that of subscription `sub1`. -/
theorem Reconcile_create_principal_and_scope_witness :
    (∃ name roleDefinitionID,
      ((foundService [exampleVMSpec] none).Reconcile (fun _ => true)
          (Exec.start 0)).2.calls.filter RemoteCall.isCreate =
        [RemoteCall.roleCreate ("/subscriptions/" ++ "sub1" ++ "/") name
          { Properties := some
              { RoleDefinitionID := roleDefinitionID, PrincipalID := some "p1" } }]) ∧
    (∃ name roleDefinitionID,
      ((foundService [exampleVMSSSpec] none).Reconcile (fun _ => true)
          (Exec.start 0)).2.calls.filter RemoteCall.isCreate =
        [RemoteCall.roleCreate ("/subscriptions/" ++ "sub1" ++ "/") name
          { Properties := some
              { RoleDefinitionID := roleDefinitionID, PrincipalID := some "p2" } }]) :=
  ⟨(Reconcile_create_principal_and_scope (fun _ => true) (foundService [exampleVMSpec] none) 0
      exampleVMSpec [] "p1" rfl).1 rfl rfl,
   (Reconcile_create_principal_and_scope (fun _ => true) (foundService [exampleVMSSSpec] none) 0
      exampleVMSSSpec [] "p2" rfl).2 rfl rfl⟩

/-- C5: the Create request built by `assignRole` carries the role-definition reference
`/subscriptions/<sub>/providers/Microsoft.Authorization/roleDefinitions/b24988ac-6180-42a0-ab88-20f7382dd24c`,
whatever the assignment name and the principal; every Create call in the log of
`Reconcile` carries that reference, whatever the kind of the spec; and in the scenario
with subscription `sub1`, a VirtualMachine spec named `vm1` and fetched principal `p1`,
the log is the fetch followed by the Create call with scope `/subscriptions/sub1/`,
name `vm1`, that role-definition reference and principal `p1`. -/
theorem assignRole_role_definition (wide : Char → Bool) (s : Service σ) (w : σ) :
    (∀ (name : String) (principal : Option String) (st : Exec σ),
      (s.assignRole name principal st).2.calls = st.calls ++
        [RemoteCall.roleCreate ("/subscriptions/" ++ s.Scope.SubscriptionID ++ "/") name
          { Properties := some
              { RoleDefinitionID := some ("/subscriptions/" ++ s.Scope.SubscriptionID ++
                  "/providers/Microsoft.Authorization/roleDefinitions/" ++
                  "b24988ac-6180-42a0-ab88-20f7382dd24c")
                PrincipalID := principal } }]) ∧
    (∀ (scope name : String) (params : authorization.RoleAssignmentCreateParameters),
      RemoteCall.roleCreate scope name params ∈ (s.Reconcile wide (Exec.start w)).2.calls →
      ∃ principal, params =
        { Properties := some
            { RoleDefinitionID := some ("/subscriptions/" ++ s.Scope.SubscriptionID ++
                "/providers/Microsoft.Authorization/roleDefinitions/" ++
                "b24988ac-6180-42a0-ab88-20f7382dd24c")
              PrincipalID := principal } }) ∧
    (∀ (machineName : String) (rest : List azure.RoleAssignmentSpec),
      s.Scope.SubscriptionID = "sub1" →
      s.Scope.RoleAssignmentSpecs =
        { MachineName := machineName, Name := "vm1", ResourceType := azure.VirtualMachine } ::
          rest →
      (s.virtualMachinesGetter w
        { Name := machineName, ResourceGroup := s.Scope.ResourceGroup }).1 =
          Except.ok (GetterValue.virtualMachine
            { Identity := some { PrincipalID := some "p1" } }) →
      (s.Reconcile wide (Exec.start w)).2.calls =
        [RemoteCall.vmGet { Name := machineName, ResourceGroup := s.Scope.ResourceGroup },
          RemoteCall.roleCreate "/subscriptions/sub1/" "vm1"
            { Properties := some
                { RoleDefinitionID := some ("/subscriptions/sub1/providers/" ++
                    "Microsoft.Authorization/roleDefinitions/" ++
                    "b24988ac-6180-42a0-ab88-20f7382dd24c")
                  PrincipalID := some "p1" } }]) := by
  refine ⟨fun name principal st => assignRole_calls s name principal st, ?_, ?_⟩
  · intro scope name params hmem
    rcases reconcile_calls wide s w with hlog | ⟨sp, rest, fetch, _, hfetch, hlog | ⟨principal, hlog⟩⟩
    · rw [hlog] at hmem; simp at hmem
    · rw [hlog] at hmem
      simp only [List.mem_singleton] at hmem
      subst hmem
      simp [RemoteCall.isFetch, RemoteCall.isVMGet, RemoteCall.isVMSSGet] at hfetch
    · rw [hlog] at hmem
      simp only [List.mem_cons, List.mem_singleton, List.not_mem_nil, or_false] at hmem
      rcases hmem with hmem | hmem
      · subst hmem
        simp [RemoteCall.isFetch, RemoteCall.isVMGet, RemoteCall.isVMSSGet] at hfetch
      · simp only [createEntry, RemoteCall.roleCreate.injEq] at hmem
        exact ⟨principal, hmem.2.2⟩
  · intro machineName rest hsub hspecs hget
    rw [reconcile_vm wide s _
        { MachineName := machineName, Name := "vm1", ResourceType := azure.VirtualMachine }
        rest hspecs rfl,
      reconcileVM_log_identity s
        { MachineName := machineName, Name := "vm1", ResourceType := azure.VirtualMachine }
        (Exec.start w) (some "p1") hget]
    simp only [Exec.start, createEntry, hsub, List.nil_append]
    rfl

/-- C5, the scenario at a concrete run: subscription `sub1`, spec `vm1`, principal `p1`. -/
theorem assignRole_role_definition_witness :
    ((foundService [⟨"m1", "vm1", "VirtualMachine"⟩] none).Reconcile (fun _ => true)
        (Exec.start 0)).2.calls =
      [RemoteCall.vmGet { Name := "m1", ResourceGroup := "rg1" },
        RemoteCall.roleCreate "/subscriptions/sub1/" "vm1"
          { Properties := some
              { RoleDefinitionID := some ("/subscriptions/sub1/providers/" ++
                  "Microsoft.Authorization/roleDefinitions/" ++
                  "b24988ac-6180-42a0-ab88-20f7382dd24c")
                PrincipalID := some "p1" } }] :=
  (assignRole_role_definition (fun _ => true)
    (foundService [⟨"m1", "vm1", "VirtualMachine"⟩] none) 0).2.2 "m1" [] rfl rfl rfl

/-- C6: every Create call in the log of `Reconcile` is named by the `Name` field of the
first declared spec, hence not by its `MachineName` when the two differ; and when the
fetch finds a resource with an identity record, of either kind, the log is the fetch
followed by one Create call with that name. -/
theorem Reconcile_create_name (wide : Char → Bool) (s : Service σ) (w : σ)
    (sp : azure.RoleAssignmentSpec) (rest : List azure.RoleAssignmentSpec)
    (h : s.Scope.RoleAssignmentSpecs = sp :: rest) :
    (∀ (scope name : String) (params : authorization.RoleAssignmentCreateParameters),
      RemoteCall.roleCreate scope name params ∈ (s.Reconcile wide (Exec.start w)).2.calls →
      name = sp.Name ∧ (sp.Name ≠ sp.MachineName → name ≠ sp.MachineName)) ∧
    (sp.ResourceType = azure.VirtualMachine →
      ∀ principal : Option String,
      (s.virtualMachinesGetter w
        { Name := sp.MachineName, ResourceGroup := s.Scope.ResourceGroup }).1 =
          Except.ok (GetterValue.virtualMachine
            { Identity := some { PrincipalID := principal } }) →
      ∃ scope params, (s.Reconcile wide (Exec.start w)).2.calls =
        [RemoteCall.vmGet { Name := sp.MachineName, ResourceGroup := s.Scope.ResourceGroup },
          RemoteCall.roleCreate scope sp.Name params]) ∧
    (sp.ResourceType = azure.VirtualMachineScaleSet →
      ∀ principal : Option String,
      (s.virtualMachineScaleSetClient w s.Scope.ResourceGroup sp.MachineName).1 =
          Except.ok { Identity := some { PrincipalID := principal } } →
      ∃ scope params, (s.Reconcile wide (Exec.start w)).2.calls =
        [RemoteCall.vmssGet s.Scope.ResourceGroup sp.MachineName,
          RemoteCall.roleCreate scope sp.Name params]) := by
  refine ⟨?_, ?_, ?_⟩
  · intro scope name params hmem
    have hname : name = sp.Name := by
      rcases reconcile_calls wide s w with
        hlog | ⟨sp2, rest2, fetch, hspecs, hfetch, hlog | ⟨principal, hlog⟩⟩
      · rw [hlog] at hmem; simp at hmem
      · rw [hlog] at hmem
        simp only [List.mem_singleton] at hmem
        subst hmem
        simp [RemoteCall.isFetch, RemoteCall.isVMGet, RemoteCall.isVMSSGet] at hfetch
      · rw [hlog] at hmem
        simp only [List.mem_cons, List.mem_singleton, List.not_mem_nil, or_false] at hmem
        rcases hmem with hmem | hmem
        · subst hmem
          simp [RemoteCall.isFetch, RemoteCall.isVMGet, RemoteCall.isVMSSGet] at hfetch
        · simp only [createEntry, RemoteCall.roleCreate.injEq] at hmem
          rw [h] at hspecs
          simp only [List.cons.injEq] at hspecs
          rw [hspecs.1]
          exact hmem.2.1
    exact ⟨hname, fun hne => hname ▸ hne⟩
  · intro hk principal hget
    rw [reconcile_vm wide s _ sp rest h hk,
      reconcileVM_log_identity s sp (Exec.start w) principal hget]
    exact ⟨_, _, rfl⟩
  · intro hk principal hget
    rw [reconcile_vmss wide s _ sp rest h hk,
      reconcileVMSS_log_identity s sp (Exec.start w) principal hget]
    exact ⟨_, _, rfl⟩

/-- C6, at concrete runs: the Create call is named `ra1` (resp. `ra2`), the spec's
`Name`, while the fetch is for `m1` (resp. `s1`), its `MachineName`. -/
theorem Reconcile_create_name_witness :
    (∃ scope params, ((foundService [exampleVMSpec] none).Reconcile (fun _ => true)
        (Exec.start 0)).2.calls =
      [RemoteCall.vmGet { Name := "m1", ResourceGroup := "rg1" },
        RemoteCall.roleCreate scope "ra1" params]) ∧
    (∃ scope params, ((foundService [exampleVMSSSpec] none).Reconcile (fun _ => true)
        (Exec.start 0)).2.calls =
      [RemoteCall.vmssGet "rg1" "s1", RemoteCall.roleCreate scope "ra2" params]) :=
  ⟨(Reconcile_create_name (fun _ => true) (foundService [exampleVMSpec] none) 0
      exampleVMSpec [] rfl).2.1 rfl (some "p1") rfl,
   (Reconcile_create_name (fun _ => true) (foundService [exampleVMSSSpec] none) 0
      exampleVMSSSpec [] rfl).2.2 rfl (some "p2") rfl⟩

/-- C7: with two or more declared specs, `Reconcile` does what it does on the list that
holds the first spec alone: same outcome, same call log, same world, from every
starting state. Nothing is fetched or created for the second or any later spec. -/
theorem Reconcile_first_spec_only (wide : Char → Bool) (s : Service σ) (st : Exec σ)
    (sp second : azure.RoleAssignmentSpec) (rest : List azure.RoleAssignmentSpec) :
    (s.withSpecs (sp :: second :: rest)).Reconcile wide st =
      (s.withSpecs [sp]).Reconcile wide st := by
  simp only [Reconcile, withSpecs, reconcileRange]
  split
  · rfl
  · split <;> rfl

/-- C8: `Delete` returns nil and leaves the run state as it found it, so its log gains
no call of any client; started with an empty log, the log stays empty. -/
theorem Delete_noop (s : Service σ) (st : Exec σ) (w : σ) :
    s.Delete st = (Outcome.returned none, st) ∧
    (s.Delete st).2.calls = st.calls ∧
    (s.Delete (Exec.start w)).2.calls = [] := by
  exact ⟨rfl, rfl, rfl⟩

/-- C9: when the fetch for the first declared spec returns an error `e`, `Reconcile`
returns `e` wrapped with the context message of the kind: the message is the context,
a colon and the message of `e`; `e` is in the chain of the returned error, which has
the root cause of `e`; and the log holds the fetch alone, hence no Create call. -/
theorem Reconcile_fetch_error (wide : Char → Bool) (s : Service σ) (w : σ)
    (sp : azure.RoleAssignmentSpec) (rest : List azure.RoleAssignmentSpec) (e : GoError)
    (h : s.Scope.RoleAssignmentSpecs = sp :: rest) :
    (sp.ResourceType = azure.VirtualMachine →
      (s.virtualMachinesGetter w
        { Name := sp.MachineName, ResourceGroup := s.Scope.ResourceGroup }).1 =
          Except.error e →
      ∃ err, (s.Reconcile wide (Exec.start w)).1 = Outcome.returned (some err) ∧
        err = Wrap e "cannot get VM to assign role to system assigned identity" ∧
        err.Error = "cannot get VM to assign role to system assigned identity: " ++ e.Error ∧
        e ∈ err.chain ∧ err.Cause = e.Cause ∧
        (s.Reconcile wide (Exec.start w)).2.calls =
          [RemoteCall.vmGet { Name := sp.MachineName, ResourceGroup := s.Scope.ResourceGroup }]) ∧
    (sp.ResourceType = azure.VirtualMachineScaleSet →
      (s.virtualMachineScaleSetClient w s.Scope.ResourceGroup sp.MachineName).1 =
          Except.error e →
      ∃ err, (s.Reconcile wide (Exec.start w)).1 = Outcome.returned (some err) ∧
        err = Wrap e "cannot get VMSS to assign role to system assigned identity" ∧
        err.Error = "cannot get VMSS to assign role to system assigned identity: " ++ e.Error ∧
        e ∈ err.chain ∧ err.Cause = e.Cause ∧
        (s.Reconcile wide (Exec.start w)).2.calls =
          [RemoteCall.vmssGet s.Scope.ResourceGroup sp.MachineName]) := by
  constructor
  · intro hk hget
    rw [reconcile_vm wide s _ sp rest h hk]
    exact ⟨_, (reconcileVM_fetch_error s sp (Exec.start w) e hget).1, rfl, wrap_error e _,
      wrap_chain e _, rfl, (reconcileVM_fetch_error s sp (Exec.start w) e hget).2⟩
  · intro hk hget
    rw [reconcile_vmss wide s _ sp rest h hk]
    exact ⟨_, (reconcileVMSS_fetch_error s sp (Exec.start w) e hget).1, rfl, wrap_error e _,
      wrap_chain e _, rfl, (reconcileVMSS_fetch_error s sp (Exec.start w) e hget).2⟩

/-- C9, at concrete runs: the getter fails with `boom`, for a machine and for a scale set. -/
theorem Reconcile_fetch_error_witness :
    (∃ err, ((fixedService [exampleVMSpec] (Except.error (GoError.base "boom"))
          (Except.error (GoError.base "boom")) none).Reconcile (fun _ => true)
          (Exec.start 0)).1 = Outcome.returned (some err) ∧
        err = Wrap (GoError.base "boom")
          "cannot get VM to assign role to system assigned identity" ∧
        err.Error = "cannot get VM to assign role to system assigned identity: " ++
          (GoError.base "boom").Error ∧
        GoError.base "boom" ∈ err.chain ∧ err.Cause = (GoError.base "boom").Cause ∧
        ((fixedService [exampleVMSpec] (Except.error (GoError.base "boom"))
          (Except.error (GoError.base "boom")) none).Reconcile (fun _ => true)
          (Exec.start 0)).2.calls =
          [RemoteCall.vmGet { Name := "m1", ResourceGroup := "rg1" }]) ∧
    (∃ err, ((fixedService [exampleVMSSSpec] (Except.error (GoError.base "boom"))
          (Except.error (GoError.base "boom")) none).Reconcile (fun _ => true)
          (Exec.start 0)).1 = Outcome.returned (some err) ∧
        err = Wrap (GoError.base "boom")
          "cannot get VMSS to assign role to system assigned identity" ∧
        err.Error = "cannot get VMSS to assign role to system assigned identity: " ++
          (GoError.base "boom").Error ∧
        GoError.base "boom" ∈ err.chain ∧ err.Cause = (GoError.base "boom").Cause ∧
        ((fixedService [exampleVMSSSpec] (Except.error (GoError.base "boom"))
          (Except.error (GoError.base "boom")) none).Reconcile (fun _ => true)
          (Exec.start 0)).2.calls = [RemoteCall.vmssGet "rg1" "s1"]) :=
  ⟨(Reconcile_fetch_error (fun _ => true)
      (fixedService [exampleVMSpec] (Except.error (GoError.base "boom"))
        (Except.error (GoError.base "boom")) none) 0 exampleVMSpec [] (GoError.base "boom")
      rfl).1 rfl rfl,
   (Reconcile_fetch_error (fun _ => true)
      (fixedService [exampleVMSSSpec] (Except.error (GoError.base "boom"))
        (Except.error (GoError.base "boom")) none) 0 exampleVMSSSpec [] (GoError.base "boom")
      rfl).2 rfl rfl⟩

/-- C10: when the fetch for the first declared spec finds a resource with an identity
record and leaves the world `w1`, the outcome is decided by what Create answers, in
`w1`, to the request of `assignRole`. If Create answers an error `e`, `Reconcile`
returns `e` wrapped with the context message of the kind: the message is the context,
a colon and the message of `e`; `e` is in the chain of the returned error, which has
the root cause of `e`. If Create answers no error, `Reconcile` returns nil. -/
theorem Reconcile_create_result (wide : Char → Bool) (s : Service σ) (w w1 : σ)
    (sp : azure.RoleAssignmentSpec) (rest : List azure.RoleAssignmentSpec)
    (principal : Option String)
    (h : s.Scope.RoleAssignmentSpecs = sp :: rest) :
    (sp.ResourceType = azure.VirtualMachine →
      s.virtualMachinesGetter w
        { Name := sp.MachineName, ResourceGroup := s.Scope.ResourceGroup } =
          (Except.ok (GetterValue.virtualMachine
            { Identity := some { PrincipalID := principal } }), w1) →
      (∀ e : GoError,
        (s.client w1 ("/subscriptions/" ++ s.Scope.SubscriptionID ++ "/") sp.Name
          { Properties := some
              { RoleDefinitionID := some ("/subscriptions/" ++ s.Scope.SubscriptionID ++
                  "/providers/Microsoft.Authorization/roleDefinitions/" ++
                  "b24988ac-6180-42a0-ab88-20f7382dd24c")
                PrincipalID := principal } }).1 = some e →
        ∃ err, (s.Reconcile wide (Exec.start w)).1 = Outcome.returned (some err) ∧
          err = Wrap e "cannot assign role to VM system assigned identity" ∧
          err.Error = "cannot assign role to VM system assigned identity: " ++ e.Error ∧
          e ∈ err.chain ∧ err.Cause = e.Cause) ∧
      ((s.client w1 ("/subscriptions/" ++ s.Scope.SubscriptionID ++ "/") sp.Name
          { Properties := some
              { RoleDefinitionID := some ("/subscriptions/" ++ s.Scope.SubscriptionID ++
                  "/providers/Microsoft.Authorization/roleDefinitions/" ++
                  "b24988ac-6180-42a0-ab88-20f7382dd24c")
                PrincipalID := principal } }).1 = none →
        (s.Reconcile wide (Exec.start w)).1 = Outcome.returned none)) ∧
    (sp.ResourceType = azure.VirtualMachineScaleSet →
      s.virtualMachineScaleSetClient w s.Scope.ResourceGroup sp.MachineName =
          (Except.ok { Identity := some { PrincipalID := principal } }, w1) →
      (∀ e : GoError,
        (s.client w1 ("/subscriptions/" ++ s.Scope.SubscriptionID ++ "/") sp.Name
          { Properties := some
              { RoleDefinitionID := some ("/subscriptions/" ++ s.Scope.SubscriptionID ++
                  "/providers/Microsoft.Authorization/roleDefinitions/" ++
                  "b24988ac-6180-42a0-ab88-20f7382dd24c")
                PrincipalID := principal } }).1 = some e →
        ∃ err, (s.Reconcile wide (Exec.start w)).1 = Outcome.returned (some err) ∧
          err = Wrap e "cannot assign role to VMSS system assigned identity" ∧
          err.Error = "cannot assign role to VMSS system assigned identity: " ++ e.Error ∧
          e ∈ err.chain ∧ err.Cause = e.Cause) ∧
      ((s.client w1 ("/subscriptions/" ++ s.Scope.SubscriptionID ++ "/") sp.Name
          { Properties := some
              { RoleDefinitionID := some ("/subscriptions/" ++ s.Scope.SubscriptionID ++
                  "/providers/Microsoft.Authorization/roleDefinitions/" ++
                  "b24988ac-6180-42a0-ab88-20f7382dd24c")
                PrincipalID := principal } }).1 = none →
        (s.Reconcile wide (Exec.start w)).1 = Outcome.returned none)) := by
  constructor
  · intro hk hget
    rw [reconcile_vm wide s _ sp rest h hk,
      reconcileVM_outcome_identity s sp (Exec.start w) principal w1 hget]
    constructor
    · intro e he
      rw [he]
      exact ⟨_, rfl, rfl, wrap_error e _, wrap_chain e _, rfl⟩
    · intro hnone
      rw [hnone]
  · intro hk hget
    rw [reconcile_vmss wide s _ sp rest h hk,
      reconcileVMSS_outcome_identity s sp (Exec.start w) principal w1 hget]
    constructor
    · intro e he
      rw [he]
      exact ⟨_, rfl, rfl, wrap_error e _, wrap_chain e _, rfl⟩
    · intro hnone
      rw [hnone]

/-- C10, at concrete runs: Create fails with `denied` for a machine, and succeeds for a
scale set. -/
theorem Reconcile_create_result_witness :
    (∃ err, ((foundService [exampleVMSpec] (some (GoError.base "denied"))).Reconcile
          (fun _ => true) (Exec.start 0)).1 = Outcome.returned (some err) ∧
        err = Wrap (GoError.base "denied")
          "cannot assign role to VM system assigned identity" ∧
        err.Error = "cannot assign role to VM system assigned identity: " ++
          (GoError.base "denied").Error ∧
        GoError.base "denied" ∈ err.chain ∧ err.Cause = (GoError.base "denied").Cause) ∧
    ((foundService [exampleVMSSSpec] none).Reconcile (fun _ => true) (Exec.start 0)).1 =
      Outcome.returned none :=
  ⟨((Reconcile_create_result (fun _ => true)
      (foundService [exampleVMSpec] (some (GoError.base "denied"))) 0 1 exampleVMSpec []
      (some "p1") rfl).1 rfl rfl).1 (GoError.base "denied") rfl,
   ((Reconcile_create_result (fun _ => true) (foundService [exampleVMSSSpec] none) 0 1
      exampleVMSSSpec [] (some "p2") rfl).2 rfl rfl).2 rfl⟩

end Service

end roleassignments

namespace roleassignments

open Go

namespace Service

variable {σ : Type}

/-- The fetches in the log of `reconcileVM`: the one Get of the virtual machine. -/
theorem reconcileVM_fetches (s : Service σ) (sp : azure.RoleAssignmentSpec) (w : σ) :
    (s.reconcileVM sp (Exec.start w)).2.calls.filter RemoteCall.isFetch =
      [RemoteCall.vmGet { Name := sp.MachineName, ResourceGroup := s.Scope.ResourceGroup }] := by
  rcases reconcileVM_calls s sp (Exec.start w) with hlog | ⟨principal, _, hlog⟩ <;>
    rw [hlog] <;>
    simp [Exec.start, createEntry, RemoteCall.isFetch, RemoteCall.isVMGet,
      RemoteCall.isVMSSGet]

/-- The fetches in the log of `reconcileVMSS`: the one Get of the scale set. -/
theorem reconcileVMSS_fetches (s : Service σ) (sp : azure.RoleAssignmentSpec) (w : σ) :
    (s.reconcileVMSS sp (Exec.start w)).2.calls.filter RemoteCall.isFetch =
      [RemoteCall.vmssGet s.Scope.ResourceGroup sp.MachineName] := by
  rcases reconcileVMSS_calls s sp (Exec.start w) with hlog | ⟨principal, _, hlog⟩ <;>
    rw [hlog] <;>
    simp [Exec.start, createEntry, RemoteCall.isFetch, RemoteCall.isVMGet,
      RemoteCall.isVMSSGet]

/-- C11: when the getter answers without error with a value whose dynamic type is not
`compute.VirtualMachine`, `reconcileVM` returns the error whose message is the name of
that type followed by ` is not a compute.VirtualMachine`, so the message names the
actual type; its log gains the fetch and nothing else, hence no Create call. The same
holds of `Reconcile` for a first declared spec of kind VirtualMachine. -/
theorem reconcileVM_type_mismatch (wide : Char → Bool) (s : Service σ)
    (sp : azure.RoleAssignmentSpec) (st : Exec σ) (typeName : String)
    (hget : (s.virtualMachinesGetter st.world
      { Name := sp.MachineName, ResourceGroup := s.Scope.ResourceGroup }).1 =
        Except.ok (GetterValue.other typeName)) :
    (s.reconcileVM sp st).1 =
      Outcome.returned (some (GoError.base (typeName ++ " is not a compute.VirtualMachine"))) ∧
    Contains (typeName ++ " is not a compute.VirtualMachine") typeName ∧
    (s.reconcileVM sp st).2.calls = st.calls ++
      [RemoteCall.vmGet { Name := sp.MachineName, ResourceGroup := s.Scope.ResourceGroup }] ∧
    (∀ c ∈ (s.reconcileVM sp (Exec.start st.world)).2.calls, c.isCreate = false) ∧
    (∀ rest, s.Scope.RoleAssignmentSpecs = sp :: rest →
      sp.ResourceType = azure.VirtualMachine →
      s.Reconcile wide st = s.reconcileVM sp st) := by
  refine ⟨?_, ?_, ?_, ?_, ?_⟩
  · rw [reconcileVM_eq, hget]
    rfl
  · exact contains_of_data [] " is not a compute.VirtualMachine".data
      (by simp [String.data_append])
  · rw [reconcileVM_eq, hget]
    simp [callVMGet]
  · intro c hc
    have hlog : (s.reconcileVM sp (Exec.start st.world)).2.calls =
        [RemoteCall.vmGet { Name := sp.MachineName, ResourceGroup := s.Scope.ResourceGroup }] := by
      rw [reconcileVM_eq]
      simp only [Exec.start, hget]
      simp [callVMGet]
    rw [hlog] at hc
    simp only [List.mem_singleton] at hc
    subst hc
    rfl
  · intro rest h hk
    exact reconcile_vm wide s st sp rest h hk

/-- C11, at a concrete run: the getter answers with a pointer to a virtual machine. -/
theorem reconcileVM_type_mismatch_witness :
    ((fixedService [exampleVMSpec] (Except.ok (GetterValue.other "*compute.VirtualMachine"))
        (Except.ok (vmssWithPrincipal none)) none).reconcileVM exampleVMSpec (Exec.start 0)).1 =
      Outcome.returned (some (GoError.base
        ("*compute.VirtualMachine" ++ " is not a compute.VirtualMachine"))) ∧
    ((fixedService [exampleVMSpec] (Except.ok (GetterValue.other "*compute.VirtualMachine"))
        (Except.ok (vmssWithPrincipal none)) none).reconcileVM exampleVMSpec
        (Exec.start 0)).2.calls =
      (Exec.start 0).calls ++ [RemoteCall.vmGet { Name := "m1", ResourceGroup := "rg1" }] :=
  ⟨(reconcileVM_type_mismatch (fun _ => true)
      (fixedService [exampleVMSpec] (Except.ok (GetterValue.other "*compute.VirtualMachine"))
        (Except.ok (vmssWithPrincipal none)) none) exampleVMSpec (Exec.start 0)
      "*compute.VirtualMachine" rfl).1,
   (reconcileVM_type_mismatch (fun _ => true)
      (fixedService [exampleVMSpec] (Except.ok (GetterValue.other "*compute.VirtualMachine"))
        (Except.ok (vmssWithPrincipal none)) none) exampleVMSpec (Exec.start 0)
      "*compute.VirtualMachine" rfl).2.2.1⟩

/-- C14: whatever the clients answer, the log of one `Reconcile` holds at most one
fetch and at most one Create; and if it holds a Create, then the log is a fetch
followed by that Create, and the fetch was answered without error, with a resource
that has an identity record. -/
theorem Reconcile_no_retry (wide : Char → Bool) (s : Service σ) (w : σ) :
    ((s.Reconcile wide (Exec.start w)).2.calls.filter RemoteCall.isFetch).length ≤ 1 ∧
    ((s.Reconcile wide (Exec.start w)).2.calls.filter RemoteCall.isCreate).length ≤ 1 ∧
    (∀ c ∈ (s.Reconcile wide (Exec.start w)).2.calls, c.isCreate = true →
      ∃ sp rest principal, s.Scope.RoleAssignmentSpecs = sp :: rest ∧
        ((sp.ResourceType = azure.VirtualMachine ∧
          (s.virtualMachinesGetter w
            { Name := sp.MachineName, ResourceGroup := s.Scope.ResourceGroup }).1 =
              Except.ok (GetterValue.virtualMachine
                { Identity := some { PrincipalID := principal } }) ∧
          (s.Reconcile wide (Exec.start w)).2.calls =
            [RemoteCall.vmGet { Name := sp.MachineName, ResourceGroup := s.Scope.ResourceGroup },
              c]) ∨
         (sp.ResourceType = azure.VirtualMachineScaleSet ∧
          (s.virtualMachineScaleSetClient w s.Scope.ResourceGroup sp.MachineName).1 =
              Except.ok { Identity := some { PrincipalID := principal } } ∧
          (s.Reconcile wide (Exec.start w)).2.calls =
            [RemoteCall.vmssGet s.Scope.ResourceGroup sp.MachineName, c]))) := by
  rcases hspecs : s.Scope.RoleAssignmentSpecs with _ | ⟨sp, rest⟩
  · have hlog : (s.Reconcile wide (Exec.start w)).2.calls = [] := by
      simp [Reconcile, hspecs, reconcileRange, Exec.start]
    rw [hlog]
    simp
  · by_cases hvm : sp.ResourceType = azure.VirtualMachine
    · rw [reconcile_vm wide s _ sp rest hspecs hvm]
      rcases reconcileVM_calls s sp (Exec.start w) with hlog | ⟨principal, hget, hlog⟩
      · rw [hlog]
        simp [Exec.start, RemoteCall.isFetch, RemoteCall.isVMGet, RemoteCall.isCreate]
      · rw [hlog]
        refine ⟨by simp [Exec.start, createEntry, RemoteCall.isFetch, RemoteCall.isVMGet,
          RemoteCall.isVMSSGet], by simp [Exec.start, createEntry, RemoteCall.isCreate], ?_⟩
        intro c hc hcreate
        simp only [Exec.start, List.nil_append, List.mem_cons, List.mem_singleton,
          List.not_mem_nil, or_false] at hc
        rcases hc with hc | hc
        · subst hc; simp [RemoteCall.isCreate] at hcreate
        · subst hc
          exact ⟨sp, rest, principal, rfl, Or.inl ⟨hvm, hget, rfl⟩⟩
    · by_cases hvmss : sp.ResourceType = azure.VirtualMachineScaleSet
      · rw [reconcile_vmss wide s _ sp rest hspecs hvmss]
        rcases reconcileVMSS_calls s sp (Exec.start w) with hlog | ⟨principal, hget, hlog⟩
        · rw [hlog]
          simp [Exec.start, RemoteCall.isFetch, RemoteCall.isVMGet, RemoteCall.isVMSSGet,
            RemoteCall.isCreate]
        · rw [hlog]
          refine ⟨by simp [Exec.start, createEntry, RemoteCall.isFetch, RemoteCall.isVMGet,
            RemoteCall.isVMSSGet], by simp [Exec.start, createEntry, RemoteCall.isCreate], ?_⟩
          intro c hc hcreate
          simp only [Exec.start, List.nil_append, List.mem_cons, List.mem_singleton,
            List.not_mem_nil, or_false] at hc
          rcases hc with hc | hc
          · subst hc; simp [RemoteCall.isCreate] at hcreate
          · subst hc
            exact ⟨sp, rest, principal, rfl, Or.inr ⟨hvmss, hget, rfl⟩⟩
      · rw [reconcile_unexpected wide s _ sp rest hspecs hvm hvmss]
        simp [Exec.start]

/-- C14, at a concrete run: the Create call in the log comes second, after the fetch
of machine `m1`, which was answered with a machine that has principal `p1`. -/
theorem Reconcile_no_retry_witness :
    ∃ sp rest principal, (foundService [exampleVMSpec] none).Scope.RoleAssignmentSpecs =
        sp :: rest ∧
      ((sp.ResourceType = azure.VirtualMachine ∧
        ((foundService [exampleVMSpec] none).virtualMachinesGetter 0
          { Name := sp.MachineName,
            ResourceGroup := (foundService [exampleVMSpec] none).Scope.ResourceGroup }).1 =
            Except.ok (GetterValue.virtualMachine
              { Identity := some { PrincipalID := principal } }) ∧
        ((foundService [exampleVMSpec] none).Reconcile (fun _ => true) (Exec.start 0)).2.calls =
          [RemoteCall.vmGet
              { Name := sp.MachineName,
                ResourceGroup := (foundService [exampleVMSpec] none).Scope.ResourceGroup },
            (foundService [exampleVMSpec] none).createEntry "ra1" (some "p1")]) ∨
       (sp.ResourceType = azure.VirtualMachineScaleSet ∧
        ((foundService [exampleVMSpec] none).virtualMachineScaleSetClient 0
          (foundService [exampleVMSpec] none).Scope.ResourceGroup sp.MachineName).1 =
            Except.ok { Identity := some { PrincipalID := principal } } ∧
        ((foundService [exampleVMSpec] none).Reconcile (fun _ => true) (Exec.start 0)).2.calls =
          [RemoteCall.vmssGet (foundService [exampleVMSpec] none).Scope.ResourceGroup
              sp.MachineName,
            (foundService [exampleVMSpec] none).createEntry "ra1" (some "p1")])) :=
  (Reconcile_no_retry (fun _ => true) (foundService [exampleVMSpec] none) 0).2.2
    ((foundService [exampleVMSpec] none).createEntry "ra1" (some "p1"))
    (List.mem_cons_of_mem _ (List.mem_singleton.mpr rfl)) rfl

/-- C19: with no declared spec, `Reconcile` returns nil and leaves the run state as it
found it: no fetch and no Create call is logged, and the world is untouched. -/
theorem Reconcile_no_specs (wide : Char → Bool) (s : Service σ) (st : Exec σ)
    (h : s.Scope.RoleAssignmentSpecs = []) :
    s.Reconcile wide st = (Outcome.returned none, st) ∧
    (∀ w, (s.Reconcile wide (Exec.start w)).2.calls = []) := by
  constructor
  · simp [Reconcile, h, reconcileRange]
  · intro w
    simp [Reconcile, h, reconcileRange, Exec.start]

/-- C19, at a concrete run: a service with an empty list of declared specs. -/
theorem Reconcile_no_specs_witness :
    (foundService [] none).Reconcile (fun _ => true) (Exec.start 0) =
      (Outcome.returned none, Exec.start 0) :=
  (Reconcile_no_specs (fun _ => true) (foundService [] none) (Exec.start 0) rfl).1

/-- C20: the one fetch that `Reconcile` issues for a first declared spec of kind
VirtualMachine is the Get of the VM spec with `Name` the spec's `MachineName` and
`ResourceGroup` the scope's resource group; for kind VirtualMachineScaleSet it is the
Get with the scope's resource group and the spec's `MachineName`. The spec's `Name`
has no part in it: replacing the `Name` of the first spec by any other name leaves the
fetches of the run unchanged, whatever the kind. -/
theorem Reconcile_fetch_key (wide : Char → Bool) (s : Service σ) (w : σ)
    (sp : azure.RoleAssignmentSpec) (rest : List azure.RoleAssignmentSpec) :
    (sp.ResourceType = azure.VirtualMachine →
      ((s.withSpecs (sp :: rest)).Reconcile wide (Exec.start w)).2.calls.filter
          RemoteCall.isFetch =
        [RemoteCall.vmGet { Name := sp.MachineName, ResourceGroup := s.Scope.ResourceGroup }]) ∧
    (sp.ResourceType = azure.VirtualMachineScaleSet →
      ((s.withSpecs (sp :: rest)).Reconcile wide (Exec.start w)).2.calls.filter
          RemoteCall.isFetch =
        [RemoteCall.vmssGet s.Scope.ResourceGroup sp.MachineName]) ∧
    (∀ otherName : String,
      ((s.withSpecs ({ sp with Name := otherName } :: rest)).Reconcile wide
          (Exec.start w)).2.calls.filter RemoteCall.isFetch =
        ((s.withSpecs (sp :: rest)).Reconcile wide (Exec.start w)).2.calls.filter
          RemoteCall.isFetch) := by
  have hvmcase : ∀ sp2 : azure.RoleAssignmentSpec, sp2.ResourceType = azure.VirtualMachine →
      ((s.withSpecs (sp2 :: rest)).Reconcile wide (Exec.start w)).2.calls.filter
          RemoteCall.isFetch =
        [RemoteCall.vmGet { Name := sp2.MachineName, ResourceGroup := s.Scope.ResourceGroup }] := by
    intro sp2 hk
    rw [reconcile_vm wide (s.withSpecs (sp2 :: rest)) _ sp2 rest rfl hk]
    exact reconcileVM_fetches (s.withSpecs (sp2 :: rest)) sp2 w
  have hvmsscase : ∀ sp2 : azure.RoleAssignmentSpec,
      sp2.ResourceType = azure.VirtualMachineScaleSet →
      ((s.withSpecs (sp2 :: rest)).Reconcile wide (Exec.start w)).2.calls.filter
          RemoteCall.isFetch =
        [RemoteCall.vmssGet s.Scope.ResourceGroup sp2.MachineName] := by
    intro sp2 hk
    rw [reconcile_vmss wide (s.withSpecs (sp2 :: rest)) _ sp2 rest rfl hk]
    exact reconcileVMSS_fetches (s.withSpecs (sp2 :: rest)) sp2 w
  refine ⟨hvmcase sp, hvmsscase sp, ?_⟩
  intro otherName
  by_cases hvm : sp.ResourceType = azure.VirtualMachine
  · rw [hvmcase sp hvm, hvmcase { sp with Name := otherName } hvm]
  · by_cases hvmss : sp.ResourceType = azure.VirtualMachineScaleSet
    · rw [hvmsscase sp hvmss, hvmsscase { sp with Name := otherName } hvmss]
    · rw [reconcile_unexpected wide (s.withSpecs (sp :: rest)) _ sp rest rfl hvm hvmss,
        reconcile_unexpected wide (s.withSpecs ({ sp with Name := otherName } :: rest)) _
          { sp with Name := otherName } rest rfl hvm hvmss]

/-- C20, at concrete runs: the fetch asks for machine `m1` (resp. scale set `s1`) in
resource group `rg1`, not for the assignment names `ra1` and `ra2`. -/
theorem Reconcile_fetch_key_witness :
    (((foundService [] none).withSpecs [exampleVMSpec]).Reconcile (fun _ => true)
        (Exec.start 0)).2.calls.filter RemoteCall.isFetch =
      [RemoteCall.vmGet { Name := "m1", ResourceGroup := "rg1" }] ∧
    (((foundService [] none).withSpecs [exampleVMSSSpec]).Reconcile (fun _ => true)
        (Exec.start 0)).2.calls.filter RemoteCall.isFetch =
      [RemoteCall.vmssGet "rg1" "s1"] :=
  ⟨(Reconcile_fetch_key (fun _ => true) (foundService [] none) 0 exampleVMSpec []).1 rfl,
   (Reconcile_fetch_key (fun _ => true) (foundService [] none) 0 exampleVMSSSpec []).2.1 rfl⟩

end Service

end roleassignments

namespace roleassignments

open Go

namespace Service

variable {σ : Type}

/-- C12: when the fetch for the first declared spec finds the same principal in two
consecutive runs of `Reconcile`, the two runs issue two Create requests that are
identical in scope, assignment name, role-definition ID and principal ID; and if the
first run returned nil and the Create client accepts the repeated request, the second
run returns nil as well. This holds for both kinds. -/
theorem Reconcile_twice_same_request (wide : Char → Bool) (s : Service σ) (w : σ)
    (sp : azure.RoleAssignmentSpec) (rest : List azure.RoleAssignmentSpec)
    (principal : Option String)
    (h : s.Scope.RoleAssignmentSpecs = sp :: rest) :
    (sp.ResourceType = azure.VirtualMachine →
      (s.virtualMachinesGetter w
        { Name := sp.MachineName, ResourceGroup := s.Scope.ResourceGroup }).1 =
          Except.ok (GetterValue.virtualMachine
            { Identity := some { PrincipalID := principal } }) →
      (s.virtualMachinesGetter (s.Reconcile wide (Exec.start w)).2.world
        { Name := sp.MachineName, ResourceGroup := s.Scope.ResourceGroup }).1 =
          Except.ok (GetterValue.virtualMachine
            { Identity := some { PrincipalID := principal } }) →
      (s.Reconcile wide (s.Reconcile wide (Exec.start w)).2).2.calls.filter
          RemoteCall.isCreate =
        [RemoteCall.roleCreate ("/subscriptions/" ++ s.Scope.SubscriptionID ++ "/") sp.Name
            { Properties := some
                { RoleDefinitionID := some ("/subscriptions/" ++ s.Scope.SubscriptionID ++
                    "/providers/Microsoft.Authorization/roleDefinitions/" ++
                    "b24988ac-6180-42a0-ab88-20f7382dd24c")
                  PrincipalID := principal } },
          RemoteCall.roleCreate ("/subscriptions/" ++ s.Scope.SubscriptionID ++ "/") sp.Name
            { Properties := some
                { RoleDefinitionID := some ("/subscriptions/" ++ s.Scope.SubscriptionID ++
                    "/providers/Microsoft.Authorization/roleDefinitions/" ++
                    "b24988ac-6180-42a0-ab88-20f7382dd24c")
                  PrincipalID := principal } }] ∧
      ((s.Reconcile wide (Exec.start w)).1 = Outcome.returned none →
        (s.client
          (s.virtualMachinesGetter (s.Reconcile wide (Exec.start w)).2.world
            { Name := sp.MachineName, ResourceGroup := s.Scope.ResourceGroup }).2
          ("/subscriptions/" ++ s.Scope.SubscriptionID ++ "/") sp.Name
          { Properties := some
              { RoleDefinitionID := some ("/subscriptions/" ++ s.Scope.SubscriptionID ++
                  "/providers/Microsoft.Authorization/roleDefinitions/" ++
                  "b24988ac-6180-42a0-ab88-20f7382dd24c")
                PrincipalID := principal } }).1 = none →
        (s.Reconcile wide (s.Reconcile wide (Exec.start w)).2).1 =
          (s.Reconcile wide (Exec.start w)).1)) ∧
    (sp.ResourceType = azure.VirtualMachineScaleSet →
      (s.virtualMachineScaleSetClient w s.Scope.ResourceGroup sp.MachineName).1 =
          Except.ok { Identity := some { PrincipalID := principal } } →
      (s.virtualMachineScaleSetClient (s.Reconcile wide (Exec.start w)).2.world
        s.Scope.ResourceGroup sp.MachineName).1 =
          Except.ok { Identity := some { PrincipalID := principal } } →
      (s.Reconcile wide (s.Reconcile wide (Exec.start w)).2).2.calls.filter
          RemoteCall.isCreate =
        [RemoteCall.roleCreate ("/subscriptions/" ++ s.Scope.SubscriptionID ++ "/") sp.Name
            { Properties := some
                { RoleDefinitionID := some ("/subscriptions/" ++ s.Scope.SubscriptionID ++
                    "/providers/Microsoft.Authorization/roleDefinitions/" ++
                    "b24988ac-6180-42a0-ab88-20f7382dd24c")
                  PrincipalID := principal } },
          RemoteCall.roleCreate ("/subscriptions/" ++ s.Scope.SubscriptionID ++ "/") sp.Name
            { Properties := some
                { RoleDefinitionID := some ("/subscriptions/" ++ s.Scope.SubscriptionID ++
                    "/providers/Microsoft.Authorization/roleDefinitions/" ++
                    "b24988ac-6180-42a0-ab88-20f7382dd24c")
                  PrincipalID := principal } }] ∧
      ((s.Reconcile wide (Exec.start w)).1 = Outcome.returned none →
        (s.client
          (s.virtualMachineScaleSetClient (s.Reconcile wide (Exec.start w)).2.world
            s.Scope.ResourceGroup sp.MachineName).2
          ("/subscriptions/" ++ s.Scope.SubscriptionID ++ "/") sp.Name
          { Properties := some
              { RoleDefinitionID := some ("/subscriptions/" ++ s.Scope.SubscriptionID ++
                  "/providers/Microsoft.Authorization/roleDefinitions/" ++
                  "b24988ac-6180-42a0-ab88-20f7382dd24c")
                PrincipalID := principal } }).1 = none →
        (s.Reconcile wide (s.Reconcile wide (Exec.start w)).2).1 =
          (s.Reconcile wide (Exec.start w)).1)) := by
  constructor
  · intro hk
    simp only [reconcile_vm wide s _ sp rest h hk]
    intro hget1 hget2
    constructor
    · rw [reconcileVM_log_identity s sp _ principal hget2,
        reconcileVM_log_identity s sp (Exec.start w) principal hget1]
      simp [Exec.start, createEntry, RemoteCall.isCreate]
    · intro hfirst hrepeat
      rw [hfirst, reconcileVM_outcome_identity s sp _ principal _ (Prod.ext hget2 rfl),
        hrepeat]
  · intro hk
    simp only [reconcile_vmss wide s _ sp rest h hk]
    intro hget1 hget2
    constructor
    · rw [reconcileVMSS_log_identity s sp _ principal hget2,
        reconcileVMSS_log_identity s sp (Exec.start w) principal hget1]
      simp [Exec.start, createEntry, RemoteCall.isCreate]
    · intro hfirst hrepeat
      rw [hfirst, reconcileVMSS_outcome_identity s sp _ principal _ (Prod.ext hget2 rfl),
        hrepeat]

/-- C12, at concrete runs over a store that identifies an assignment by scope and name
and accepts an identical repeat: the second run returns what the first returned. -/
theorem Reconcile_twice_same_request_witness :
    ((keyedService [exampleVMSpec]
        (Except.ok (GetterValue.virtualMachine (vmWithPrincipal (some "p1"))))
        (Except.ok (vmssWithPrincipal (some "p2")))).Reconcile (fun _ => true)
        ((keyedService [exampleVMSpec]
          (Except.ok (GetterValue.virtualMachine (vmWithPrincipal (some "p1"))))
          (Except.ok (vmssWithPrincipal (some "p2")))).Reconcile (fun _ => true)
          (Exec.start [])).2).1 =
      ((keyedService [exampleVMSpec]
        (Except.ok (GetterValue.virtualMachine (vmWithPrincipal (some "p1"))))
        (Except.ok (vmssWithPrincipal (some "p2")))).Reconcile (fun _ => true)
        (Exec.start [])).1 ∧
    ((keyedService [exampleVMSSSpec]
        (Except.ok (GetterValue.virtualMachine (vmWithPrincipal (some "p1"))))
        (Except.ok (vmssWithPrincipal (some "p2")))).Reconcile (fun _ => true)
        ((keyedService [exampleVMSSSpec]
          (Except.ok (GetterValue.virtualMachine (vmWithPrincipal (some "p1"))))
          (Except.ok (vmssWithPrincipal (some "p2")))).Reconcile (fun _ => true)
          (Exec.start [])).2).1 =
      ((keyedService [exampleVMSSSpec]
        (Except.ok (GetterValue.virtualMachine (vmWithPrincipal (some "p1"))))
        (Except.ok (vmssWithPrincipal (some "p2")))).Reconcile (fun _ => true)
        (Exec.start [])).1 :=
  ⟨((Reconcile_twice_same_request (fun _ => true)
      (keyedService [exampleVMSpec]
        (Except.ok (GetterValue.virtualMachine (vmWithPrincipal (some "p1"))))
        (Except.ok (vmssWithPrincipal (some "p2")))) [] exampleVMSpec [] (some "p1")
      rfl).1 rfl rfl rfl).2 rfl rfl,
   ((Reconcile_twice_same_request (fun _ => true)
      (keyedService [exampleVMSSSpec]
        (Except.ok (GetterValue.virtualMachine (vmWithPrincipal (some "p1"))))
        (Except.ok (vmssWithPrincipal (some "p2")))) [] exampleVMSSSpec [] (some "p2")
      rfl).2 rfl rfl rfl).2 rfl rfl⟩

end Service

end roleassignments

namespace roleassignments

open Go

namespace Service

variable {σ : Type}

/-- The run of `reconcileVM` when the getter answers with a value of another type. -/
theorem reconcileVM_other (s : Service σ) (sp : azure.RoleAssignmentSpec) (st : Exec σ)
    (typeName : String)
    (hget : (s.virtualMachinesGetter st.world
      { Name := sp.MachineName, ResourceGroup := s.Scope.ResourceGroup }).1 =
        Except.ok (GetterValue.other typeName)) :
    (s.reconcileVM sp st).1 =
      Outcome.returned (some (GoError.base (typeName ++ " is not a compute.VirtualMachine"))) := by
  rw [reconcileVM_eq, hget]
  rfl

/-- C13, as the code has it: the message of every error that `Reconcile` returns is a
fixed context of the failed step, which names the kind and not the resource. For a
failed fetch it is `cannot get VM to assign role to system assigned identity` (`VMSS`
for a scale set), a colon and the message of the client's error; for a failed Create
it is `cannot assign role to VM system assigned identity` (`VMSS` for a scale set), a
colon and the message of the client's error; for a type mismatch it is the name of the
actual type and ` is not a compute.VirtualMachine`; for an unexpected kind it is the
message that quotes the kind and lists the valid kinds. `Reconcile` puts neither
`MachineName` nor `Name` of the spec into the error: a run of any service for any other
first spec of the same kind, whatever its `MachineName` and `Name`, returns the very
same error when its clients answer with the same error or with a value of the same
type, and for an unexpected kind in any case. -/
theorem Reconcile_error_messages (wide : Char → Bool) (s : Service σ) (w w1 : σ)
    (sp : azure.RoleAssignmentSpec) (rest : List azure.RoleAssignmentSpec)
    (h : s.Scope.RoleAssignmentSpecs = sp :: rest) :
    (sp.ResourceType = azure.VirtualMachine →
      (∀ e : GoError,
        (s.virtualMachinesGetter w
          { Name := sp.MachineName, ResourceGroup := s.Scope.ResourceGroup }).1 =
            Except.error e →
        ∃ err, (s.Reconcile wide (Exec.start w)).1 = Outcome.returned (some err) ∧
          err.Error = "cannot get VM to assign role to system assigned identity: " ++ e.Error ∧
          Contains err.Error "VM") ∧
      (∀ typeName : String,
        (s.virtualMachinesGetter w
          { Name := sp.MachineName, ResourceGroup := s.Scope.ResourceGroup }).1 =
            Except.ok (GetterValue.other typeName) →
        ∃ err, (s.Reconcile wide (Exec.start w)).1 = Outcome.returned (some err) ∧
          err.Error = typeName ++ " is not a compute.VirtualMachine" ∧
          Contains err.Error "compute.VirtualMachine") ∧
      (∀ (principal : Option String) (e : GoError),
        s.virtualMachinesGetter w
          { Name := sp.MachineName, ResourceGroup := s.Scope.ResourceGroup } =
            (Except.ok (GetterValue.virtualMachine
              { Identity := some { PrincipalID := principal } }), w1) →
        (s.client w1 ("/subscriptions/" ++ s.Scope.SubscriptionID ++ "/") sp.Name
          { Properties := some
              { RoleDefinitionID := some ("/subscriptions/" ++ s.Scope.SubscriptionID ++
                  "/providers/Microsoft.Authorization/roleDefinitions/" ++
                  "b24988ac-6180-42a0-ab88-20f7382dd24c")
                PrincipalID := principal } }).1 = some e →
        ∃ err, (s.Reconcile wide (Exec.start w)).1 = Outcome.returned (some err) ∧
          err.Error = "cannot assign role to VM system assigned identity: " ++ e.Error ∧
          Contains err.Error "VM")) ∧
    (sp.ResourceType = azure.VirtualMachineScaleSet →
      (∀ e : GoError,
        (s.virtualMachineScaleSetClient w s.Scope.ResourceGroup sp.MachineName).1 =
            Except.error e →
        ∃ err, (s.Reconcile wide (Exec.start w)).1 = Outcome.returned (some err) ∧
          err.Error =
            "cannot get VMSS to assign role to system assigned identity: " ++ e.Error ∧
          Contains err.Error "VMSS") ∧
      (∀ (principal : Option String) (e : GoError),
        s.virtualMachineScaleSetClient w s.Scope.ResourceGroup sp.MachineName =
            (Except.ok { Identity := some { PrincipalID := principal } }, w1) →
        (s.client w1 ("/subscriptions/" ++ s.Scope.SubscriptionID ++ "/") sp.Name
          { Properties := some
              { RoleDefinitionID := some ("/subscriptions/" ++ s.Scope.SubscriptionID ++
                  "/providers/Microsoft.Authorization/roleDefinitions/" ++
                  "b24988ac-6180-42a0-ab88-20f7382dd24c")
                PrincipalID := principal } }).1 = some e →
        ∃ err, (s.Reconcile wide (Exec.start w)).1 = Outcome.returned (some err) ∧
          err.Error = "cannot assign role to VMSS system assigned identity: " ++ e.Error ∧
          Contains err.Error "VMSS")) ∧
    (sp.ResourceType ≠ azure.VirtualMachine →
      sp.ResourceType ≠ azure.VirtualMachineScaleSet →
      ∃ err, (s.Reconcile wide (Exec.start w)).1 = Outcome.returned (some err) ∧
        err.Error = "unexpected resource type " ++ Quote wide sp.ResourceType ++
          ". Expected one of [VirtualMachine, VirtualMachineScaleSet]" ∧
        Contains err.Error (Quote wide sp.ResourceType)) ∧
    (∀ (τ : Type) (s2 : Service τ) (v v1 : τ) (sp2 : azure.RoleAssignmentSpec)
        (rest2 : List azure.RoleAssignmentSpec),
      s2.Scope.RoleAssignmentSpecs = sp2 :: rest2 →
      sp2.ResourceType = sp.ResourceType →
      (sp.ResourceType = azure.VirtualMachine →
        (∀ e : GoError,
          (s.virtualMachinesGetter w
            { Name := sp.MachineName, ResourceGroup := s.Scope.ResourceGroup }).1 =
              Except.error e →
          (s2.virtualMachinesGetter v
            { Name := sp2.MachineName, ResourceGroup := s2.Scope.ResourceGroup }).1 =
              Except.error e →
          (s2.Reconcile wide (Exec.start v)).1 = (s.Reconcile wide (Exec.start w)).1) ∧
        (∀ typeName : String,
          (s.virtualMachinesGetter w
            { Name := sp.MachineName, ResourceGroup := s.Scope.ResourceGroup }).1 =
              Except.ok (GetterValue.other typeName) →
          (s2.virtualMachinesGetter v
            { Name := sp2.MachineName, ResourceGroup := s2.Scope.ResourceGroup }).1 =
              Except.ok (GetterValue.other typeName) →
          (s2.Reconcile wide (Exec.start v)).1 = (s.Reconcile wide (Exec.start w)).1) ∧
        (∀ (principal principal2 : Option String) (e : GoError),
          s.virtualMachinesGetter w
            { Name := sp.MachineName, ResourceGroup := s.Scope.ResourceGroup } =
              (Except.ok (GetterValue.virtualMachine
                { Identity := some { PrincipalID := principal } }), w1) →
          s2.virtualMachinesGetter v
            { Name := sp2.MachineName, ResourceGroup := s2.Scope.ResourceGroup } =
              (Except.ok (GetterValue.virtualMachine
                { Identity := some { PrincipalID := principal2 } }), v1) →
          (s.client w1 ("/subscriptions/" ++ s.Scope.SubscriptionID ++ "/") sp.Name
            { Properties := some
                { RoleDefinitionID := some ("/subscriptions/" ++ s.Scope.SubscriptionID ++
                    "/providers/Microsoft.Authorization/roleDefinitions/" ++
                    "b24988ac-6180-42a0-ab88-20f7382dd24c")
                  PrincipalID := principal } }).1 = some e →
          (s2.client v1 ("/subscriptions/" ++ s2.Scope.SubscriptionID ++ "/") sp2.Name
            { Properties := some
                { RoleDefinitionID := some ("/subscriptions/" ++ s2.Scope.SubscriptionID ++
                    "/providers/Microsoft.Authorization/roleDefinitions/" ++
                    "b24988ac-6180-42a0-ab88-20f7382dd24c")
                  PrincipalID := principal2 } }).1 = some e →
          (s2.Reconcile wide (Exec.start v)).1 = (s.Reconcile wide (Exec.start w)).1)) ∧
      (sp.ResourceType = azure.VirtualMachineScaleSet →
        (∀ e : GoError,
          (s.virtualMachineScaleSetClient w s.Scope.ResourceGroup sp.MachineName).1 =
              Except.error e →
          (s2.virtualMachineScaleSetClient v s2.Scope.ResourceGroup sp2.MachineName).1 =
              Except.error e →
          (s2.Reconcile wide (Exec.start v)).1 = (s.Reconcile wide (Exec.start w)).1) ∧
        (∀ (principal principal2 : Option String) (e : GoError),
          s.virtualMachineScaleSetClient w s.Scope.ResourceGroup sp.MachineName =
              (Except.ok { Identity := some { PrincipalID := principal } }, w1) →
          s2.virtualMachineScaleSetClient v s2.Scope.ResourceGroup sp2.MachineName =
              (Except.ok { Identity := some { PrincipalID := principal2 } }, v1) →
          (s.client w1 ("/subscriptions/" ++ s.Scope.SubscriptionID ++ "/") sp.Name
            { Properties := some
                { RoleDefinitionID := some ("/subscriptions/" ++ s.Scope.SubscriptionID ++
                    "/providers/Microsoft.Authorization/roleDefinitions/" ++
                    "b24988ac-6180-42a0-ab88-20f7382dd24c")
                  PrincipalID := principal } }).1 = some e →
          (s2.client v1 ("/subscriptions/" ++ s2.Scope.SubscriptionID ++ "/") sp2.Name
            { Properties := some
                { RoleDefinitionID := some ("/subscriptions/" ++ s2.Scope.SubscriptionID ++
                    "/providers/Microsoft.Authorization/roleDefinitions/" ++
                    "b24988ac-6180-42a0-ab88-20f7382dd24c")
                  PrincipalID := principal2 } }).1 = some e →
          (s2.Reconcile wide (Exec.start v)).1 = (s.Reconcile wide (Exec.start w)).1)) ∧
      (sp.ResourceType ≠ azure.VirtualMachine →
        sp.ResourceType ≠ azure.VirtualMachineScaleSet →
        (s2.Reconcile wide (Exec.start v)).1 = (s.Reconcile wide (Exec.start w)).1)) := by
  refine ⟨?_, ?_, ?_, ?_⟩
  · intro hk
    rw [reconcile_vm wide s _ sp rest h hk]
    refine ⟨?_, ?_, ?_⟩
    · intro e hget
      exact ⟨_, (reconcileVM_fetch_error s sp (Exec.start w) e hget).1, wrap_error e _,
        contains_of_data "cannot get ".data
          (" to assign role to system assigned identity: ".data ++ e.Error.data)
          (by simp [Wrap, GoError.Error, String.data_append])⟩
    · intro typeName hget
      exact ⟨_, reconcileVM_other s sp (Exec.start w) typeName hget, rfl,
        contains_of_data (typeName.data ++ " is not a ".data) []
          (by simp [GoError.Error, String.data_append])⟩
    · intro principal e hget hcreate
      rw [reconcileVM_outcome_identity s sp (Exec.start w) principal w1 hget, hcreate]
      exact ⟨_, rfl, wrap_error e _,
        contains_of_data "cannot assign role to ".data
          (" system assigned identity: ".data ++ e.Error.data)
          (by simp [Wrap, GoError.Error, String.data_append])⟩
  · intro hk
    rw [reconcile_vmss wide s _ sp rest h hk]
    refine ⟨?_, ?_⟩
    · intro e hget
      exact ⟨_, (reconcileVMSS_fetch_error s sp (Exec.start w) e hget).1, wrap_error e _,
        contains_of_data "cannot get ".data
          (" to assign role to system assigned identity: ".data ++ e.Error.data)
          (by simp [Wrap, GoError.Error, String.data_append])⟩
    · intro principal e hget hcreate
      rw [reconcileVMSS_outcome_identity s sp (Exec.start w) principal w1 hget, hcreate]
      exact ⟨_, rfl, wrap_error e _,
        contains_of_data "cannot assign role to ".data
          (" system assigned identity: ".data ++ e.Error.data)
          (by simp [Wrap, GoError.Error, String.data_append])⟩
  · intro hvm hvmss
    rw [reconcile_unexpected wide s _ sp rest h hvm hvmss]
    refine ⟨_, rfl, ?_, ?_⟩
    · simp only [Errorf, GoError.Error, unexpectedResourceType, azure.VirtualMachine,
        azure.VirtualMachineScaleSet, String.append_assoc]
      rfl
    · exact contains_of_data "unexpected resource type ".data
        (". Expected one of [".data ++ ("VirtualMachine".data ++ (", ".data ++
          ("VirtualMachineScaleSet".data ++ "]".data))))
        (by simp [Errorf, GoError.Error, unexpectedResourceType, String.data_append,
          azure.VirtualMachine, azure.VirtualMachineScaleSet])

  · intro τ s2 v v1 sp2 rest2 h2 hkind
    refine ⟨?_, ?_, ?_⟩
    · intro hk
      rw [reconcile_vm wide s _ sp rest h hk,
        reconcile_vm wide s2 _ sp2 rest2 h2 (hkind.trans hk)]
      refine ⟨?_, ?_, ?_⟩
      · intro e hget hget2
        rw [(reconcileVM_fetch_error s2 sp2 (Exec.start v) e hget2).1,
          (reconcileVM_fetch_error s sp (Exec.start w) e hget).1]
      · intro typeName hget hget2
        rw [reconcileVM_other s2 sp2 (Exec.start v) typeName hget2,
          reconcileVM_other s sp (Exec.start w) typeName hget]
      · intro principal principal2 e hget hget2 hcreate hcreate2
        rw [reconcileVM_outcome_identity s2 sp2 (Exec.start v) principal2 v1 hget2, hcreate2,
          reconcileVM_outcome_identity s sp (Exec.start w) principal w1 hget, hcreate]
    · intro hk
      rw [reconcile_vmss wide s _ sp rest h hk,
        reconcile_vmss wide s2 _ sp2 rest2 h2 (hkind.trans hk)]
      refine ⟨?_, ?_⟩
      · intro e hget hget2
        rw [(reconcileVMSS_fetch_error s2 sp2 (Exec.start v) e hget2).1,
          (reconcileVMSS_fetch_error s sp (Exec.start w) e hget).1]
      · intro principal principal2 e hget hget2 hcreate hcreate2
        rw [reconcileVMSS_outcome_identity s2 sp2 (Exec.start v) principal2 v1 hget2, hcreate2,
          reconcileVMSS_outcome_identity s sp (Exec.start w) principal w1 hget, hcreate]
    · intro hvm hvmss
      rw [reconcile_unexpected wide s _ sp rest h hvm hvmss,
        reconcile_unexpected wide s2 _ sp2 rest2 h2 (hkind ▸ hvm) (hkind ▸ hvmss), hkind]

/-- C13, at concrete runs: a failed fetch of a machine; a spec of kind `Disk`; and the
failed fetch of machine `m2` for the assignment `ra9`, which returns the same error as
the failed fetch of machine `m1` for the assignment `ra1`. -/
theorem Reconcile_error_messages_witness :
    (∃ err, ((fixedService [exampleVMSpec] (Except.error (GoError.base "boom"))
          (Except.error (GoError.base "boom")) none).Reconcile (fun _ => true)
          (Exec.start 0)).1 = Outcome.returned (some err) ∧
        err.Error = "cannot get VM to assign role to system assigned identity: " ++
          (GoError.base "boom").Error ∧
        Contains err.Error "VM") ∧
    (∃ err, ((foundService [⟨"m1", "ra1", "Disk"⟩] none).Reconcile (fun _ => true)
          (Exec.start 0)).1 = Outcome.returned (some err) ∧
        err.Error = "unexpected resource type " ++ Quote (fun _ => true) "Disk" ++
          ". Expected one of [VirtualMachine, VirtualMachineScaleSet]" ∧
        Contains err.Error (Quote (fun _ => true) "Disk")) ∧
    ((fixedService [⟨"m2", "ra9", "VirtualMachine"⟩] (Except.error (GoError.base "boom"))
        (Except.error (GoError.base "boom")) none).Reconcile (fun _ => true)
        (Exec.start 5)).1 =
      ((fixedService [exampleVMSpec] (Except.error (GoError.base "boom"))
        (Except.error (GoError.base "boom")) none).Reconcile (fun _ => true)
        (Exec.start 0)).1 :=
  ⟨((Reconcile_error_messages (fun _ => true)
      (fixedService [exampleVMSpec] (Except.error (GoError.base "boom"))
        (Except.error (GoError.base "boom")) none) 0 0 exampleVMSpec [] rfl).1 rfl).1
      (GoError.base "boom") rfl,
   (Reconcile_error_messages (fun _ => true) (foundService [⟨"m1", "ra1", "Disk"⟩] none) 0 0
      ⟨"m1", "ra1", "Disk"⟩ [] rfl).2.2.1 (by decide) (by decide),
   (((Reconcile_error_messages (fun _ => true)
      (fixedService [exampleVMSpec] (Except.error (GoError.base "boom"))
        (Except.error (GoError.base "boom")) none) 0 0 exampleVMSpec [] rfl).2.2.2 Nat
      (fixedService [⟨"m2", "ra9", "VirtualMachine"⟩] (Except.error (GoError.base "boom"))
        (Except.error (GoError.base "boom")) none) 5 5 ⟨"m2", "ra9", "VirtualMachine"⟩ []
      rfl rfl).1 rfl).1 (GoError.base "boom") rfl rfl⟩

/-- C13 fails as stated: the fetch of machine `m1` for the assignment `ra1` fails with
`boom`, and the message of the returned error holds neither `m1` nor `ra1`, nor the
kind name `VirtualMachine`. -/
theorem fetch_error_message_omits_name :
    ((fixedService [exampleVMSpec] (Except.error (GoError.base "boom"))
        (Except.error (GoError.base "boom")) none).Reconcile (fun _ => true)
        (Exec.start 0)).1 =
      Outcome.returned (some (GoError.wrapped (GoError.base "boom")
        "cannot get VM to assign role to system assigned identity")) ∧
    (GoError.wrapped (GoError.base "boom")
        "cannot get VM to assign role to system assigned identity").Error =
      "cannot get VM to assign role to system assigned identity: boom" ∧
    ¬ Contains "cannot get VM to assign role to system assigned identity: boom" "m1" ∧
    ¬ Contains "cannot get VM to assign role to system assigned identity: boom" "ra1" ∧
    ¬ Contains "cannot get VM to assign role to system assigned identity: boom"
        "VirtualMachine" := by
  refine ⟨rfl, by decide, ?_, ?_, ?_⟩ <;>
    set_option maxRecDepth 100000 in decide

end Service

end roleassignments

namespace regexp

theorem step_seq (f : Nat) (a b : Regex) (t : Thread) :
    step f (Regex.seq a b) t = (step f a t).flatMap (step f b) := rfl

theorem step_star (f : Nat) (a : Regex) (t : Thread) :
    step f (Regex.star a) t = iterate (step f a) f t := rfl

theorem step_char_cons (f : Nat) (c x : Char) (xs : List Char) (pos : Nat)
    (caps : List (Nat × List Char)) :
    step f (Regex.char c) { pos := pos, rest := x :: xs, caps := caps } =
      if x = c then [{ pos := pos + 1, rest := xs, caps := caps }] else [] := rfl

theorem step_char_nil (f : Nat) (c : Char) (pos : Nat) (caps : List (Nat × List Char)) :
    step f (Regex.char c) { pos := pos, rest := [], caps := caps } = [] := rfl

theorem step_range_cons (f : Nat) (lo hi x : Char) (xs : List Char) (pos : Nat)
    (caps : List (Nat × List Char)) :
    step f (Regex.range lo hi) { pos := pos, rest := x :: xs, caps := caps } =
      if lo.toNat ≤ x.toNat ∧ x.toNat ≤ hi.toNat then
        [{ pos := pos + 1, rest := xs, caps := caps }]
      else [] := rfl

theorem step_range_nil (f : Nat) (lo hi : Char) (pos : Nat) (caps : List (Nat × List Char)) :
    step f (Regex.range lo hi) { pos := pos, rest := [], caps := caps } = [] := rfl

theorem step_endText (f : Nat) (t : Thread) :
    step f Regex.endText t = if t.rest = [] then [t] else [] := rfl

/-- A literal matches in one way when the text starts with it, and not at all otherwise. -/
theorem step_literal (f : Nat) (cs : List Char) :
    ∀ (rest : List Char) (pos : Nat) (caps : List (Nat × List Char)),
      step f (Regex.literal cs) { pos := pos, rest := rest, caps := caps } =
        if cs.isPrefixOf rest = true then
          [{ pos := pos + cs.length, rest := rest.drop cs.length, caps := caps }]
        else [] := by
  induction cs with
  | nil => intro rest pos caps; simp [Regex.literal, step]
  | cons c cs ih =>
    intro rest pos caps
    have hlit : Regex.literal (c :: cs) = Regex.seq (Regex.char c) (Regex.literal cs) := rfl
    rw [hlit, step_seq]
    cases rest with
    | nil => simp [step_char_nil]
    | cons x xs =>
      rw [step_char_cons]
      by_cases hx : x = c
      · subst hx
        simp [ih, Nat.add_assoc, Nat.add_comm 1]
      · have hx2 : ¬ c = x := fun h => hx h.symm
        simp [hx, hx2]

/-- A greedy star over a character range, followed by something that cannot start
with a character of the range, consumes the longest run of such characters. -/
theorem iterate_range_flatMap (f : Nat) (lo hi : Char) (K : Thread → List Thread)
    (hK : ∀ (u : Thread) (d : Char) (r : List Char), u.rest = d :: r →
      lo.toNat ≤ d.toNat ∧ d.toNat ≤ hi.toNat → K u = []) :
    ∀ (rest : List Char) (fuel pos : Nat) (caps : List (Nat × List Char)),
      rest.length ≤ fuel →
      (iterate (step f (Regex.range lo hi)) fuel
          { pos := pos, rest := rest, caps := caps }).flatMap K =
        K { pos := pos +
              (rest.takeWhile (fun c => decide (lo.toNat ≤ c.toNat ∧ c.toNat ≤ hi.toNat))).length
            rest := rest.dropWhile (fun c => decide (lo.toNat ≤ c.toNat ∧ c.toNat ≤ hi.toNat))
            caps := caps } := by
  intro rest
  induction rest with
  | nil =>
    intro fuel pos caps _
    cases fuel <;> simp [iterate, step_range_nil]
  | cons x xs ih =>
    intro fuel pos caps hfuel
    cases fuel with
    | zero => simp at hfuel
    | succ fuel =>
      have hfuel2 : xs.length ≤ fuel := by simpa using hfuel
      by_cases hx : lo.toNat ≤ x.toNat ∧ x.toNat ≤ hi.toNat
      · have hKt : K { pos := pos, rest := x :: xs, caps := caps } = [] :=
          hK _ x xs rfl hx
        simp only [iterate, step_range_cons, hx, and_self, if_true, List.filter_cons,
          List.length_cons, Nat.lt_succ_self, decide_True, List.filter_nil,
          List.flatMap_cons, List.flatMap_nil, List.append_nil, List.flatMap_append, hKt,
          List.takeWhile_cons, List.dropWhile_cons]
        rw [ih fuel (pos + 1) caps hfuel2]
        simp [Nat.add_assoc, Nat.add_comm 1]
      · simp [iterate, step_range_cons, hx]

end regexp

namespace regexp

theorem step_group (f index : Nat) (a : Regex) (t : Thread) :
    step f (Regex.group index a) t =
      (step f a t).map (fun u =>
        { u with caps := (index, t.rest.take (t.rest.length - u.rest.length)) :: u.caps }) := rfl

theorem step_alt (f : Nat) (a b : Regex) (t : Thread) :
    step f (Regex.alt a b) t = step f a t ++ step f b t := rfl

theorem step_anyNotNL_cons (f : Nat) (x : Char) (xs : List Char) (pos : Nat)
    (caps : List (Nat × List Char)) :
    step f Regex.anyNotNL { pos := pos, rest := x :: xs, caps := caps } =
      if x.toNat = 10 then [] else [{ pos := pos + 1, rest := xs, caps := caps }] := rfl

theorem step_anyNotNL_nil (f : Nat) (pos : Nat) (caps : List (Nat × List Char)) :
    step f Regex.anyNotNL { pos := pos, rest := [], caps := caps } = [] := rfl

theorem take_cons_takeWhile (p : Char → Bool) (x : Char) (xs : List Char) :
    (x :: xs).take (xs.length + 1 - (xs.dropWhile p).length) = x :: xs.takeWhile p := by
  have hlen : (xs.takeWhile p).length + (xs.dropWhile p).length = xs.length := by
    rw [← List.length_append, List.takeWhile_append_dropWhile]
  have hk : xs.length + 1 - (xs.dropWhile p).length = (xs.takeWhile p).length + 1 := by
    omega
  have htake := @List.take_left' _ (xs.takeWhile p) (xs.dropWhile p) _ rfl
  rw [List.takeWhile_append_dropWhile] at htake
  rw [hk, List.take_succ_cons, htake]

/-- The group `(0|[1-9][0-9]*)`, followed by something that cannot start with a digit,
takes the longest numeral at the head of the text and records it as its submatch. -/
theorem numeral_group_flatMap (f index : Nat) (K : Thread → List Thread)
    (hK : ∀ (u : Thread) (d : Char) (r : List Char), u.rest = d :: r →
      strconv.isDigit d = true → K u = [])
    (rest : List Char) (pos : Nat) (caps : List (Nat × List Char))
    (hfuel : rest.length ≤ f) :
    (step f (Regex.group index e2e.numeral) { pos := pos, rest := rest, caps := caps }).flatMap K =
      match e2e.takeNumeral rest with
      | some (n, r) => K { pos := pos + n.length, rest := r, caps := (index, n) :: caps }
      | none => [] := by
  cases rest with
  | nil => simp [step_group, e2e.numeral, step_alt, step_seq, step_char_nil, step_range_nil,
      e2e.takeNumeral]
  | cons x xs =>
    have hfuel2 : xs.length ≤ f := by
      simp only [List.length_cons] at hfuel
      omega
    by_cases h0 : x = '0'
    · subst h0
      simp [step_group, e2e.numeral, step_alt, step_seq, step_char_cons, step_range_cons,
        e2e.takeNumeral]
    · by_cases h19 : 49 ≤ x.toNat ∧ x.toNat ≤ 57
      · have hrange : ('1' : Char).toNat ≤ x.toNat ∧ x.toNat ≤ ('9' : Char).toNat := h19
        have hpred : (fun c : Char =>
            decide (('0' : Char).toNat ≤ c.toNat ∧ c.toNat ≤ ('9' : Char).toNat)) =
              strconv.isDigit := rfl
        have hiter := iterate_range_flatMap f '0' '9'
          (fun u => K { u with caps :=
            (index, (x :: xs).take ((x :: xs).length - u.rest.length)) :: u.caps })
          (fun u d r hu hd => hK _ d r hu (by simpa [strconv.isDigit] using hd))
          xs f (pos + 1) caps hfuel2
        rw [hpred] at hiter
        simp only [step_group, e2e.numeral, step_alt, step_seq, step_char_cons, h0, if_false,
          List.nil_append, step_range_cons, hrange, and_self, if_true, List.flatMap_cons,
          List.flatMap_nil, List.append_nil, step_star, List.flatMap_map, e2e.takeNumeral, h19]
        rw [hiter]
        simp only [take_cons_takeWhile, List.length_cons, Nat.add_assoc, Nat.add_comm 1]
      · have hrange : ¬ (('1' : Char).toNat ≤ x.toNat ∧ x.toNat ≤ ('9' : Char).toNat) := h19
        simp [step_group, e2e.numeral, step_alt, step_seq, step_char_cons, h0,
          step_range_cons, hrange, e2e.takeNumeral, h19]

/-- The expression `.*$` matches at a thread exactly when no line feed is left, and
then in one way, which consumes the text to its end. -/
theorem any_star_end (f : Nat) :
    ∀ (rest : List Char) (fuel pos : Nat) (caps : List (Nat × List Char)),
      rest.length ≤ fuel →
      (iterate (step f Regex.anyNotNL) fuel
          { pos := pos, rest := rest, caps := caps }).flatMap (step f Regex.endText) =
        if ∀ c ∈ rest, c.toNat ≠ 10 then
          [{ pos := pos + rest.length, rest := [], caps := caps }]
        else [] := by
  intro rest
  induction rest with
  | nil =>
    intro fuel pos caps _
    cases fuel <;> simp [iterate, step_anyNotNL_nil, step_endText]
  | cons x xs ih =>
    intro fuel pos caps hfuel
    cases fuel with
    | zero => simp at hfuel
    | succ fuel =>
      have hfuel2 : xs.length ≤ fuel := by simpa using hfuel
      by_cases hx : x.toNat = 10
      · simp [iterate, step_anyNotNL_cons, hx, step_endText]
      · simp only [iterate, step_anyNotNL_cons, hx, if_false, List.filter_cons,
          List.length_cons, Nat.lt_succ_self, decide_True, if_true, List.filter_nil,
          List.flatMap_cons, List.flatMap_nil, List.append_nil, List.flatMap_append]
        rw [ih fuel (pos + 1) caps hfuel2]
        simp [step_endText, hx, Nat.add_assoc, Nat.add_comm 1]

/-- The expression `[a-z]*.*$`: its preferred match at a thread consumes the text to
its end, and it has a match exactly when no line feed is left. -/
theorem lower_star_any_star_end (f : Nat) :
    ∀ (rest : List Char) (fuel pos : Nat) (caps : List (Nat × List Char)),
      rest.length ≤ fuel → rest.length ≤ f →
      ((iterate (step f (Regex.range 'a' 'z')) fuel
          { pos := pos, rest := rest, caps := caps }).flatMap
          (step f (Regex.seq (Regex.star Regex.anyNotNL) Regex.endText))).head? =
        if ∀ c ∈ rest, c.toNat ≠ 10 then
          some { pos := pos + rest.length, rest := [], caps := caps }
        else none := by
  intro rest
  induction rest with
  | nil =>
    intro fuel pos caps _ hf
    have htail := any_star_end f [] f pos caps hf
    cases fuel <;>
      simp [iterate, step_range_nil, step_seq, step_star, htail]
  | cons x xs ih =>
    intro fuel pos caps hfuel hf
    have htail := any_star_end f (x :: xs) f pos caps hf
    cases fuel with
    | zero => simp at hfuel
    | succ fuel =>
      have hfuel2 : xs.length ≤ fuel := by simpa using hfuel
      have hf2 : xs.length ≤ f := by
        simp only [List.length_cons] at hf
        omega
      by_cases hx : ('a' : Char).toNat ≤ x.toNat ∧ x.toNat ≤ ('z' : Char).toNat
      · have hnl : x.toNat ≠ 10 := by
          have h97 : ('a' : Char).toNat = 97 := rfl
          omega
        simp only [iterate, step_range_cons, hx, and_self, if_true, List.filter_cons,
          List.length_cons, Nat.lt_succ_self, decide_True, List.filter_nil,
          List.flatMap_cons, List.flatMap_nil, List.append_nil, List.flatMap_append,
          List.head?_append, ih fuel (pos + 1) caps hfuel2 hf2]
        by_cases hxs : ∀ c ∈ xs, c.toNat ≠ 10
        · have hall : ∀ c ∈ x :: xs, c.toNat ≠ 10 := by
            intro c hc
            rcases List.mem_cons.mp hc with h | h
            · rw [h]; exact hnl
            · exact hxs c h
          rw [if_pos hxs, if_pos hall]
          simp only [Option.or, List.length_cons, Nat.add_assoc, Nat.add_comm 1]
        · have hall : ¬ ∀ c ∈ x :: xs, c.toNat ≠ 10 := by
            intro hall
            exact hxs (fun c hc => hall c (List.mem_cons_of_mem x hc))
          simp only [hxs, if_false, step_seq, step_star, htail, hall, List.flatMap_nil,
            List.head?_nil, Option.none_or]
      · simp only [iterate, step_range_cons, hx, if_false, List.filter_nil,
          List.flatMap_nil, List.nil_append, List.flatMap_cons, List.append_nil, step_seq,
          step_star, htail]
        split <;> rfl

theorem submatchAt_eq (re : Regexp) (fuel : Nat) (start : Thread) :
    submatchAt re fuel start =
      (step fuel re.prog start).head?.map (fun u =>
        String.mk (start.rest.take (start.rest.length - u.rest.length)) ::
          (List.range re.numSubexp).map
            (fun i => String.mk ((u.caps.lookup (i + 1)).getD []))) := by
  unfold submatchAt
  cases step fuel re.prog start <;> rfl

/-- An expression that begins with `^` has no match that starts after the first
position, so the search comes down to the attempt at the start of the text. -/
theorem findFrom_anchored (re : Regexp) (X : Regex) (hre : re.prog = Regex.seq Regex.beginText X)
    (fuel : Nat) (text : List Char) :
    findFrom re fuel 0 text = submatchAt re fuel { pos := 0, rest := text, caps := [] } := by
  have hlater : ∀ (rest : List Char) (pos : Nat),
      submatchAt re fuel { pos := pos + 1, rest := rest, caps := [] } = none := by
    intro rest pos
    simp [submatchAt, hre, step_seq, step]
  have hfrom : ∀ (rest : List Char) (pos : Nat), findFrom re fuel (pos + 1) rest = none := by
    intro rest
    induction rest with
    | nil => intro pos; simp [findFrom, hlater]
    | cons c cs ih => intro pos; simp [findFrom, hlater, ih]
  cases text with
  | nil => rfl
  | cons c cs =>
    simp only [findFrom, hfrom]
    split <;> simp_all

theorem step_beginText_zero (f : Nat) (X : Regex) (rest : List Char)
    (caps : List (Nat × List Char)) :
    step f (Regex.seq Regex.beginText X) { pos := 0, rest := rest, caps := caps } =
      step f X { pos := 0, rest := rest, caps := caps } := by
  simp [step_seq, step]

end regexp

namespace e2e

open regexp

theorem mk_take_length (s : String) : String.mk (List.take s.length s.data) = s := by
  rw [show s.length = s.data.length from rfl, List.take_length]

theorem char_of_toNat_eq (c : Char) (n : Nat) (h : c.toNat = n) : c = Char.ofNat n := by
  rw [← h, Char.ofNat_toNat]

theorem isDigit_ne_zero_char (c : Char) (hd : strconv.isDigit c = true) (h0 : c ≠ '0') :
    49 ≤ c.toNat ∧ c.toNat ≤ 57 := by
  simp only [strconv.isDigit, decide_eq_true_eq] at hd
  have hne : c.toNat ≠ 48 := fun h => h0 (char_of_toNat_eq c 48 h)
  omega

theorem takeWhile_digits_append (ds r : List Char)
    (hds : ∀ c ∈ ds, strconv.isDigit c = true)
    (hr : ∀ d r2, r = d :: r2 → strconv.isDigit d = false) :
    (ds ++ r).takeWhile strconv.isDigit = ds ∧ (ds ++ r).dropWhile strconv.isDigit = r := by
  induction ds with
  | nil =>
    cases r with
    | nil => simp
    | cons d r2 => simp [hr d r2 rfl]
  | cons x xs ih =>
    have hx : strconv.isDigit x = true := hds x (List.mem_cons_self x xs)
    have hxs := ih (fun c hc => hds c (List.mem_cons_of_mem x hc))
    simp [hx, hxs.1, hxs.2]

/-- A numeral followed by a text that does not start with a digit is the longest
numeral at the head of the whole. -/
theorem takeNumeral_append (n r : List Char) (hn : isNumeral n)
    (hr : ∀ d r2, r = d :: r2 → strconv.isDigit d = false) :
    takeNumeral (n ++ r) = some (n, r) := by
  rcases hn with h0 | ⟨hne, hdigits, hhead⟩
  · subst h0
    simp [takeNumeral]
  · cases n with
    | nil => exact absurd rfl hne
    | cons x xs =>
      have hx0 : x ≠ '0' := by
        intro h
        apply hhead
        simp [h]
      have hx := isDigit_ne_zero_char x (hdigits x (List.mem_cons_self x xs)) hx0
      have hxs := takeWhile_digits_append xs r
        (fun c hc => hdigits c (List.mem_cons_of_mem x hc)) hr
      simp [takeNumeral, hx0, hx, hxs.1, hxs.2]

/-- What `takeNumeral` returns is a numeral, the text is that numeral followed by the
rest, and the rest is shorter than the text. -/
theorem takeNumeral_some (l n r : List Char) (h : takeNumeral l = some (n, r)) :
    l = n ++ r ∧ isNumeral n ∧ r.length < l.length := by
  cases l with
  | nil => simp [takeNumeral] at h
  | cons x xs =>
    by_cases h0 : x = '0'
    · subst h0
      simp only [takeNumeral, if_true, Option.some.injEq, Prod.mk.injEq] at h
      obtain ⟨hn, hr⟩ := h
      subst hn; subst hr
      exact ⟨rfl, Or.inl rfl, by simp⟩
    · by_cases h19 : 49 ≤ x.toNat ∧ x.toNat ≤ 57
      · simp only [takeNumeral, h0, if_false, h19, and_self, if_true, Option.some.injEq,
          Prod.mk.injEq] at h
        obtain ⟨hn, hr⟩ := h
        subst hn; subst hr
        refine ⟨by simp [List.takeWhile_append_dropWhile], Or.inr ⟨by simp, ?_, ?_⟩, ?_⟩
        · intro c hc
          rcases List.mem_cons.mp hc with hc | hc
          · rw [hc]
            simp only [strconv.isDigit, decide_eq_true_eq]
            omega
          · exact (List.mem_takeWhile_imp hc)
        · simpa using h0
        · have hlen : (xs.takeWhile strconv.isDigit).length +
              (xs.dropWhile strconv.isDigit).length = xs.length := by
            rw [← List.length_append, List.takeWhile_append_dropWhile]
          simp only [List.length_cons]
          omega
      · simp [takeNumeral, h0, h19] at h

/-- The search with `stableReleaseFormat` finds what `scanStable` reads off the text:
the whole text and the two numerals, or nothing. -/
theorem stableReleaseFormat_find (s : String) :
    stableReleaseFormat.FindStringSubmatch s =
      match scanStable s.data with
      | some (major, minor) => [s, String.mk major, String.mk minor]
      | none => [] := by
  unfold Regexp.FindStringSubmatch
  rw [findFrom_anchored stableReleaseFormat _ rfl, submatchAt_eq]
  simp only [stableReleaseFormat, step_beginText_zero]
  rw [step_seq, step_literal]
  unfold scanStable
  by_cases hpre : "stable-".data.isPrefixOf s.data = true
  · simp only [hpre, if_true, List.flatMap_cons, List.flatMap_nil, List.append_nil]
    have hlen1 : (s.data.drop "stable-".data.length).length ≤ s.length := by
      rw [List.length_drop]
      exact Nat.sub_le _ _
    rw [step_seq, numeral_group_flatMap s.length 1 _ _ _ _ _ hlen1]
    · have h7 : "stable-".data.length = 7 := rfl
      rw [h7]
      rcases hnum1 : takeNumeral (s.data.drop 7) with _ | ⟨major, r1⟩
      · simp
      · obtain ⟨hsplit1, _, hlt1⟩ := takeNumeral_some _ _ _ hnum1
        cases r1 with
        | nil => simp [step_seq, step_char_nil]
        | cons c afterDot =>
          by_cases hc : c = '.'
          · subst hc
            have hlen2 : afterDot.length ≤ s.length := by
              have := List.length_drop 7 s.data
              simp only [List.length_cons] at hlt1
              simp only [String.length]
              omega
            simp only [step_seq, step_char_cons, if_true, List.flatMap_cons, List.flatMap_nil,
              List.append_nil]
            rw [numeral_group_flatMap s.length 2 _ _ _ _ _ hlen2]
            · rcases hnum2 : takeNumeral afterDot with _ | ⟨minor, r2⟩
              · simp
              · cases r2 with
                | nil =>
                  have hwhole : String.mk (List.take s.length s.data) = s := by
                    rw [show s.length = s.data.length from rfl, List.take_length]
                  simp [step_endText, List.lookup, List.range_succ, hwhole]
                | cons d r3 => simp [step_endText]
            · intro u d r hu _
              simp [step_endText, hu]
          · simp [step_seq, step_char_cons, hc]
    · intro u d r hu hd
      have hne : d ≠ '.' := by
        intro h
        rw [h] at hd
        exact absurd hd (by decide)
      cases u with
      | mk upos urest ucaps =>
        simp only at hu
        subst hu
        simp [step_seq, step_char_cons, hne]
  · simp [hpre]

end e2e

namespace e2e

open regexp

theorem scanStable_some (l major minor : List Char) (h : scanStable l = some (major, minor)) :
    l = "stable-".data ++ (major ++ '.' :: minor) ∧ isNumeral major ∧ isNumeral minor := by
  unfold scanStable at h
  by_cases hpre : "stable-".data.isPrefixOf l = true
  · rw [if_pos hpre] at h
    obtain ⟨t, ht⟩ := List.isPrefixOf_iff_prefix.mp hpre
    have hdrop : l.drop 7 = t := by
      rw [← ht]
      exact List.drop_left' rfl
    rw [hdrop] at h
    rcases hnum1 : takeNumeral t with _ | ⟨maj, r1⟩
    · simp [hnum1] at h
    · obtain ⟨hsplit1, hmaj, _⟩ := takeNumeral_some _ _ _ hnum1
      cases r1 with
      | nil => simp [hnum1] at h
      | cons c afterDot =>
        by_cases hc : c = '.'
        · subst hc
          rcases hnum2 : takeNumeral afterDot with _ | ⟨min, r2⟩
          · simp [hnum1, hnum2] at h
          · obtain ⟨hsplit2, hmin, _⟩ := takeNumeral_some _ _ _ hnum2
            cases r2 with
            | nil =>
              simp only [hnum1, hnum2, if_true, Option.some.injEq, Prod.mk.injEq] at h
              obtain ⟨h1, h2⟩ := h
              subst h1; subst h2
              refine ⟨?_, hmaj, hmin⟩
              rw [← ht, hsplit1, hsplit2, List.append_nil]
            | cons d r3 => simp [hnum1, hnum2] at h
        · simp [hnum1, hc] at h
  · simp [hpre] at h

theorem scanStable_of (major minor : List Char) (hmaj : isNumeral major)
    (hmin : isNumeral minor) :
    scanStable ("stable-".data ++ (major ++ '.' :: minor)) = some (major, minor) := by
  have hpre : "stable-".data.isPrefixOf ("stable-".data ++ (major ++ '.' :: minor)) = true :=
    List.isPrefixOf_iff_prefix.mpr (List.prefix_append _ _)
  have hdrop : ("stable-".data ++ (major ++ '.' :: minor)).drop 7 = major ++ '.' :: minor :=
    List.drop_left' rfl
  have hnum1 : takeNumeral (major ++ '.' :: minor) = some (major, '.' :: minor) := by
    apply takeNumeral_append _ _ hmaj
    intro d r2 hd
    simp only [List.cons.injEq] at hd
    rw [← hd.1]
    decide
  have hnum2 : takeNumeral minor = some (minor, []) := by
    have := takeNumeral_append minor [] hmin (by intro d r2 hd; simp at hd)
    simpa using this
  unfold scanStable
  rw [if_pos hpre, hdrop, hnum1]
  simp [hnum2]

theorem data_stable (major minor : String) :
    ("stable-" ++ major ++ "." ++ minor).data =
      "stable-".data ++ (major.data ++ '.' :: minor.data) := by
  simp [String.data_append]

/-- On `stable-`, a numeral, a dot and a numeral, `validateStableReleaseString` returns
true with the input and the two numerals as the match list. -/
theorem validateStableReleaseString_of (s major minor : String)
    (hmaj : isNumeral major.data) (hmin : isNumeral minor.data)
    (hs : s = "stable-" ++ major ++ "." ++ minor) :
    validateStableReleaseString s = (true, [s, major, minor]) := by
  have hscan : scanStable s.data = some (major.data, minor.data) := by
    rw [hs, data_stable]
    exact scanStable_of _ _ hmaj hmin
  simp [validateStableReleaseString, stableReleaseFormat_find, hscan]

/-- C17: `validateStableReleaseString` returns true exactly when the whole input is
`stable-`, a numeral, a dot and a numeral, a numeral being `0` or a non-empty string
of decimal digits that does not start with `0`. When it returns true, the match list
is the input, the major numeral and the minor numeral, so major is at index 1 and
minor at index 2; when it returns false, the match list is empty. `stable-1.22` is
accepted; `stable-1.22.3`, `stable-01.2`, `latest-1.21` and `v1.21.2` are rejected. -/
theorem validateStableReleaseString_spec (s : String) :
    ((validateStableReleaseString s).1 = true ↔
      ∃ major minor : String, isNumeral major.data ∧ isNumeral minor.data ∧
        s = "stable-" ++ major ++ "." ++ minor) ∧
    (∀ major minor : String, isNumeral major.data → isNumeral minor.data →
      s = "stable-" ++ major ++ "." ++ minor →
      validateStableReleaseString s = (true, [s, major, minor])) ∧
    ((validateStableReleaseString s).1 = false → (validateStableReleaseString s).2 = []) ∧
    validateStableReleaseString "stable-1.22" = (true, ["stable-1.22", "1", "22"]) ∧
    validateStableReleaseString "stable-1.22.3" = (false, []) ∧
    validateStableReleaseString "stable-01.2" = (false, []) ∧
    validateStableReleaseString "latest-1.21" = (false, []) ∧
    validateStableReleaseString "v1.21.2" = (false, []) := by
  have hof : ∀ major minor : String, isNumeral major.data → isNumeral minor.data →
      s = "stable-" ++ major ++ "." ++ minor →
      validateStableReleaseString s = (true, [s, major, minor]) :=
    fun major minor hmaj hmin hs => validateStableReleaseString_of s major minor hmaj hmin hs
  refine ⟨⟨?_, ?_⟩, hof, ?_, by rfl, by rfl, by rfl, by rfl, by rfl⟩
  · intro htrue
    rcases hscan : scanStable s.data with _ | ⟨major, minor⟩
    · simp [validateStableReleaseString, stableReleaseFormat_find, hscan] at htrue
    · obtain ⟨hdata, hmaj, hmin⟩ := scanStable_some _ _ _ hscan
      refine ⟨String.mk major, String.mk minor, hmaj, hmin, ?_⟩
      apply String.ext
      rw [data_stable, hdata]
  · rintro ⟨major, minor, hmaj, hmin, hs⟩
    rw [hof major minor hmaj hmin hs]
  · intro hfalse
    rcases hscan : scanStable s.data with _ | ⟨major, minor⟩
    · simp [validateStableReleaseString, stableReleaseFormat_find, hscan]
    · simp [validateStableReleaseString, stableReleaseFormat_find, hscan] at hfalse

/-- C17, at a concrete input: `stable-1.22` is cut into the numerals `1` and `22`. -/
theorem validateStableReleaseString_spec_witness :
    validateStableReleaseString "stable-1.22" = (true, ["stable-1.22", "1", "22"]) :=
  (validateStableReleaseString_spec "stable-1.22").2.1 "1" "22" (by decide) (by decide) rfl

end e2e

namespace e2e

open regexp

theorem literal_kills_digit (f : Nat) (cs : List Char) (c0 : Char) (X : Regex)
    (hc0 : strconv.isDigit c0 = false) (u : Thread) (d : Char) (r : List Char)
    (hu : u.rest = d :: r) (hd : strconv.isDigit d = true) :
    step f (Regex.seq (Regex.literal (c0 :: cs)) X) u = [] := by
  cases u with
  | mk upos urest ucaps =>
    simp only at hu
    subst hu
    have hne : ¬ c0 = d := by
      intro h
      rw [h, hd] at hc0
      exact absurd hc0 (by decide)
    rw [step_seq, step_literal]
    simp [List.isPrefixOf, hne]

/-- The search with `capiSku` finds what `scanSku` reads off the text: the whole text
and the three numerals, or nothing. -/
theorem capiSku_find (s : String) :
    capiSku.FindStringSubmatch s =
      match scanSku s.data with
      | some (major, minor, patch) => [s, String.mk major, String.mk minor, String.mk patch]
      | none => [] := by
  unfold Regexp.FindStringSubmatch
  rw [findFrom_anchored capiSku _ rfl, submatchAt_eq]
  simp only [capiSku, step_beginText_zero]
  rw [step_seq, step_literal]
  unfold scanSku
  by_cases hpre : "k8s-".data.isPrefixOf s.data = true
  · simp only [hpre, if_true, List.flatMap_cons, List.flatMap_nil, List.append_nil]
    have h4 : "k8s-".data.length = 4 := rfl
    have h3 : "dot".data.length = 3 := rfl
    have hlen0 : (s.data.drop 4).length ≤ s.length := by
      rw [List.length_drop]
      exact Nat.sub_le _ _
    rw [h4, step_seq,
      numeral_group_flatMap s.length 1 _
        (literal_kills_digit s.length _ 'd' _ (by decide)) _ _ _ hlen0]
    rcases hnum1 : takeNumeral (s.data.drop 4) with _ | ⟨major, r1⟩
    · simp
    · obtain ⟨_, _, hlt1⟩ := takeNumeral_some _ _ _ hnum1
      simp only
      rw [step_seq, step_literal]
      by_cases hdot1 : "dot".data.isPrefixOf r1 = true
      · simp only [hdot1, if_true, List.flatMap_cons, List.flatMap_nil, List.append_nil, h3]
        have hlen1 : (r1.drop 3).length ≤ s.length := by
          rw [List.length_drop]
          omega
        rw [step_seq,
          numeral_group_flatMap s.length 2 _
            (literal_kills_digit s.length _ 'd' _ (by decide)) _ _ _ hlen1]
        rcases hnum2 : takeNumeral (r1.drop 3) with _ | ⟨minor, r2⟩
        · simp
        · obtain ⟨_, _, hlt2⟩ := takeNumeral_some _ _ _ hnum2
          simp only
          rw [step_seq, step_literal]
          by_cases hdot2 : "dot".data.isPrefixOf r2 = true
          · simp only [hdot2, if_true, List.flatMap_cons, List.flatMap_nil, List.append_nil,
              h3]
            have hlen2 : (r2.drop 3).length ≤ s.length := by
              rw [List.length_drop] at hlt2 ⊢
              omega
            rw [step_seq, numeral_group_flatMap s.length 3 _ _ _ _ _ hlen2]
            · rcases hnum3 : takeNumeral (r2.drop 3) with _ | ⟨patch, r3⟩
              · simp
              · obtain ⟨_, _, hlt3⟩ := takeNumeral_some _ _ _ hnum3
                cases r3 with
                | nil => simp [step_seq, step_char_nil]
                | cons c suffix =>
                  by_cases hc : c = '-'
                  · subst hc
                    have hlen3 : suffix.length ≤ s.length := by
                      rw [List.length_drop] at hlt2 hlt3
                      simp only [List.length_cons] at hlt3
                      omega
                    have htail := lower_star_any_star_end s.length suffix s.length
                    dsimp only
                    rw [step_seq, step_char_cons, if_pos rfl, List.flatMap_cons, List.flatMap_nil,
                      List.append_nil, step_seq, step_star, htail _ _ hlen3 hlen3]
                    by_cases hnl : ∀ x ∈ suffix, x.toNat ≠ 10
                    · rw [if_pos hnl, if_pos hnl]
                      simp [List.lookup, List.range_succ, mk_take_length]
                    · rw [if_neg hnl, if_neg hnl]
                      rfl
                  · simp [step_seq, step_char_cons, hc]
            · intro u d r hu hd
              have hne : d ≠ '-' := by
                intro h
                rw [h] at hd
                exact absurd hd (by decide)
              cases u with
              | mk upos urest ucaps =>
                simp only at hu
                subst hu
                simp [step_seq, step_char_cons, hne]
          · simp [hdot2]
      · simp [hdot1]
  · simp [hpre]

end e2e

namespace e2e

open regexp

theorem drop_of_isPrefixOf (pre l : List Char) (h : pre.isPrefixOf l = true) :
    l = pre ++ l.drop pre.length := by
  obtain ⟨t, ht⟩ := List.isPrefixOf_iff_prefix.mp h
  rw [← ht, List.drop_left]

theorem scanSku_some (l a b c : List Char) (h : scanSku l = some (a, b, c)) :
    isNumeral a ∧ isNumeral b ∧ isNumeral c ∧
      ∃ suffix : List Char, (∀ x ∈ suffix, x.toNat ≠ 10) ∧
        l = "k8s-".data ++ (a ++ ("dot".data ++ (b ++ ("dot".data ++ (c ++ '-' :: suffix))))) := by
  unfold scanSku at h
  by_cases hpre : "k8s-".data.isPrefixOf l = true
  · rw [if_pos hpre] at h
    have hl := drop_of_isPrefixOf _ _ hpre
    have h4 : "k8s-".data.length = 4 := rfl
    rw [h4] at hl
    rcases hnum1 : takeNumeral (l.drop 4) with _ | ⟨maj, r1⟩
    · simp [hnum1] at h
    · obtain ⟨hsplit1, hmaj, _⟩ := takeNumeral_some _ _ _ hnum1
      simp only [hnum1] at h
      by_cases hdot1 : "dot".data.isPrefixOf r1 = true
      · rw [if_pos hdot1] at h
        have hr1 := drop_of_isPrefixOf _ _ hdot1
        have h3 : "dot".data.length = 3 := rfl
        rw [h3] at hr1
        rcases hnum2 : takeNumeral (r1.drop 3) with _ | ⟨min, r2⟩
        · simp [hnum2] at h
        · obtain ⟨hsplit2, hmin, _⟩ := takeNumeral_some _ _ _ hnum2
          simp only [hnum2] at h
          by_cases hdot2 : "dot".data.isPrefixOf r2 = true
          · rw [if_pos hdot2] at h
            have hr2 := drop_of_isPrefixOf _ _ hdot2
            rw [h3] at hr2
            rcases hnum3 : takeNumeral (r2.drop 3) with _ | ⟨pat, r3⟩
            · simp [hnum3] at h
            · obtain ⟨hsplit3, hpat, _⟩ := takeNumeral_some _ _ _ hnum3
              simp only [hnum3] at h
              cases r3 with
              | nil => simp at h
              | cons d suffix =>
                simp only at h
                by_cases hd : d = '-'
                · rw [if_pos hd] at h
                  by_cases hnl : ∀ x ∈ suffix, x.toNat ≠ 10
                  · rw [if_pos hnl] at h
                    simp only [Option.some.injEq, Prod.mk.injEq] at h
                    obtain ⟨h1, h2, h3⟩ := h
                    subst h1; subst h2; subst h3; subst hd
                    refine ⟨hmaj, hmin, hpat, suffix, hnl, ?_⟩
                    rw [hl, hsplit1, hr1, hsplit2, hr2, hsplit3]
                  · rw [if_neg hnl] at h
                    simp at h
                · rw [if_neg hd] at h
                  simp at h
          · rw [if_neg hdot2] at h
            simp at h
      · rw [if_neg hdot1] at h
        simp at h
  · rw [if_neg hpre] at h
    simp at h

theorem scanSku_of (a b c suffix : List Char) (ha : isNumeral a) (hb : isNumeral b)
    (hc : isNumeral c) (hnl : ∀ x ∈ suffix, x.toNat ≠ 10) :
    scanSku ("k8s-".data ++ (a ++ ("dot".data ++ (b ++ ("dot".data ++ (c ++ '-' :: suffix)))))) =
      some (a, b, c) := by
  have hd : ∀ (rest : List Char) (d : Char) (r2 : List Char),
      "dot".data ++ rest = d :: r2 → strconv.isDigit d = false := by
    intro rest d r2 h
    have h1 : d = 'd' := by
      have := List.head_eq_of_cons_eq h
      exact this.symm
    rw [h1]
    decide
  have hpre : "k8s-".data.isPrefixOf
      ("k8s-".data ++ (a ++ ("dot".data ++ (b ++ ("dot".data ++ (c ++ '-' :: suffix)))))) = true :=
    List.isPrefixOf_iff_prefix.mpr (List.prefix_append _ _)
  have hdrop1 : ("k8s-".data ++
      (a ++ ("dot".data ++ (b ++ ("dot".data ++ (c ++ '-' :: suffix)))))).drop 4 =
      a ++ ("dot".data ++ (b ++ ("dot".data ++ (c ++ '-' :: suffix)))) := List.drop_left' rfl
  have hnum1 := takeNumeral_append a ("dot".data ++ (b ++ ("dot".data ++ (c ++ '-' :: suffix))))
    ha (hd _)
  have hdot1 : "dot".data.isPrefixOf
      ("dot".data ++ (b ++ ("dot".data ++ (c ++ '-' :: suffix)))) = true :=
    List.isPrefixOf_iff_prefix.mpr (List.prefix_append _ _)
  have hdrop2 : ("dot".data ++ (b ++ ("dot".data ++ (c ++ '-' :: suffix)))).drop 3 =
      b ++ ("dot".data ++ (c ++ '-' :: suffix)) := List.drop_left' rfl
  have hnum2 := takeNumeral_append b ("dot".data ++ (c ++ '-' :: suffix)) hb (hd _)
  have hdot2 : "dot".data.isPrefixOf ("dot".data ++ (c ++ '-' :: suffix)) = true :=
    List.isPrefixOf_iff_prefix.mpr (List.prefix_append _ _)
  have hdrop3 : ("dot".data ++ (c ++ '-' :: suffix)).drop 3 = c ++ '-' :: suffix :=
    List.drop_left' rfl
  have hnum3 := takeNumeral_append c ('-' :: suffix) hc (by
    intro d r2 h
    simp only [List.cons.injEq] at h
    rw [← h.1]
    decide)
  unfold scanSku
  rw [if_pos hpre, hdrop1, hnum1]
  simp only
  rw [if_pos hdot1, hdrop2, hnum2]
  simp only
  rw [if_pos hdot2, hdrop3, hnum3]
  simp only
  rw [if_pos trivial, if_pos hnl]

theorem scanSku_iff_skuForm (sku : String) (a b c : List Char) :
    scanSku sku.data = some (a, b, c) ↔ skuForm sku a b c := by
  constructor
  · intro h
    exact scanSku_some _ _ _ _ h
  · rintro ⟨ha, hb, hc, suffix, hnl, hdata⟩
    rw [hdata]
    exact scanSku_of a b c suffix ha hb hc hnl

end e2e

namespace semver

theorem cut_digits_sep (sep : Char) (hsep : strconv.isDigit sep = false) (rest : List Char) :
    ∀ a : List Char, (∀ x ∈ a, strconv.isDigit x = true) →
      cut sep (a ++ sep :: rest) = (a, some rest) := by
  intro a
  induction a with
  | nil => intro _; simp [cut]
  | cons x xs ih =>
    intro h
    have hx : x ≠ sep := by
      intro hx
      have := h x (List.mem_cons_self x xs)
      rw [hx, hsep] at this
      exact absurd this (by decide)
    have ih2 := ih (fun y hy => h y (List.mem_cons_of_mem x hy))
    simp [cut, hx, ih2]

theorem cut_digits_none (sep : Char) (hsep : strconv.isDigit sep = false) :
    ∀ a : List Char, (∀ x ∈ a, strconv.isDigit x = true) → cut sep a = (a, none) := by
  intro a
  induction a with
  | nil => intro _; rfl
  | cons x xs ih =>
    intro h
    have hx : x ≠ sep := by
      intro hx
      have := h x (List.mem_cons_self x xs)
      rw [hx, hsep] at this
      exact absurd this (by decide)
    have ih2 := ih (fun y hy => h y (List.mem_cons_of_mem x hy))
    simp [cut, hx, ih2]

theorem numeral_digits (n : List Char) (hn : e2e.isNumeral n) :
    ∀ x ∈ n, strconv.isDigit x = true := by
  rcases hn with h0 | ⟨_, hd, _⟩
  · subst h0
    intro x hx
    simp only [List.mem_singleton] at hx
    rw [hx]
    decide
  · exact hd

theorem numeral_no_leading_zeroes (n : List Char) (hn : e2e.isNumeral n) :
    hasLeadingZeroes n = false := by
  rcases hn with h0 | ⟨_, _, hhead⟩
  · subst h0; rfl
  · cases n with
    | nil => rfl
    | cons x xs =>
      cases xs with
      | nil => rfl
      | cons y ys =>
        have hx : x ≠ '0' := by
          intro h
          apply hhead
          simp [h]
        simp [hasLeadingZeroes, hx]

theorem numeral_ne_nil (n : List Char) (hn : e2e.isNumeral n) : n ≠ [] := by
  rcases hn with h0 | ⟨hne, _, _⟩
  · subst h0; simp
  · exact hne

/-- The number part of `semver.Parse` on a numeral: its value when that fits in 64
bits, an error otherwise. -/
theorem parseNumber_numeral (n : List Char) (hn : e2e.isNumeral n) :
    parseNumber n =
      if strconv.decimalValue 0 n < 2 ^ 64 then some (strconv.decimalValue 0 n) else none := by
  have hd : n.all strconv.isDigit = true := by
    rw [List.all_eq_true]
    exact numeral_digits n hn
  have hne := numeral_ne_nil n hn
  unfold parseNumber
  rw [onlyNumbers, hd, numeral_no_leading_zeroes n hn]
  simp only [Bool.true_eq_false, if_false, Bool.false_eq_true, strconv.ParseUint, hd, hne,
    ne_eq, not_false_eq_true, true_and]

theorem data_version_key (a b c : List Char) :
    (String.mk a ++ "." ++ String.mk b ++ "." ++ String.mk c).data =
      a ++ '.' :: (b ++ '.' :: c) := by
  simp [String.data_append]

/-- The function `semver.Parse` on `a.b.c` for three numerals: the version with these
numbers and neither pre-release nor build metadata when each number fits in 64 bits,
and an error otherwise. -/
theorem Parse_numerals (a b c : List Char) (ha : e2e.isNumeral a) (hb : e2e.isNumeral b)
    (hc : e2e.isNumeral c) :
    Parse (String.mk a ++ "." ++ String.mk b ++ "." ++ String.mk c) =
      if strconv.decimalValue 0 a < 2 ^ 64 ∧ strconv.decimalValue 0 b < 2 ^ 64 ∧
          strconv.decimalValue 0 c < 2 ^ 64 then
        some { Major := strconv.decimalValue 0 a, Minor := strconv.decimalValue 0 b,
               Patch := strconv.decimalValue 0 c, Pre := [], Build := [] }
      else none := by
  have hdot : strconv.isDigit '.' = false := by decide
  have hplus : strconv.isDigit '+' = false := by decide
  have hminus : strconv.isDigit '-' = false := by decide
  have hne : a ++ '.' :: (b ++ '.' :: c) ≠ [] := by
    have := numeral_ne_nil a ha
    simp [this]
  unfold Parse
  rw [data_version_key, if_neg hne, cut_digits_sep '.' hdot _ a (numeral_digits a ha)]
  simp only
  rw [cut_digits_sep '.' hdot _ b (numeral_digits b hb)]
  simp only
  rw [parseNumber_numeral a ha, parseNumber_numeral b hb,
    cut_digits_none '+' hplus c (numeral_digits c hc)]
  simp only
  rw [cut_digits_none '-' hminus c (numeral_digits c hc)]
  simp only
  rw [parseNumber_numeral c hc]
  by_cases h1 : strconv.decimalValue 0 a < 2 ^ 64
  · by_cases h2 : strconv.decimalValue 0 b < 2 ^ 64
    · by_cases h3 : strconv.decimalValue 0 c < 2 ^ 64
      · rw [if_pos h1, if_pos h2, if_pos h3, if_pos ⟨h1, h2, h3⟩]
      · have hall : ¬ (strconv.decimalValue 0 a < 2 ^ 64 ∧ strconv.decimalValue 0 b < 2 ^ 64 ∧
            strconv.decimalValue 0 c < 2 ^ 64) := fun h => h3 h.2.2
        rw [if_pos h1, if_pos h2, if_neg h3, if_neg hall]
    · have hall : ¬ (strconv.decimalValue 0 a < 2 ^ 64 ∧ strconv.decimalValue 0 b < 2 ^ 64 ∧
          strconv.decimalValue 0 c < 2 ^ 64) := fun h => h2 h.2.1
      rw [if_pos h1, if_neg h2, if_neg hall]
  · have hall : ¬ (strconv.decimalValue 0 a < 2 ^ 64 ∧ strconv.decimalValue 0 b < 2 ^ 64 ∧
        strconv.decimalValue 0 c < 2 ^ 64) := fun h => h1 h.1
    rw [if_neg h1, if_neg hall]

end semver

namespace e2e

open regexp

theorem lookup_mapSet (versions : List (String × semver.Version)) (k key : String)
    (v : semver.Version) :
    (mapSet versions k v).lookup key = if key = k then some v else versions.lookup key := by
  unfold mapSet
  by_cases hk : key = k
  · subst hk
    simp [List.lookup]
  · have hbeq : (key == k) = false := by simpa using hk
    rw [List.lookup_cons, hbeq, if_neg hk]
    simp only
    induction versions with
    | nil => rfl
    | cons entry rest ih =>
      obtain ⟨ek, ev⟩ := entry
      simp only [ne_eq, decide_not] at ih
      by_cases hek : ek = k
      · subst hek
        have hbeq2 : (key == ek) = false := by simpa using hk
        simp [List.filter_cons, List.lookup_cons, hbeq2, ih]
      · by_cases hkey : key = ek
        · subst hkey
          simp [List.filter_cons, hek, List.lookup_cons]
        · have hbeq3 : (key == ek) = false := by simpa using hkey
          simp [List.filter_cons, hek, List.lookup_cons, hbeq3, ih]

/-- One round of the loop of `parseImageSkuNames`, by what `scanSku` reads off the name. -/
theorem parseImageSkuNamesFrom_cons (sku : String) (rest : List String)
    (versions : List (String × semver.Version)) :
    parseImageSkuNamesFrom (sku :: rest) versions =
      match scanSku sku.data with
      | none => parseImageSkuNamesFrom rest versions
      | some (a, b, c) =>
        match semver.Parse (String.mk a ++ "." ++ String.mk b ++ "." ++ String.mk c) with
        | none => Except.error Abort.panicked
        | some v =>
          parseImageSkuNamesFrom rest
            (mapSet versions (String.mk a ++ "." ++ String.mk b ++ "." ++ String.mk c) v) := by
  rw [parseImageSkuNamesFrom, capiSku_find]
  rcases hscan : scanSku sku.data with _ | ⟨a, b, c⟩
  · simp
  · simp only [List.length_cons, List.length_nil, ne_eq, Nat.add_one_ne_zero,
      not_false_eq_true, if_true, List.getD_cons_succ, List.getD_cons_zero, MustParse]
    cases semver.Parse (String.mk a ++ "." ++ String.mk b ++ "." ++ String.mk c) <;> rfl

theorem skuForm_unique (sku : String) (a b c a2 b2 c2 : List Char)
    (h1 : skuForm sku a b c) (h2 : skuForm sku a2 b2 c2) : a = a2 ∧ b = b2 ∧ c = c2 := by
  have e1 := (scanSku_iff_skuForm sku a b c).mpr h1
  have e2 := (scanSku_iff_skuForm sku a2 b2 c2).mpr h2
  rw [e1] at e2
  simpa using e2

/-- The version string decides the version: two triples of numerals with the same
version string have the same numbers. -/
theorem version_of_key (a b c a2 b2 c2 : List Char)
    (ha : isNumeral a) (hb : isNumeral b) (hc : isNumeral c)
    (ha2 : isNumeral a2) (hb2 : isNumeral b2) (hc2 : isNumeral c2)
    (hbound : strconv.decimalValue 0 a < 2 ^ 64 ∧ strconv.decimalValue 0 b < 2 ^ 64 ∧
      strconv.decimalValue 0 c < 2 ^ 64)
    (hbound2 : strconv.decimalValue 0 a2 < 2 ^ 64 ∧ strconv.decimalValue 0 b2 < 2 ^ 64 ∧
      strconv.decimalValue 0 c2 < 2 ^ 64)
    (hkey : String.mk a ++ "." ++ String.mk b ++ "." ++ String.mk c =
      String.mk a2 ++ "." ++ String.mk b2 ++ "." ++ String.mk c2) :
    ({ Major := strconv.decimalValue 0 a, Minor := strconv.decimalValue 0 b,
       Patch := strconv.decimalValue 0 c, Pre := [], Build := [] } : semver.Version) =
      { Major := strconv.decimalValue 0 a2, Minor := strconv.decimalValue 0 b2,
        Patch := strconv.decimalValue 0 c2, Pre := [], Build := [] } := by
  have p1 := semver.Parse_numerals a b c ha hb hc
  have p2 := semver.Parse_numerals a2 b2 c2 ha2 hb2 hc2
  rw [if_pos hbound] at p1
  rw [if_pos hbound2, ← hkey, p1] at p2
  exact Option.some.inj p2

end e2e

namespace e2e

open regexp

/-- The loop of `parseImageSkuNames` when every name of the SKU form has numbers within
64 bits: it returns a map, and a key is bound in it exactly when a name of the list
yields it, or no name yields it and it was bound in the map the loop started from. -/
theorem parseImageSkuNamesFrom_spec :
    ∀ (skus : List String) (acc : List (String × semver.Version)),
      (∀ sku ∈ skus, ∀ a b c, skuForm sku a b c →
        strconv.decimalValue 0 a < 2 ^ 64 ∧ strconv.decimalValue 0 b < 2 ^ 64 ∧
          strconv.decimalValue 0 c < 2 ^ 64) →
      ∃ versions, parseImageSkuNamesFrom skus acc = Except.ok versions ∧
        ∀ (key : String) (v : semver.Version), versions.lookup key = some v ↔
          (∃ sku ∈ skus, ∃ a b c, skuForm sku a b c ∧
            key = String.mk a ++ "." ++ String.mk b ++ "." ++ String.mk c ∧
            v = { Major := strconv.decimalValue 0 a, Minor := strconv.decimalValue 0 b,
                  Patch := strconv.decimalValue 0 c, Pre := [], Build := [] }) ∨
          ((∀ sku ∈ skus, ∀ a b c, skuForm sku a b c →
              key ≠ String.mk a ++ "." ++ String.mk b ++ "." ++ String.mk c) ∧
            acc.lookup key = some v) := by
  intro skus
  induction skus with
  | nil =>
    intro acc _
    exact ⟨acc, rfl, fun key v => by simp⟩
  | cons sku rest ih =>
    intro acc hbound
    have hrest : ∀ s ∈ rest, ∀ a b c, skuForm s a b c →
        strconv.decimalValue 0 a < 2 ^ 64 ∧ strconv.decimalValue 0 b < 2 ^ 64 ∧
          strconv.decimalValue 0 c < 2 ^ 64 :=
      fun s hs => hbound s (List.mem_cons_of_mem sku hs)
    rw [parseImageSkuNamesFrom_cons]
    rcases hscan : scanSku sku.data with _ | ⟨a, b, c⟩
    · have hno : ∀ a b c, ¬ skuForm sku a b c := by
        intro a b c hform
        rw [(scanSku_iff_skuForm sku a b c).mpr hform] at hscan
        exact absurd hscan (by simp)
      obtain ⟨versions, hrun, hlook⟩ := ih acc hrest
      refine ⟨versions, hrun, fun key v => ?_⟩
      rw [hlook key v]
      constructor
      · rintro (⟨s, hs, a, b, c, hform, hkey, hv⟩ | ⟨hnone, hacc⟩)
        · exact Or.inl ⟨s, List.mem_cons_of_mem sku hs, a, b, c, hform, hkey, hv⟩
        · refine Or.inr ⟨?_, hacc⟩
          intro s hs a b c hform
          rcases List.mem_cons.mp hs with h | h
          · rw [h] at hform
            exact absurd hform (hno a b c)
          · exact hnone s h a b c hform
      · rintro (⟨s, hs, a, b, c, hform, hkey, hv⟩ | ⟨hnone, hacc⟩)
        · rcases List.mem_cons.mp hs with h | h
          · rw [h] at hform
            exact absurd hform (hno a b c)
          · exact Or.inl ⟨s, h, a, b, c, hform, hkey, hv⟩
        · exact Or.inr ⟨fun s hs => hnone s (List.mem_cons_of_mem sku hs), hacc⟩
    · have hform0 : skuForm sku a b c := (scanSku_iff_skuForm sku a b c).mp hscan
      have hb0 := hbound sku (List.mem_cons_self sku rest) a b c hform0
      have hparse := semver.Parse_numerals a b c hform0.1 hform0.2.1 hform0.2.2.1
      rw [if_pos hb0] at hparse
      simp only [hparse]
      obtain ⟨versions, hrun, hlook⟩ := ih
        (mapSet acc (String.mk a ++ "." ++ String.mk b ++ "." ++ String.mk c)
          { Major := strconv.decimalValue 0 a, Minor := strconv.decimalValue 0 b,
            Patch := strconv.decimalValue 0 c, Pre := [], Build := [] }) hrest
      refine ⟨versions, hrun, fun key v => ?_⟩
      rw [hlook key v, lookup_mapSet]
      constructor
      · rintro (⟨s, hs, a2, b2, c2, hform, hkey, hv⟩ | ⟨hnone, hacc⟩)
        · exact Or.inl ⟨s, List.mem_cons_of_mem sku hs, a2, b2, c2, hform, hkey, hv⟩
        · by_cases hk : key = String.mk a ++ "." ++ String.mk b ++ "." ++ String.mk c
          · rw [if_pos hk] at hacc
            exact Or.inl ⟨sku, List.mem_cons_self sku rest, a, b, c, hform0, hk,
              (Option.some.inj hacc).symm⟩
          · rw [if_neg hk] at hacc
            refine Or.inr ⟨?_, hacc⟩
            intro s hs a2 b2 c2 hform
            rcases List.mem_cons.mp hs with h | h
            · rw [h] at hform
              obtain ⟨e1, e2, e3⟩ := skuForm_unique sku a2 b2 c2 a b c hform hform0
              rw [e1, e2, e3]
              exact hk
            · exact hnone s h a2 b2 c2 hform
      · rintro (⟨s, hs, a2, b2, c2, hform, hkey, hv⟩ | ⟨hnone, hacc⟩)
        · rcases List.mem_cons.mp hs with h | h
          · rw [h] at hform
            obtain ⟨e1, e2, e3⟩ := skuForm_unique sku a2 b2 c2 a b c hform hform0
            subst e1; subst e2; subst e3
            by_cases hex : ∃ s2 ∈ rest, ∃ a3 b3 c3, skuForm s2 a3 b3 c3 ∧
                key = String.mk a3 ++ "." ++ String.mk b3 ++ "." ++ String.mk c3
            · obtain ⟨s2, hs2, a3, b3, c3, hform3, hkey3⟩ := hex
              refine Or.inl ⟨s2, hs2, a3, b3, c3, hform3, hkey3, ?_⟩
              rw [hv]
              exact version_of_key a2 b2 c2 a3 b3 c3 hform0.1 hform0.2.1 hform0.2.2.1
                hform3.1 hform3.2.1 hform3.2.2.1 hb0 (hrest s2 hs2 a3 b3 c3 hform3)
                (hkey ▸ hkey3)
            · refine Or.inr ⟨?_, ?_⟩
              · intro s2 hs2 a3 b3 c3 hform3 hkey3
                exact hex ⟨s2, hs2, a3, b3, c3, hform3, hkey3⟩
              · rw [if_pos hkey, hv]
          · exact Or.inl ⟨s, h, a2, b2, c2, hform, hkey, hv⟩
        · have hk : key ≠ String.mk a ++ "." ++ String.mk b ++ "." ++ String.mk c :=
            hnone sku (List.mem_cons_self sku rest) a b c hform0
          refine Or.inr ⟨fun s hs => hnone s (List.mem_cons_of_mem sku hs), ?_⟩
          rw [if_neg hk]
          exact hacc

/-- The loop of `parseImageSkuNames` panics when some name of the SKU form has a number
beyond 64 bits. -/
theorem parseImageSkuNamesFrom_panics :
    ∀ (skus : List String) (acc : List (String × semver.Version)),
      (∃ sku ∈ skus, ∃ a b c, skuForm sku a b c ∧
        ¬ (strconv.decimalValue 0 a < 2 ^ 64 ∧ strconv.decimalValue 0 b < 2 ^ 64 ∧
          strconv.decimalValue 0 c < 2 ^ 64)) →
      parseImageSkuNamesFrom skus acc = Except.error Abort.panicked := by
  intro skus
  induction skus with
  | nil =>
    intro acc h
    obtain ⟨s, hs, _⟩ := h
    simp at hs
  | cons sku rest ih =>
    intro acc h
    obtain ⟨s, hs, a, b, c, hform, hbig⟩ := h
    rw [parseImageSkuNamesFrom_cons]
    rcases hscan : scanSku sku.data with _ | ⟨a0, b0, c0⟩
    · rcases List.mem_cons.mp hs with h1 | h1
      · rw [h1] at hform
        rw [(scanSku_iff_skuForm sku a b c).mpr hform] at hscan
        exact absurd hscan (by simp)
      · exact ih acc ⟨s, h1, a, b, c, hform, hbig⟩
    · have hform0 : skuForm sku a0 b0 c0 := (scanSku_iff_skuForm sku a0 b0 c0).mp hscan
      have hparse := semver.Parse_numerals a0 b0 c0 hform0.1 hform0.2.1 hform0.2.2.1
      by_cases hb0 : strconv.decimalValue 0 a0 < 2 ^ 64 ∧ strconv.decimalValue 0 b0 < 2 ^ 64 ∧
          strconv.decimalValue 0 c0 < 2 ^ 64
      · rw [if_pos hb0] at hparse
        simp only [hparse]
        rcases List.mem_cons.mp hs with h1 | h1
        · rw [h1] at hform
          obtain ⟨e1, e2, e3⟩ := skuForm_unique sku a b c a0 b0 c0 hform hform0
          rw [e1, e2, e3] at hbig
          exact absurd hb0 hbig
        · exact ih _ ⟨s, h1, a, b, c, hform, hbig⟩
      · rw [if_neg hb0] at hparse
        simp only [hparse]

/-- C18, as the code has it: when each name of the list that has the SKU form has its
three numbers within 64 bits, `parseImageSkuNames` returns a map in which a key `M.m.p`
is bound exactly when some name of the list is `k8s-`, `M`, `dot`, `m`, `dot`, `p`, a
hyphen and a rest without line feed, the three being numerals without leading zero;
the value under the key is the version with these three numbers and neither pre-release
nor build metadata. Names not of that form, the empty name among them, contribute
nothing. When a number of such a name is beyond 64 bits, the call panics. The
name `k8s-1dot17dot2-os-123` yields `1.17.2`. -/
theorem parseImageSkuNames_spec (skus : List String) :
    ((∀ sku ∈ skus, ∀ a b c, skuForm sku a b c →
        strconv.decimalValue 0 a < 2 ^ 64 ∧ strconv.decimalValue 0 b < 2 ^ 64 ∧
          strconv.decimalValue 0 c < 2 ^ 64) →
      ∃ versions, parseImageSkuNames skus = Except.ok versions ∧
        ∀ (key : String) (v : semver.Version), versions.lookup key = some v ↔
          ∃ sku ∈ skus, ∃ a b c, skuForm sku a b c ∧
            key = String.mk a ++ "." ++ String.mk b ++ "." ++ String.mk c ∧
            v = { Major := strconv.decimalValue 0 a, Minor := strconv.decimalValue 0 b,
                  Patch := strconv.decimalValue 0 c, Pre := [], Build := [] }) ∧
    ((∃ sku ∈ skus, ∃ a b c, skuForm sku a b c ∧
        ¬ (strconv.decimalValue 0 a < 2 ^ 64 ∧ strconv.decimalValue 0 b < 2 ^ 64 ∧
          strconv.decimalValue 0 c < 2 ^ 64)) →
      parseImageSkuNames skus = Except.error Abort.panicked) ∧
    parseImageSkuNames ["k8s-1dot17dot2-os-123"] =
      Except.ok [("1.17.2", { Major := 1, Minor := 17, Patch := 2, Pre := [], Build := [] })] ∧
    parseImageSkuNames ["", "k8s-1dot17dot2", "k8s-01dot17dot2-os"] = Except.ok [] := by
  refine ⟨?_, parseImageSkuNamesFrom_panics skus [], by rfl, by rfl⟩
  intro hbound
  obtain ⟨versions, hrun, hlook⟩ := parseImageSkuNamesFrom_spec skus [] hbound
  refine ⟨versions, hrun, fun key v => ?_⟩
  rw [hlook key v]
  simp

/-- C18, at a concrete list: one name of the SKU form, and two that are not. -/
theorem parseImageSkuNames_spec_witness :
    ∃ versions, parseImageSkuNames ["k8s-1dot17dot2-os-123", "", "latest"] =
        Except.ok versions ∧
      ∀ (key : String) (v : semver.Version), versions.lookup key = some v ↔
        ∃ sku ∈ ["k8s-1dot17dot2-os-123", "", "latest"], ∃ a b c, skuForm sku a b c ∧
          key = String.mk a ++ "." ++ String.mk b ++ "." ++ String.mk c ∧
          v = { Major := strconv.decimalValue 0 a, Minor := strconv.decimalValue 0 b,
                Patch := strconv.decimalValue 0 c, Pre := [], Build := [] } :=
  (parseImageSkuNames_spec ["k8s-1dot17dot2-os-123", "", "latest"]).1 (by
    intro sku hsku a b c hform
    have hscan := (scanSku_iff_skuForm sku a b c).mpr hform
    simp only [List.mem_cons, List.mem_singleton, List.not_mem_nil, or_false] at hsku
    rcases hsku with h | h | h <;> subst h
    · have hval : scanSku "k8s-1dot17dot2-os-123".data =
          some ("1".data, "17".data, "2".data) := by rfl
      rw [hval] at hscan
      simp only [Option.some.injEq, Prod.mk.injEq] at hscan
      obtain ⟨h1, h2, h3⟩ := hscan
      subst h1; subst h2; subst h3
      decide
    · have hval : scanSku "".data = none := by rfl
      rw [hval] at hscan
      exact absurd hscan (by simp)
    · have hval : scanSku "latest".data = none := by rfl
      rw [hval] at hscan
      exact absurd hscan (by simp))

/-- C18 fails as stated: a name of the form `k8s-1dot17dot2-` followed by `os` and a
line feed yields no key, because `.` does not match a line feed; and a name whose first
number is 2^64 makes the call panic in `semver.MustParse` instead of returning a map. -/
theorem parseImageSkuNames_line_feed_and_overflow :
    parseImageSkuNames ["k8s-1dot17dot2-os" ++ String.singleton (Char.ofNat 10)] =
      Except.ok [] ∧
    parseImageSkuNames ["k8s-18446744073709551616dot17dot2-os"] =
      Except.error Abort.panicked := by
  constructor <;> rfl

end e2e

namespace semver

theorem PRVersion.compare_refl (p : PRVersion) : p.Compare p = 0 := by
  unfold PRVersion.Compare
  cases p.IsNum <;> simp

theorem comparePre_self : ∀ l : List PRVersion, comparePre l l = 0 := by
  intro l
  induction l with
  | nil => rfl
  | cons p ps ih => simp [comparePre, PRVersion.compare_refl, ih]

/-- A version does not precede itself. -/
theorem Version.compare_self_eq (v : Version) : v.Compare v = 0 := by
  unfold Version.Compare
  simp only [ne_eq, not_true_eq_false, if_false, and_self]
  split
  · rfl
  · split
    · rename_i h1 h2
      exact absurd h2.1 h1
    · split
      · rename_i h1 _ h3
        exact absurd h3.2 h1
      · exact comparePre_self v.Pre

theorem Version.not_LT_self (v : Version) : ¬ v.LT v := by
  unfold Version.LT
  rw [Version.compare_self_eq]
  decide

/-- In a list in ascending order, the last element with a property is preceded by no
element with the property. -/
theorem last_match_greatest (sorted : List Version) (p : Version → Bool) (x : Version)
    (hsorted : sorted.Pairwise (fun a b => ¬ b.LT a))
    (hfind : sorted.reverse.find? p = some x) :
    x ∈ sorted ∧ p x = true ∧ ∀ y ∈ sorted, p y = true → ¬ x.LT y := by
  obtain ⟨hpx, front, back, hsplit, hfront⟩ := List.find?_eq_some.mp hfind
  have hrev : sorted = back.reverse ++ (x :: front.reverse) := by
    have := congrArg List.reverse hsplit
    simpa using this
  refine ⟨?_, hpx, ?_⟩
  · rw [hrev]
    simp
  · intro y hy hpy
    rw [hrev] at hy hsorted
    rcases List.mem_append.mp hy with h | h
    · exact (List.pairwise_append.mp hsorted).2.2 y h x (List.mem_cons_self _ _)
    · rcases List.mem_cons.mp h with h2 | h2
      · rw [h2]
        exact Version.not_LT_self x
      · have := hfront y (List.mem_reverse.mp h2)
        rw [hpy] at this
        exact absurd this (by decide)

end semver

namespace e2e

theorem ParseUint_numeral (n : String) (hn : isNumeral n.data) :
    strconv.ParseUint n =
      if strconv.decimalValue 0 n.data < 2 ^ 64 then some (strconv.decimalValue 0 n.data)
      else none := by
  have hd : n.data.all strconv.isDigit = true := by
    rw [List.all_eq_true]
    exact semver.numeral_digits n.data hn
  have hne := semver.numeral_ne_nil n.data hn
  simp only [strconv.ParseUint, hd, hne, ne_eq, not_false_eq_true, true_and]

/-- C16, as the code has it: for a version string `stable-M.N`, `M` and `N` being
numerals without leading zero whose values fit in 64 bits, and for `semver.Sort`
returning the list in ascending order of precedence: when `skus` holds a version with
that major and minor, `getLatestSkuForMinor` returns `v` followed by the string of a
version of `skus` with that major and minor that no such version of `skus` exceeds in
semver precedence; when `skus` holds none, it returns the input string unchanged. When
`M` or `N` does not fit in 64 bits, the expectation on `strconv.ParseUint` fails and
nothing is returned. -/
theorem getLatestSkuForMinor_stable (sort : List semver.Version → List semver.Version)
    (parseTolerant : String → Option semver.Version) (major minor : String)
    (skus : List semver.Version)
    (hmaj : isNumeral major.data) (hmin : isNumeral minor.data)
    (hperm : (sort skus).Perm skus)
    (hsorted : (sort skus).Pairwise (fun a b => ¬ b.LT a)) :
    (strconv.decimalValue 0 major.data < 2 ^ 64 → strconv.decimalValue 0 minor.data < 2 ^ 64 →
      ((∃ v ∈ skus, v.Major = strconv.decimalValue 0 major.data ∧
          v.Minor = strconv.decimalValue 0 minor.data) →
        ∃ x ∈ skus, x.Major = strconv.decimalValue 0 major.data ∧
          x.Minor = strconv.decimalValue 0 minor.data ∧
          (∀ y ∈ skus, y.Major = strconv.decimalValue 0 major.data →
            y.Minor = strconv.decimalValue 0 minor.data → ¬ x.LT y) ∧
          getLatestSkuForMinor sort parseTolerant ("stable-" ++ major ++ "." ++ minor) skus =
            Except.ok ("v" ++ x.String)) ∧
      ((∀ v ∈ skus, ¬ (v.Major = strconv.decimalValue 0 major.data ∧
          v.Minor = strconv.decimalValue 0 minor.data)) →
        getLatestSkuForMinor sort parseTolerant ("stable-" ++ major ++ "." ++ minor) skus =
          Except.ok ("stable-" ++ major ++ "." ++ minor))) ∧
    (¬ (strconv.decimalValue 0 major.data < 2 ^ 64 ∧
        strconv.decimalValue 0 minor.data < 2 ^ 64) →
      getLatestSkuForMinor sort parseTolerant ("stable-" ++ major ++ "." ++ minor) skus =
        Except.error Abort.expectationFailed) := by
  have hval := validateStableReleaseString_of ("stable-" ++ major ++ "." ++ minor) major minor
    hmaj hmin rfl
  have hrun : getLatestSkuForMinor sort parseTolerant ("stable-" ++ major ++ "." ++ minor) skus =
      match strconv.ParseUint major with
      | none => Except.error Abort.expectationFailed
      | some M =>
        match strconv.ParseUint minor with
        | none => Except.error Abort.expectationFailed
        | some N =>
          match (sort skus).reverse.find? (fun v => decide (v.Major = M ∧ v.Minor = N)) with
          | some v => Except.ok ("v" ++ v.String)
          | none => Except.ok ("stable-" ++ major ++ "." ++ minor) := by
    unfold getLatestSkuForMinor
    rw [hval]
    simp only [if_true, List.getD_cons_succ, List.getD_cons_zero]
  rw [hrun, ParseUint_numeral major hmaj, ParseUint_numeral minor hmin]
  constructor
  · intro hM hN
    rw [if_pos hM, if_pos hN]
    simp only
    constructor
    · rintro ⟨v, hv, hvM, hvN⟩
      generalize hfind : List.find? _ (sort skus).reverse = found
      cases found with
      | none =>
        have hnone := List.find?_eq_none.mp hfind v
          (List.mem_reverse.mpr (hperm.mem_iff.mpr hv))
        simp [hvM, hvN] at hnone
      | some x =>
        obtain ⟨hx, hpx, hmax⟩ := semver.last_match_greatest (sort skus) _ x hsorted hfind
        simp only [decide_eq_true_eq] at hpx hmax
        exact ⟨x, hperm.mem_iff.mp hx, hpx.1, hpx.2,
          fun y hy hyM hyN => hmax y (hperm.mem_iff.mpr hy) ⟨hyM, hyN⟩, rfl⟩
    · intro hnone
      generalize hfind : List.find? _ (sort skus).reverse = found
      cases found with
      | none => rfl
      | some x =>
        obtain ⟨hx, hpx, _⟩ := semver.last_match_greatest (sort skus) _ x hsorted hfind
        simp only [decide_eq_true_eq] at hpx
        exact absurd hpx (hnone x (hperm.mem_iff.mp hx))
  · intro hbig
    by_cases hM : strconv.decimalValue 0 major.data < 2 ^ 64
    · have hN : ¬ strconv.decimalValue 0 minor.data < 2 ^ 64 := fun h => hbig ⟨hM, h⟩
      rw [if_pos hM, if_neg hN]
    · rw [if_neg hM]

end e2e

namespace e2e

/-- C16, at a concrete list: of `1.22.3`, `1.23.0` and `1.22.10`, the latest `1.22`
version is picked for `stable-1.22`. -/
theorem getLatestSkuForMinor_stable_witness :
    ∃ x ∈ ([⟨1, 22, 3, [], []⟩, ⟨1, 23, 0, [], []⟩, ⟨1, 22, 10, [], []⟩] : List semver.Version),
      x.Major = strconv.decimalValue 0 "1".data ∧
      x.Minor = strconv.decimalValue 0 "22".data ∧
      (∀ y ∈ ([⟨1, 22, 3, [], []⟩, ⟨1, 23, 0, [], []⟩, ⟨1, 22, 10, [], []⟩] :
          List semver.Version),
        y.Major = strconv.decimalValue 0 "1".data →
        y.Minor = strconv.decimalValue 0 "22".data → ¬ x.LT y) ∧
      getLatestSkuForMinor semver.sortByInsertion (fun _ => none)
          ("stable-" ++ "1" ++ "." ++ "22")
          [⟨1, 22, 3, [], []⟩, ⟨1, 23, 0, [], []⟩, ⟨1, 22, 10, [], []⟩] =
        Except.ok ("v" ++ x.String) :=
  ((getLatestSkuForMinor_stable semver.sortByInsertion (fun _ => none) "1" "22"
      [⟨1, 22, 3, [], []⟩, ⟨1, 23, 0, [], []⟩, ⟨1, 22, 10, [], []⟩]
      (by decide) (by decide) (List.perm_insertionSort _ _) (by decide)).1
    (by decide) (by decide)).1 ⟨⟨1, 22, 3, [], []⟩, by decide, by decide, by decide⟩

/-- C16 fails as stated: for `stable-18446744073709551616.0` and an empty list of
versions, no version has that major and minor, yet the input string is not returned:
the expectation on the error of `strconv.ParseUint` fails. -/
theorem getLatestSkuForMinor_overflow :
    getLatestSkuForMinor (fun versions => versions) (fun _ => none)
        "stable-18446744073709551616.0" [] =
      Except.error Abort.expectationFailed := by
  rfl

end e2e

namespace async

open Go

/-- C15: polling with a token that has no entry in the table of operations (unknown or
expired) yields the error `OperationNotFound`; polling a known token whose operation
errored yields the error `OperationFailed`; and the two results are different. -/
theorem Poll_not_found_or_failed {ρ : Type} (table : OperationTable ρ)
    (token : OperationToken) :
    (table.lookup token = none →
      Poll table token = PollResult.Failed TrackerError.OperationNotFound) ∧
    (∀ cause : GoError, table.lookup token = some (OperationState.errored cause) →
      Poll table token = PollResult.Failed (TrackerError.OperationFailed cause)) ∧
    (∀ cause : GoError,
      (PollResult.Failed TrackerError.OperationNotFound : PollResult ρ) ≠
        PollResult.Failed (TrackerError.OperationFailed cause)) := by
  refine ⟨?_, ?_, ?_⟩
  · intro h
    simp [Poll, h]
  · intro cause h
    simp [Poll, h]
  · intro cause h
    cases h

/-- C15, at a concrete table: `op1` errored with `quota`, and `op2` is not known. -/
theorem Poll_not_found_or_failed_witness :
    Poll ([("op1", OperationState.errored (GoError.base "quota"))] : OperationTable Nat) "op2" =
      PollResult.Failed TrackerError.OperationNotFound ∧
    Poll ([("op1", OperationState.errored (GoError.base "quota"))] : OperationTable Nat) "op1" =
      PollResult.Failed (TrackerError.OperationFailed (GoError.base "quota")) :=
  ⟨(Poll_not_found_or_failed [("op1", OperationState.errored (GoError.base "quota"))] "op2").1
      rfl,
   (Poll_not_found_or_failed [("op1", OperationState.errored (GoError.base "quota"))]
      "op1").2.1 (GoError.base "quota") rfl⟩

end async
